import Mathlib

set_option maxHeartbeats 1000000

/-!
Verification of the gesture-driven interaction engine and the software 3D
projection pipeline of the `jarvis` AR hand-control application.

Conventions of the embedding:

* Machine floats are modelled by exact rationals (`ℚ`).  The source only ever
  compares distances and coordinates against constants and combines them with
  field operations, so rational arithmetic is a faithful model of the
  intended real-number semantics.
* Euclidean distances in the source are produced by `math.sqrt`, whose values
  are irrational.  Wherever the source *only compares* such a distance with a
  nonnegative bound we carry the squared distance and compare against the
  squared bound, which is equivalent (`sqrt s ≤ r ↔ s ≤ r²` for `0 ≤ r`).
  Wherever a distance value flows into further arithmetic (two-hand scaling,
  grab radii of the interaction engine) the engine model receives the distance
  function as an explicit parameter (`Geometry.dist` below); all interaction
  engine theorems hold for an arbitrary such function.
* Python `int(...)` and NumPy `astype(np.int32)` truncate toward zero; this is
  `truncQ` below.  Python `//` is floor division (`Int.fdiv`).
-/

namespace Jarvis

/-- Handedness label of a detected hand (`hand_label` in the source).  The
source carries a free-form lowercased string; only its equality with
`"left"`/`"right"` is ever consulted, so any other (or absent) value is
modelled by `unknown`. -/
inductive HandLabel where
  | left
  | right
  | unknown
deriving DecidableEq, Repr, Inhabited

/-- Discrete gesture labels produced by `_detect_gestures` /
`_detect_gestures_from_list`. -/
inductive Gesture where
  | fist
  | pointing
  | pinch
  | open_hand
  | peace
deriving DecidableEq, Repr, Inhabited

/-- Rotation axis selected from the controlling hand's handedness
(`rotation_axis` in the source: the strings `'x'` / `'y'`, or `None`). -/
inductive Axis where
  | x
  | y
deriving DecidableEq, Repr, Inhabited

/-- Truncation toward zero: the semantics of Python `int(...)` and of NumPy
`astype(np.int32)` (for values in range, which the embedding assumes). -/
def truncQ (q : ℚ) : ℤ := if 0 ≤ q then ⌊q⌋ else ⌈q⌉

/-! ## Hand frame interpreter (`HandGestureDetector`) -/

/-- The pinch classification of `_extract_hand_info` (lines 244-250) and,
identically, `_extract_hand_info_from_normalized` (lines 294-296).
`pinch_distance` is the thumb-tip-to-index-tip Euclidean distance in pixels;
the classifier only compares it against constants, so it is received here as
an arbitrary rational. -/
def pinch_classify (pinch_distance : ℚ) (thumb_bent index_bent : Bool) : Bool :=
  let is_pinching :=
    decide (pinch_distance < 60) && decide (pinch_distance > 10) &&
      (thumb_bent || index_bent || decide (pinch_distance < 35))
  if pinch_distance < 25 then true else is_pinching

/-- A normalized landmark point (`{x, y, z}` dict entries of the remote
skeleton payload). -/
structure LandmarkPoint where
  x : ℚ
  y : ℚ
  z : ℚ
deriving DecidableEq, Repr, Inhabited

/-- The remote skeleton payload consumed by `detect_hands`: a landmark list
plus an optional handedness hint. -/
structure Skeleton where
  landmarks : List LandmarkPoint
  handedness : Option HandLabel
deriving Repr, Inhabited

/-- One semantic hand record, as produced by
`_extract_hand_info_from_normalized`.  `pinch_distance_sq` is the square of
the source's `pinch_distance` (see file header). -/
structure HandFrame where
  thumb_pos : ℤ × ℤ
  index_pos : ℤ × ℤ
  middle_pos : ℤ × ℤ
  palm_center : ℤ × ℤ
  pinch_center : ℤ × ℤ
  wrist_pos : ℤ × ℤ
  gestures : List Gesture
  pinch_distance_sq : ℚ
  is_pinching : Bool
  thumb_bent : Bool
  index_bent : Bool
  hand_label : HandLabel
  hand_confidence : ℚ
  hand_idx : Nat
deriving DecidableEq, Repr, Inhabited

/-- Landmark access with the source's out-of-range default
(`get(i)` in `_extract_hand_info_from_normalized`: a missing index yields the
origin). -/
def lmGet (lm : List LandmarkPoint) (i : Nat) : LandmarkPoint :=
  (lm[i]?).getD ⟨0, 0, 0⟩

/-- `_detect_gestures_from_list`: count extended fingers and map the
combination to at most one gesture label. -/
def detect_gestures_from_list (lm : List LandmarkPoint) : List Gesture :=
  let xi := fun i => (lmGet lm i).x
  let yi := fun i => (lmGet lm i).y
  let thumb := decide (xi 4 > xi 3)
  let f1 := decide (yi 8 < yi 6)
  let f2 := decide (yi 12 < yi 10)
  let f3 := decide (yi 16 < yi 14)
  let f4 := decide (yi 20 < yi 18)
  let count : Nat :=
    (if thumb then 1 else 0) + (if f1 then 1 else 0) + (if f2 then 1 else 0) +
      (if f3 then 1 else 0) + (if f4 then 1 else 0)
  if count = 0 then [.fist]
  else if count = 1 && f1 then [.pointing]
  else if count = 2 && thumb && f1 then [.pinch]
  else if count = 5 then [.open_hand]
  else if count = 2 && f1 && f2 then [.peace]
  else []

/-- `_extract_hand_info_from_normalized`: build a `HandFrame` from normalized
landmark dicts.  Pixel positions truncate toward zero (`int(...)`), the pinch
center uses floor division (`// 2`), and the pinch classification compares
the squared distance against squared thresholds (60² = 3600, 10² = 100,
35² = 1225, 25² = 625), which is equivalent to the source's comparisons of
the (nonnegative) distance itself. -/
def extract_hand_info_from_normalized (lm : List LandmarkPoint) (w h : ℚ)
    (handedness : Option HandLabel) : HandFrame :=
  let thumb_tip := lmGet lm 4
  let index_tip := lmGet lm 8
  let middle_tip := lmGet lm 12
  let wrist := lmGet lm 0
  let index_mcp := lmGet lm 5
  let thumb_pos : ℤ × ℤ := (truncQ (thumb_tip.x * w), truncQ (thumb_tip.y * h))
  let index_pos : ℤ × ℤ := (truncQ (index_tip.x * w), truncQ (index_tip.y * h))
  let middle_pos : ℤ × ℤ := (truncQ (middle_tip.x * w), truncQ (middle_tip.y * h))
  let wrist_pos : ℤ × ℤ := (truncQ (wrist.x * w), truncQ (wrist.y * h))
  let palm_center : ℤ × ℤ :=
    (truncQ ((wrist.x + index_mcp.x) * w / 2), truncQ ((wrist.y + index_mcp.y) * h / 2))
  let pd2 : ℚ :=
    (((thumb_pos.1 - index_pos.1) ^ 2 + (thumb_pos.2 - index_pos.2) ^ 2 : ℤ) : ℚ)
  let pinch_center : ℤ × ℤ :=
    (Int.fdiv (thumb_pos.1 + index_pos.1) 2, Int.fdiv (thumb_pos.2 + index_pos.2) 2)
  let thumb_bent := decide (thumb_tip.x < (lmGet lm 3).x)
  let index_bent := decide (index_tip.y > (lmGet lm 6).y)
  let is_pinching :=
    decide (pd2 < 3600) && decide (pd2 > 100) &&
      (thumb_bent || index_bent || decide (pd2 < 1225))
  let is_pinching := if pd2 < 625 then true else is_pinching
  { thumb_pos := thumb_pos
    index_pos := index_pos
    middle_pos := middle_pos
    palm_center := palm_center
    pinch_center := pinch_center
    wrist_pos := wrist_pos
    gestures := detect_gestures_from_list lm
    pinch_distance_sq := pd2
    is_pinching := is_pinching
    thumb_bent := thumb_bent
    index_bent := index_bent
    hand_label := handedness.getD .unknown
    hand_confidence := if handedness.isSome then 1 else 0
    hand_idx := 0 }

/-- The remote-landmark branches of `detect_hands` (both the Socket.IO branch,
lines 130-159, and the Flask-polling branch, lines 160-176).  The network
fetch itself is out of scope; `skel` is whatever skeleton payload was
obtained (`none` for absent/failed/empty data, in which case the source
returns `[]`).  A nonempty landmark list yields exactly one record and its
`hand_idx` is set to 0. -/
def detect_hands_remote (skel : Option Skeleton) (w h : ℚ) : List HandFrame :=
  match skel with
  | none => []
  | some s =>
    if s.landmarks.isEmpty then []
    else [{ extract_hand_info_from_normalized s.landmarks w h s.handedness with hand_idx := 0 }]

/-! ## Transform pipeline (`renderer_3d.py`) -/

/-- A 4-component homogeneous vector over `ℚ`. -/
structure Vec4 where
  x : ℚ
  y : ℚ
  z : ℚ
  w : ℚ
deriving DecidableEq, Repr, Inhabited

/-- A 4×4 matrix over `ℚ`, stored as rows. -/
structure Mat4 where
  r0 : Vec4
  r1 : Vec4
  r2 : Vec4
  r3 : Vec4
deriving DecidableEq, Repr, Inhabited

/-- Dot product of two 4-vectors. -/
def dot4 (a b : Vec4) : ℚ := a.x * b.x + a.y * b.y + a.z * b.z + a.w * b.w

/-- Matrix-vector product (`vertices_4d @ mvp_matrix.T`, one row). -/
def matVec (m : Mat4) (v : Vec4) : Vec4 :=
  ⟨dot4 m.r0 v, dot4 m.r1 v, dot4 m.r2 v, dot4 m.r3 v⟩

/-- The identity matrix. -/
def idMat4 : Mat4 :=
  ⟨⟨1, 0, 0, 0⟩, ⟨0, 1, 0, 0⟩, ⟨0, 0, 1, 0⟩, ⟨0, 0, 0, 1⟩⟩

/-- Clip-space coordinates of one vertex under a combined
`Projection · View · Model` matrix (`Renderer3D.project_vertices`, the
`vertices_4d @ mvp_matrix.T` step with homogeneous coordinate 1). -/
def clip_of_vertex (mvp : Mat4) (v : ℚ × ℚ × ℚ) : Vec4 :=
  matVec mvp ⟨v.1, v.2.1, v.2.2, 1⟩

/-- The perspective divide of `project_vertices`
(`projected[:, :3] /= projected[:, 3:4]`), restricted to the X/Y components
that feed the screen mapping. -/
def ndc_of_clip (c : Vec4) : ℚ × ℚ := (c.x / c.w, c.y / c.w)

/-- The screen-coordinate mapping of `project_vertices`
(`x' = (x+1)·W/2`, `y' = (1-y)·H/2`) followed by the `astype(np.int32)`
truncation toward zero. -/
def screen_of_ndc (W H : ℚ) (p : ℚ × ℚ) : ℤ × ℤ :=
  (truncQ ((p.1 + 1) * W / 2), truncQ ((1 - p.2) * H / 2))

/-- One vertex of `Renderer3D.project_vertices`: clip transform, perspective
divide, screen mapping, int32 truncation. -/
def project_vertex (mvp : Mat4) (W H : ℚ) (v : ℚ × ℚ × ℚ) : ℤ × ℤ :=
  screen_of_ndc W H (ndc_of_clip (clip_of_vertex mvp v))

/-! ## Scene object model -/

/-- A 2D virtual object (`VirtualObject` in `ar_hand_control.py`). -/
structure Obj2D where
  x : ℚ
  y : ℚ
  size : ℚ
  original_size : ℚ
  is_grabbed : Nat
  grabbed_by_hand : List Nat
  selected : Bool
deriving DecidableEq, Repr, Inhabited

/-- A 3D virtual object (`VirtualObject3D` in `virtual_object_3d.py`).
`numVertices` is the length of the loaded vertex array (`len(self.vertices)`),
which gates `is_point_inside` and `get_screen_position`. -/
structure Obj3D where
  x : ℚ
  y : ℚ
  z : ℚ
  scale : ℚ
  original_scale : ℚ
  rotation_x : ℚ
  rotation_y : ℚ
  rotation_z : ℚ
  is_grabbed : Nat
  grabbed_by_hand : List Nat
  selected : Bool
  is_selected : Bool
  is_in_rotation_mode : Bool
  rotation_hand_idx : Option Nat
  last_rotation_hand_pos : Option (ℚ × ℚ)
  rotation_axis : Option Axis
  bounding_box_size : ℚ
  numVertices : Nat
deriving DecidableEq, Repr, Inhabited

/-- Clip-space position of a 3D object's center under the renderer's combined
`Projection · View` matrix (model matrix intentionally excluded; source
`vp_matrix = renderer.projection_matrix @ renderer.view_matrix` applied to
`[x, y, z, 1]`). -/
def center_clip (vp : Mat4) (o : Obj3D) : Vec4 := matVec vp ⟨o.x, o.y, o.z, 1⟩

/-- Screen position of the projected center:`((x/w)+1)·W/2, (1-(y/w))·H/2`
(no integer truncation in the source here). -/
def object_screen_center (vp : Mat4) (W H : ℚ) (o : Obj3D) : ℚ × ℚ :=
  let c := center_clip vp o
  ((c.x / c.w + 1) * W / 2, (1 - c.y / c.w) * H / 2)

/-- Hit radius of `VirtualObject3D.is_point_inside`:
`max(45, bounding_box_size * 65 * scale)`. -/
def hit_radius (o : Obj3D) : ℚ := max 45 (o.bounding_box_size * 65 * o.scale)

/-- Squared Euclidean distance between two screen points. -/
def dist_sq (a b : ℚ × ℚ) : ℚ := (a.1 - b.1) ^ 2 + (a.2 - b.2) ^ 2

/-- `VirtualObject3D.is_point_inside` (lines 217-243).  The source compares
`sqrt(dist²) ≤ hit_radius` with `hit_radius ≥ 45 > 0`; equivalently the
squared distance is compared with the squared radius here. -/
def is_point_inside_3d (vp : Mat4) (W H : ℚ) (o : Obj3D) (x y : ℚ) : Bool :=
  if o.numVertices = 0 then false
  else if (center_clip vp o).w ≤ 0 then false
  else decide (dist_sq (x, y) (object_screen_center vp W H o) ≤ hit_radius o ^ 2)

/-- `VirtualObject3D.get_screen_position` (lines 245-267). -/
def get_screen_position_3d (vp : Mat4) (W H : ℚ) (o : Obj3D) : Option (ℚ × ℚ) :=
  if o.numVertices = 0 then none
  else if (center_clip vp o).w ≤ 0 then none
  else some (object_screen_center vp W H o)

/-! ## Interaction engine (`ARHandController`)

The engine is modelled as a pure state-transition function over `Engine`.
Python object references become indices into the object lists; Python dicts
become insertion-ordered association lists.  All real-valued geometry that
the source obtains from `math.sqrt` or the fixed renderer instance enters
the engine only through the `Geometry` record of abstract functions, and the
engine theorems hold for every such record. -/

/-- The engine-level view of one detected hand (`hand_info` dict as consumed
by `_process_interactions`).  `pinch_distance` is the abstract Euclidean
pinch distance; the engine stores it but never computes with it. -/
structure HandInfo where
  hand_idx : Nat
  is_pinching : Bool
  pinch_center : ℚ × ℚ
  pinch_distance : ℚ
  palm_center : ℚ × ℚ
  thumb_pos : ℚ × ℚ
  index_pos : ℚ × ℚ
  hand_label : HandLabel
  gestures : List Gesture
deriving DecidableEq, Repr, Inhabited

/-- Per-hand 2D grab state (`self.grab_states[hand_idx]`).  The dict keys
`initial_size` and `initial_two_hand_distance` can be deleted and re-created,
hence `Option`. -/
structure Grab2D where
  obj : Nat
  initial_pinch_distance : ℚ
  initial_size : Option ℚ
  grab_offset_x : ℚ
  grab_offset_y : ℚ
  initial_two_hand_distance : Option ℚ
deriving DecidableEq, Repr, Inhabited

/-- Per-hand 3D grab state (`self.grab_states_3d[hand_idx]`). -/
structure Grab3D where
  obj : Nat
  initial_pinch_distance : ℚ
  initial_scale : Option ℚ
  initial_world_pos : ℚ × ℚ × ℚ
  grab_offset_x : ℚ
  grab_offset_y : ℚ
  last_pinch_center : ℚ × ℚ
  last_thumb_pos : ℚ × ℚ
  last_index_pos : ℚ × ℚ
  movement_sensitivity : ℚ
  initial_rotation : ℚ × ℚ × ℚ
  rotation_sensitivity : ℚ
  initial_two_hand_distance : Option ℚ
deriving DecidableEq, Repr, Inhabited

/-- Per-hand pinch debounce state (`self.pinch_states[hand_idx]`). -/
structure PinchState where
  was_pinching : Bool
  pinch_frames : Nat
deriving DecidableEq, Repr, Inhabited

/-- The debounce update of `_process_interactions` (lines 793-800): on a raw
pinch, increment the counter and latch on once it reaches 1; on no pinch,
reset both immediately. -/
def pinch_debounce_step (ps : PinchState) (is_pinching : Bool) : PinchState :=
  if is_pinching then
    let f := ps.pinch_frames + 1
    { pinch_frames := f, was_pinching := if 1 ≤ f then true else ps.was_pinching }
  else
    { pinch_frames := 0, was_pinching := false }

/-- The irrational-valued geometry of the running application, abstracted:
`dist` is the Euclidean distance between two points (`math.sqrt(dx²+dy²)`),
`inside3d` is `VirtualObject3D.is_point_inside` against the application's
fixed renderer, `screenPos` is `get_screen_position` likewise, and
`wrapAngle` is reduction modulo `2·π` (an irrational modulus).  Interaction
engine theorems are proved for an arbitrary `Geometry`. -/
structure Geometry where
  dist : (ℚ × ℚ) → (ℚ × ℚ) → ℚ
  inside3d : (ℚ × ℚ) → Obj3D → Bool
  screenPos : Obj3D → Option (ℚ × ℚ)
  wrapAngle : ℚ → ℚ

/-- The mutable state of `ARHandController` that `_process_interactions`
reads and writes. -/
structure Engine where
  objects : List Obj2D
  objects_3d : List Obj3D
  grab_states : List (Nat × Grab2D)
  grab_states_3d : List (Nat × Grab3D)
  pinch_states : List (Nat × PinchState)
  selection_mode_objects : List Nat
  show_2d_objects : Bool
  show_3d_objects : Bool
  current_hands_info : List HandInfo
deriving Repr, Inhabited

/-- Association-list lookup (Python `m[k]` / `k in m`). -/
def alookup {α : Type} : List (Nat × α) → Nat → Option α
  | [], _ => none
  | (k, v) :: r, k' => if k = k' then some v else alookup r k'

/-- Association-list assignment, preserving insertion order (Python
`m[k] = v`). -/
def aset {α : Type} : List (Nat × α) → Nat → α → List (Nat × α)
  | [], k, v => [(k, v)]
  | (k', v') :: r, k, v => if k' = k then (k, v) :: r else (k', v') :: aset r k v

/-- Association-list deletion (Python `del m[k]`, tolerating absence). -/
def aerase {α : Type} (m : List (Nat × α)) (k : Nat) : List (Nat × α) :=
  m.filter (fun p => decide (p.1 ≠ k))

/-- In-place modification of one entry's value, if present. -/
def amod {α : Type} (m : List (Nat × α)) (k : Nat) (f : α → α) : List (Nat × α) :=
  m.map (fun p => if p.1 = k then (p.1, f p.2) else p)

/-- Read a 2D object by index (in the source this is a direct object
reference, always valid; the default is never reached from well-formed
states). -/
def getObj2 (e : Engine) (i : Nat) : Obj2D := (e.objects[i]?).getD default

/-- Write back a 2D object by index. -/
def setObj2 (e : Engine) (i : Nat) (o : Obj2D) : Engine :=
  { e with objects := e.objects.set i o }

/-- Read a 3D object by index. -/
def getObj3 (e : Engine) (i : Nat) : Obj3D := (e.objects_3d[i]?).getD default

/-- Write back a 3D object by index. -/
def setObj3 (e : Engine) (i : Nat) (o : Obj3D) : Engine :=
  { e with objects_3d := e.objects_3d.set i o }

/-- Delete the two 2D two-hand-scaling dict keys (`initial_two_hand_distance`
and `initial_size`), as on every transition below two grabbing hands. -/
def clearScaling2 (s : Grab2D) : Grab2D :=
  { s with initial_two_hand_distance := none, initial_size := none }

/-- Delete the two 3D two-hand-scaling dict keys (`initial_two_hand_distance`
and `initial_scale`). -/
def clearScaling3 (s : Grab3D) : Grab3D :=
  { s with initial_two_hand_distance := none, initial_scale := none }

/-- Clear 2D scaling state on every listed hand that still has a grab state
(`for other_hand_idx in obj.grabbed_by_hand: if other_hand_idx in
self.grab_states: ...`). -/
def clearScalingOnHands2 (m : List (Nat × Grab2D)) (hands : List Nat) : List (Nat × Grab2D) :=
  hands.foldl (fun m h => amod m h clearScaling2) m

/-- Clear 3D scaling state on every listed hand that still has a grab
state. -/
def clearScalingOnHands3 (m : List (Nat × Grab3D)) (hands : List Nat) : List (Nat × Grab3D) :=
  hands.foldl (fun m h => amod m h clearScaling3) m

/-- Python dict assignment on the 2D grab-state map. -/
def setGrab2 (h : Nat) (gs : Grab2D) (e : Engine) : Engine :=
  { e with grab_states := aset e.grab_states h gs }

/-- Python dict assignment on the 3D grab-state map. -/
def setGrab3 (h : Nat) (gs : Grab3D) (e : Engine) : Engine :=
  { e with grab_states_3d := aset e.grab_states_3d h gs }

/-- Python dict assignment on the pinch-state map. -/
def setPinchState (h : Nat) (ps : PinchState) (e : Engine) : Engine :=
  { e with pinch_states := aset e.pinch_states h ps }

/-- `del self.grab_states[h]`. -/
def dropGrabState2 (h : Nat) (e : Engine) : Engine :=
  { e with grab_states := aerase e.grab_states h }

/-- `del self.grab_states_3d[h]`. -/
def dropGrabState3 (h : Nat) (e : Engine) : Engine :=
  { e with grab_states_3d := aerase e.grab_states_3d h }

/-- Remove a hand from a 2D object's grabbing list and recompute the grab
count (`obj.grabbed_by_hand.remove(hand_idx)` followed by
`obj.is_grabbed = len(obj.grabbed_by_hand)`). -/
def removeHand2 (h : Nat) (o : Obj2D) : Obj2D :=
  { o with grabbed_by_hand := o.grabbed_by_hand.erase h,
           is_grabbed := (o.grabbed_by_hand.erase h).length }

/-- Remove a hand from a 3D object's grabbing list and recompute the grab
count. -/
def removeHand3 (h : Nat) (o : Obj3D) : Obj3D :=
  { o with grabbed_by_hand := o.grabbed_by_hand.erase h,
           is_grabbed := (o.grabbed_by_hand.erase h).length }

/-- Append a hand to a 2D object's grabbing list (if absent), recompute the
grab count, and mark the object selected — the grab bookkeeping of
`_handle_pinch_interaction` (lines 1028-1034). -/
def addHand2 (h : Nat) (o : Obj2D) : Obj2D :=
  { o with
    grabbed_by_hand :=
      if h ∈ o.grabbed_by_hand then o.grabbed_by_hand else o.grabbed_by_hand ++ [h],
    is_grabbed :=
      (if h ∈ o.grabbed_by_hand then o.grabbed_by_hand else o.grabbed_by_hand ++ [h]).length,
    selected := true }

/-- Append a hand to a 3D object's grabbing list (if absent), recompute the
grab count, and mark the object selected (lines 1306-1312). -/
def addHand3 (h : Nat) (o : Obj3D) : Obj3D :=
  { o with
    grabbed_by_hand :=
      if h ∈ o.grabbed_by_hand then o.grabbed_by_hand else o.grabbed_by_hand ++ [h],
    is_grabbed :=
      (if h ∈ o.grabbed_by_hand then o.grabbed_by_hand else o.grabbed_by_hand ++ [h]).length,
    selected := true }

/-- Deselect a 2D object on full release (`if obj.is_grabbed == 0:
obj.selected = False`). -/
def deselectIfFree2 (o : Obj2D) : Obj2D :=
  if o.is_grabbed = 0 then { o with selected := false } else o

/-- `_update_rotation_axis_from_hand` (lines 1204-1221): derive the rotation
axis from the controlling hand's current handedness. -/
def updateRotationAxis (obj : Obj3D) (hands : List HandInfo) : Obj3D :=
  match obj.rotation_hand_idx with
  | none => { obj with rotation_axis := none }
  | some rh =>
    match hands.find? (fun x => x.hand_idx == rh) with
    | none => { obj with rotation_axis := none }
    | some rhi =>
      match rhi.hand_label with
      | .left => { obj with rotation_axis := some .x }
      | .right => { obj with rotation_axis := some .y }
      | .unknown => { obj with rotation_axis := none }

/-- Put an object into rotation mode owned by hand `h`, recording that hand's
current palm position as the rotation reference (lines 861-867 and
1193-1199). -/
def markRotationOwner (h : Nat) (hands : List HandInfo) (o : Obj3D) : Obj3D :=
  match hands.find? (fun x => x.hand_idx == h) with
  | some rhi =>
    { o with is_in_rotation_mode := true, rotation_hand_idx := some h,
             last_rotation_hand_pos := some rhi.palm_center }
  | none => { o with is_in_rotation_mode := true, rotation_hand_idx := some h }

/-- `_exit_rotation_mode` (lines 1272-1282): delete the rotation hand's
lingering 3D grab state, then clear all rotation-mode fields. -/
def exitRotationMode (e : Engine) (i : Nat) : Engine :=
  match (getObj3 e i).rotation_hand_idx with
  | some rh =>
    setObj3 (dropGrabState3 rh e) i
      { getObj3 e i with is_in_rotation_mode := false, rotation_hand_idx := none,
                         last_rotation_hand_pos := none, rotation_axis := none }
  | none =>
    setObj3 e i
      { getObj3 e i with is_in_rotation_mode := false, rotation_hand_idx := none,
                         last_rotation_hand_pos := none, rotation_axis := none }

/-- Clear 2D two-hand-scaling state on the remaining grabbers whenever the
object's grab count has dropped below two (lines 828-836 and 931-940). -/
def clearScalingBelow2_2d (i : Nat) (e : Engine) : Engine :=
  if (getObj2 e i).is_grabbed < 2 then
    { e with grab_states := clearScalingOnHands2 e.grab_states (getObj2 e i).grabbed_by_hand }
  else e

/-- Clear 3D two-hand-scaling state on the remaining grabbers whenever the
object's grab count has dropped below two (lines 904-913 and 961-970). -/
def clearScalingBelow2_3d (i : Nat) (e : Engine) : Engine :=
  if (getObj3 e i).is_grabbed < 2 then
    { e with grab_states_3d := clearScalingOnHands3 e.grab_states_3d (getObj3 e i).grabbed_by_hand }
  else e

/-- The 2D release block of `_process_interactions` (lines 816-838): remove
the hand from its object's grabbing list, recompute the grab count, deselect
on full release, clear two-hand-scaling state when dropping below two hands,
and delete the hand's grab state. -/
def release2dFor (e : Engine) (h : Nat) : Engine :=
  match alookup e.grab_states h with
  | none => e
  | some gs =>
    dropGrabState2 h (clearScalingBelow2_2d gs.obj
      (setObj2 e gs.obj (deselectIfFree2 (removeHand2 h (getObj2 e gs.obj)))))

/-- The guard of the rotation-mode entry in the 3D release block
(lines 847-859): the object is recorded as a two-hand grab and the other
grabbing hand is still raw-pinching this frame. -/
def rotationEntryCond (e : Engine) (i : Nat) (hands : List HandInfo) (h : Nat) : Bool :=
  decide ((getObj3 e i).is_grabbed = 2) && decide ((getObj3 e i).grabbed_by_hand.length = 2) &&
    (match (getObj3 e i).grabbed_by_hand.find? (fun k => decide (k ≠ h)) with
     | some other => hands.any (fun x => decide (x.hand_idx = other) && x.is_pinching)
     | none => false)

/-- The rotation-mode entry of the 3D release block (lines 860-884): mark the
object as rotation-owned by the releasing hand, refresh the axis, remove the
hand from the grabbing list, recompute the count, and clear the hand's
scaling snapshot while keeping its grab state. -/
def setRotationEntry (e : Engine) (i : Nat) (hands : List HandInfo) (h : Nat) (gs : Grab3D) :
    Engine :=
  setGrab3 h (clearScaling3 gs)
    (setObj3 e i (removeHand3 h (updateRotationAxis (markRotationOwner h hands (getObj3 e i)) hands)))

/-- Exit rotation mode if the releasing hand was the rotation owner
(lines 893-895). -/
def exitIfRotationOwner (h i : Nat) (e : Engine) : Engine :=
  if (getObj3 e i).is_in_rotation_mode && decide ((getObj3 e i).rotation_hand_idx = some h) then
    exitRotationMode e i
  else e

/-- Deselect and fully clear rotation state on a 3D object whose grab count
reached zero (lines 897-902). -/
def resetIfFree3 (i : Nat) (e : Engine) : Engine :=
  if (getObj3 e i).is_grabbed = 0 then
    setObj3 e i
      { getObj3 e i with selected := false, is_in_rotation_mode := false,
                         rotation_hand_idx := none, last_rotation_hand_pos := none }
  else e

/-- The 3D release block of `_process_interactions` (lines 840-917): either
the rotation-mode entry (two-hand grab with the other hand still pinching) or
the normal release path. -/
def release3dFor (e : Engine) (hands : List HandInfo) (h : Nat) : Engine :=
  match alookup e.grab_states_3d h with
  | none => e
  | some gs =>
    if rotationEntryCond e gs.obj hands h then
      setRotationEntry e gs.obj hands h gs
    else
      dropGrabState3 h (clearScalingBelow2_3d gs.obj (resetIfFree3 gs.obj
        (exitIfRotationOwner h gs.obj
          (setObj3 e gs.obj (removeHand3 h (getObj3 e gs.obj))))))

/-- The paired scan of `self.current_hands_info` in
`_handle_two_hand_scaling_2d` (lines 1070-1074): an `if`/`elif` chain in
which a later matching record overwrites an earlier one. -/
def findPair (hands : List HandInfo) (h1 h2 : Nat) : Option HandInfo × Option HandInfo :=
  hands.foldl (fun acc hi =>
    if hi.hand_idx = h1 then (some hi, acc.2)
    else if hi.hand_idx = h2 then (acc.1, some hi)
    else acc) (none, none)

/-- The two hands of an object's grabbing list that still hold 2D grab
states, when there are exactly two of them (`grabbing_hands`,
lines 1059-1062). -/
def grabbingPair2 (e : Engine) (o : Obj2D) : Option (Nat × Nat) :=
  match o.grabbed_by_hand.filter (fun k => (alookup e.grab_states k).isSome) with
  | [h1, h2] => some (h1, h2)
  | _ => none

/-- The two hands of an object's grabbing list that still hold 3D grab
states, when there are exactly two of them (lines 1130-1132). -/
def grabbingPair3 (e : Engine) (o : Obj3D) : Option (Nat × Nat) :=
  match o.grabbed_by_hand.filter (fun k => (alookup e.grab_states_3d k).isSome) with
  | [h1, h2] => some (h1, h2)
  | _ => none

/-- Baseline snapshot of 2D two-hand scaling (lines 1083-1088): on the first
two-hand frame, record the current inter-hand distance and object size in
both hands' grab states. -/
def scalingPairInit2d (h1 h2 : Nat) (d size : ℚ) (e : Engine) : Engine :=
  match alookup e.grab_states h1, alookup e.grab_states h2 with
  | some s1, some s2 =>
    if s1.initial_two_hand_distance = none then
      setGrab2 h2 { s2 with initial_two_hand_distance := some d, initial_size := some size }
        (setGrab2 h1 { s1 with initial_two_hand_distance := some d, initial_size := some size } e)
    else e
  | _, _ => e

/-- The smoothed, clamped 2D size update (lines 1092-1099):
`size := clamp(size·0.7 + (s0·sf)·0.3, 20, 200)` where `sf` is the ratio of
the current to the baseline distance. -/
def scaleSmoothed2 (s0 sf : ℚ) (o : Obj2D) : Obj2D :=
  { o with size := max 20 (min 200 (o.size * (7 / 10) + (s0 * sf) * (3 / 10))) }

/-- Apply the 2D scaling formula from the first hand's recorded baseline
(lines 1090-1099); the guard `initial_distance > 0` is the source's. -/
def applySmoothScale2d (i h1 : Nat) (d : ℚ) (e : Engine) : Engine :=
  match alookup e.grab_states h1 with
  | some s1 =>
    match s1.initial_two_hand_distance with
    | some initial_distance =>
      if 0 < initial_distance then
        setObj2 e i (scaleSmoothed2 (s1.initial_size.getD 0) (d / initial_distance) (getObj2 e i))
      else e
    | none => e
  | none => e

/-- `_handle_two_hand_scaling_2d` (lines 1056-1099).  Note the source reads
`self.current_hands_info`, which `_process_frame` assigns only after
`_process_interactions`, i.e. the previous frame's hand records. -/
def twoHandScaling2d (g : Geometry) (e : Engine) (i : Nat) : Engine :=
  match grabbingPair2 e (getObj2 e i) with
  | some (h1, h2) =>
    match findPair e.current_hands_info h1 h2 with
    | (some a, some b) =>
      applySmoothScale2d i h1 (g.dist a.pinch_center b.pinch_center)
        (scalingPairInit2d h1 h2 (g.dist a.pinch_center b.pinch_center) (getObj2 e i).size e)
    | _ => e
  | none => e

/-- The closest-2D-object search of `_handle_pinch_interaction`
(lines 1014-1025): among objects with grab count < 2 whose center is within
`obj.size` of the pinch center, the one at minimal distance (earlier index
wins ties). -/
def closest2dTarget (g : Geometry) (e : Engine) (pc : ℚ × ℚ) : Option (Nat × ℚ) :=
  (List.range e.objects.length).foldl (fun best i =>
    if (getObj2 e i).is_grabbed < 2 then
      if decide (g.dist ((getObj2 e i).x, (getObj2 e i).y) pc ≤ (getObj2 e i).size) &&
         (match best with
          | none => true
          | some b => decide (g.dist ((getObj2 e i).x, (getObj2 e i).y) pc < b.2)) then
        some (i, g.dist ((getObj2 e i).x, (getObj2 e i).y) pc)
      else best
    else best) none

/-- The freshly recorded 2D grab state (lines 1035-1041). -/
def mkGrab2 (i : Nat) (hi : HandInfo) (o : Obj2D) : Grab2D :=
  { obj := i
    initial_pinch_distance := hi.pinch_distance
    initial_size := some o.size
    grab_offset_x := hi.pinch_center.1 - o.x
    grab_offset_y := hi.pinch_center.2 - o.y
    initial_two_hand_distance := none }

/-- The 2D grab attempt of `_handle_pinch_interaction` (lines 1013-1041). -/
def grab2dNew (g : Geometry) (hi : HandInfo) (h : Nat) (e : Engine) : Engine :=
  match closest2dTarget g e hi.pinch_center with
  | none => e
  | some (i, _) =>
    setGrab2 h (mkGrab2 i hi (addHand2 h (getObj2 e i)))
      (setObj2 e i (addHand2 h (getObj2 e i)))

/-- Move a grabbed 2D object to the pinch center minus the stored grab offset
(lines 1047-1050). -/
def moveObj2 (hi : HandInfo) (gs : Grab2D) (o : Obj2D) : Obj2D :=
  { o with x := hi.pinch_center.1 - gs.grab_offset_x,
           y := hi.pinch_center.2 - gs.grab_offset_y }

/-- `_handle_pinch_interaction` (lines 1008-1054): grab the closest eligible
2D object, or continue moving (and, at grab count exactly 2, two-hand
scaling) an already grabbed one.  The move does not change the grab count,
so the scaling guard reads the pre-move count. -/
def handlePinch2d (g : Geometry) (e : Engine) (hi : HandInfo) (h : Nat) : Engine :=
  match alookup e.grab_states h with
  | none => grab2dNew g hi h e
  | some gs =>
    if (getObj2 e gs.obj).is_grabbed = 2 then
      twoHandScaling2d g (setObj2 e gs.obj (moveObj2 hi gs (getObj2 e gs.obj))) gs.obj
    else setObj2 e gs.obj (moveObj2 hi gs (getObj2 e gs.obj))

/-- The first 3D object eligible for grabbing: grab count < 2 and the pinch
center inside it (lines 1294-1303; only the first hit is ever kept because
the source compares the constant `distance = 0` against the running
minimum). -/
def find3dTarget (g : Geometry) (e : Engine) (pc : ℚ × ℚ) : Option Nat :=
  (List.range e.objects_3d.length).find? (fun i =>
    decide ((getObj3 e i).is_grabbed < 2) && g.inside3d pc (getObj3 e i))

/-- The freshly recorded 3D grab state (lines 1314-1330), with the grab
offset from `get_screen_position` (0 on `None`). -/
def mkGrab3 (g : Geometry) (i : Nat) (hi : HandInfo) (o : Obj3D) : Grab3D :=
  { obj := i
    initial_pinch_distance := hi.pinch_distance
    initial_scale := some o.scale
    initial_world_pos := (o.x, o.y, o.z)
    grab_offset_x := match g.screenPos o with
                     | some p => hi.pinch_center.1 - p.1
                     | none => 0
    grab_offset_y := match g.screenPos o with
                     | some p => hi.pinch_center.2 - p.2
                     | none => 0
    last_pinch_center := hi.pinch_center
    last_thumb_pos := hi.thumb_pos
    last_index_pos := hi.index_pos
    movement_sensitivity := 15 / 1000
    initial_rotation := (o.rotation_x, o.rotation_y, o.rotation_z)
    rotation_sensitivity := 1 / 100
    initial_two_hand_distance := none }

/-- The 3D grab attempt of `_handle_pinch_interaction_3d`
(lines 1292-1331). -/
def grab3dNew (g : Geometry) (hi : HandInfo) (h : Nat) (e : Engine) : Engine × Bool :=
  match find3dTarget g e hi.pinch_center with
  | none => (e, false)
  | some i =>
    (setGrab3 h (mkGrab3 g i hi (addHand3 h (getObj3 e i)))
       (setObj3 e i (addHand3 h (getObj3 e i))), true)

/-- Translate a grabbed 3D object by the pinch-center delta scaled by the
movement sensitivity, Y inverted (lines 1346-1354). -/
def moveObj3 (hi : HandInfo) (gs : Grab3D) (o : Obj3D) : Obj3D :=
  { o with x := o.x + (hi.pinch_center.1 - gs.last_pinch_center.1) * gs.movement_sensitivity,
           y := o.y + -(hi.pinch_center.2 - gs.last_pinch_center.2) * gs.movement_sensitivity }

/-- Record the current pinch-center/finger positions in the hand's 3D grab
state (lines 1357-1360). -/
def trackLast3 (hi : HandInfo) (h : Nat) (e : Engine) : Engine :=
  { e with grab_states_3d := amod e.grab_states_3d h (fun s =>
      { s with last_pinch_center := hi.pinch_center, last_thumb_pos := hi.thumb_pos,
               last_index_pos := hi.index_pos }) }

/-- The continue-interaction branch of `_handle_pinch_interaction_3d`
(lines 1332-1362): move only when the pinch center moved more than 0.5
pixels, then update the tracking fields. -/
def continue3d (g : Geometry) (hi : HandInfo) (h : Nat) (gs : Grab3D) (e : Engine) : Engine :=
  if 1 / 2 < g.dist hi.pinch_center gs.last_pinch_center then
    trackLast3 hi h (setObj3 e gs.obj (moveObj3 hi gs (getObj3 e gs.obj)))
  else trackLast3 hi h e

/-- `_handle_pinch_interaction_3d` (lines 1285-1364), returning the engine
plus the source's boolean result. -/
def handlePinch3d (g : Geometry) (e : Engine) (hi : HandInfo) (h : Nat) : Engine × Bool :=
  match alookup e.grab_states_3d h with
  | none => grab3dNew g hi h e
  | some gs => (continue3d g hi h gs e, true)

/-- `_update_selection_mode_objects` (lines 1114-1125): recompute the set of
3D objects grabbed by exactly two hands and their `is_selected` marks. -/
def updateSelectionModeObjects (e : Engine) : Engine :=
  { e with
    objects_3d := e.objects_3d.map (fun o =>
      if o.is_grabbed = 2 then { o with is_selected := true } else { o with is_selected := false }),
    selection_mode_objects := (List.range e.objects_3d.length).filter
      (fun i => decide ((getObj3 e i).is_grabbed = 2)) }

/-- Baseline snapshot of 3D two-hand scaling (lines 1158-1162); unlike the 2D
case, only the first hand's state records the baseline. -/
def scalingInit3d (h1 : Nat) (d scaleNow : ℚ) (e : Engine) : Engine :=
  match alookup e.grab_states_3d h1 with
  | some s1 =>
    if s1.initial_two_hand_distance = none then
      setGrab3 h1 { s1 with initial_two_hand_distance := some d, initial_scale := some scaleNow } e
    else e
  | none => e

/-- The smoothed, clamped 3D scale update (lines 1166-1173):
`scale := clamp(scale·0.7 + (s0·sf)·0.3, 0.1, 5.0)`. -/
def scaleSmoothed3 (s0 sf : ℚ) (o : Obj3D) : Obj3D :=
  { o with scale := max (1 / 10) (min 5 (o.scale * (7 / 10) + (s0 * sf) * (3 / 10))) }

/-- Apply the 3D scaling formula from the first hand's recorded baseline
(lines 1164-1173). -/
def applySmoothScale3d (i h1 : Nat) (d : ℚ) (e : Engine) : Engine :=
  match alookup e.grab_states_3d h1 with
  | some s1 =>
    match s1.initial_two_hand_distance with
    | some initial_distance =>
      if 0 < initial_distance then
        setObj3 e i (scaleSmoothed3 (s1.initial_scale.getD 0) (d / initial_distance) (getObj3 e i))
      else e
    | none => e
  | none => e

/-- `_handle_selection_scaling` (lines 1146-1173). -/
def selectionScaling (g : Geometry) (e : Engine) (i h1 h2 : Nat) (hands : List HandInfo) :
    Engine :=
  match hands.find? (fun x => x.hand_idx == h1), hands.find? (fun x => x.hand_idx == h2) with
  | some a, some b =>
    applySmoothScale3d i h1 (g.dist a.pinch_center b.pinch_center)
      (scalingInit3d h1 (g.dist a.pinch_center b.pinch_center) (getObj3 e i).scale e)
  | _, _ => e

/-- `_transition_to_rotation_mode` (lines 1176-1202): if exactly one of the
two hands is still raw-pinching, put the object into rotation mode owned by
the released hand (note: this function does not touch the grabbing list or
the grab count). -/
def transitionToRotationMode (e : Engine) (i h1 h2 : Nat) (hands : List HandInfo) : Engine :=
  if (hands.any fun x => decide (x.hand_idx = h1) && x.is_pinching) &&
     !(hands.any fun x => decide (x.hand_idx = h2) && x.is_pinching) then
    setObj3 e i (updateRotationAxis (markRotationOwner h2 hands (getObj3 e i)) hands)
  else if (hands.any fun x => decide (x.hand_idx = h2) && x.is_pinching) &&
          !(hands.any fun x => decide (x.hand_idx = h1) && x.is_pinching) then
    setObj3 e i (updateRotationAxis (markRotationOwner h1 hands (getObj3 e i)) hands)
  else e

/-- `_handle_selection_mode_interactions` (lines 1127-1144). -/
def selectionModeInteractions (g : Geometry) (hands : List HandInfo) (e : Engine) (i : Nat) :
    Engine :=
  match grabbingPair3 e (getObj3 e i) with
  | some (h1, h2) =>
    if (hands.any fun x => decide (x.hand_idx = h1) && x.is_pinching) &&
       (hands.any fun x => decide (x.hand_idx = h2) && x.is_pinching) then
      selectionScaling g e i h1 h2 hands
    else if (hands.any fun x => decide (x.hand_idx = h1) && x.is_pinching) ||
            (hands.any fun x => decide (x.hand_idx = h2) && x.is_pinching) then
      transitionToRotationMode e i h1 h2 hands
    else e
  | none => e

/-- The rotation applied to an object in rotation mode from a palm-position
delta (lines 1251-1265): X-axis tilt when the axis is `x`, otherwise Y-axis
spin, each behind a 4-pixel threshold, wrapped by `% (2π)`. -/
def rotationSpin (g : Geometry) (delta_x delta_y : ℚ) (o : Obj3D) : Obj3D :=
  match o.rotation_axis with
  | some Axis.x =>
    if 4 < |delta_y| then
      { o with rotation_x := g.wrapAngle (o.rotation_x - delta_y * (1 / 100)) }
    else o
  | _ =>
    if 4 < |delta_x| then
      { o with rotation_y := g.wrapAngle (o.rotation_y - delta_x * (1 / 100)) }
    else o

/-- The per-object body of `_handle_rotation_mode_3d` once the rotation hand
was found (lines 1235-1267): initialize or update the reference position, and
apply a rotation only when the hand is neither pinching nor making a fist. -/
def rotationBody (g : Geometry) (rhi : HandInfo) (o : Obj3D) : Obj3D :=
  match o.last_rotation_hand_pos with
  | none => { o with last_rotation_hand_pos := some rhi.palm_center }
  | some last_pos =>
    if rhi.is_pinching then { o with last_rotation_hand_pos := some rhi.palm_center }
    else if decide (Gesture.fist ∈ rhi.gestures) && decide (Gesture.open_hand ∉ rhi.gestures) then
      { o with last_rotation_hand_pos := some rhi.palm_center }
    else
      { rotationSpin g (rhi.palm_center.1 - last_pos.1) (rhi.palm_center.2 - last_pos.2) o with
        last_rotation_hand_pos := some rhi.palm_center }

/-- One object's turn in `_handle_rotation_mode_3d` (lines 1223-1270). -/
def rotationModeStep (g : Geometry) (hands : List HandInfo) (e : Engine) (i : Nat) : Engine :=
  if (getObj3 e i).is_in_rotation_mode then
    match (getObj3 e i).rotation_hand_idx with
    | none => exitRotationMode e i
    | some rh =>
      match hands.find? (fun x => x.hand_idx == rh) with
      | none => exitRotationMode (setObj3 e i (updateRotationAxis (getObj3 e i) hands)) i
      | some rhi =>
        setObj3 e i (rotationBody g rhi (updateRotationAxis (getObj3 e i) hands))
  else e

/-- The rotation-mode pass over all 3D objects (lines 1225-1270). -/
def rotationLoop (g : Geometry) (hands : List HandInfo) (e : Engine) : Engine :=
  (List.range e.objects_3d.length).foldl (rotationModeStep g hands) e

/-- The per-selected-object pass of `_handle_selection_mode_3d`
(lines 1107-1109). -/
def selectionInteractLoop (g : Geometry) (hands : List HandInfo) (e : Engine) : Engine :=
  e.selection_mode_objects.foldl (selectionModeInteractions g hands) e

/-- `_handle_selection_mode_3d` (lines 1102-1112): selection-set update,
per-selected-object interactions, then rotation-mode handling for every
object. -/
def handleSelectionMode3d (g : Geometry) (hands : List HandInfo) (e : Engine) : Engine :=
  rotationLoop g hands (selectionInteractLoop g hands (updateSelectionModeObjects e))

/-- One key's turn in the 2D hand-loss cleanup (lines 920-942): a hand that
holds a 2D grab state but was not seen grabbing this frame is released (the
source's cleanup does not deselect the object). -/
def cleanup2dOne (cg : List Nat) (e : Engine) (k : Nat) : Engine :=
  if k ∈ cg then e
  else
    match alookup e.grab_states k with
    | none => e
    | some gs =>
      clearScalingBelow2_2d gs.obj (setObj2 e gs.obj (removeHand2 k (getObj2 e gs.obj)))

/-- Deletion of the stale 2D grab states and their pinch states
(lines 944-948): `keys` is the key set of the grab-state map when the
cleanup loop started (the loop never changes it). -/
def dropStale2 (keys cg : List Nat) (e : Engine) : Engine :=
  { e with
    grab_states := e.grab_states.filter (fun p => decide (p.1 ∈ cg)),
    pinch_states := e.pinch_states.filter (fun p => decide (p.1 ∈ cg) || decide (p.1 ∉ keys)) }

/-- The 2D hand-loss cleanup (lines 920-948). -/
def cleanup2d (cg : List Nat) (e : Engine) : Engine :=
  dropStale2 (e.grab_states.map (fun p => p.1)) cg
    ((e.grab_states.map (fun p => p.1)).foldl (cleanup2dOne cg) e)

/-- One key's turn in the 3D hand-loss cleanup (lines 950-972). -/
def cleanup3dOne (cg3 : List Nat) (e : Engine) (k : Nat) : Engine :=
  if k ∈ cg3 then e
  else
    match alookup e.grab_states_3d k with
    | none => e
    | some gs =>
      clearScalingBelow2_3d gs.obj (setObj3 e gs.obj (removeHand3 k (getObj3 e gs.obj)))

/-- Deletion of the stale 3D grab states (lines 974-975). -/
def dropStale3 (cg3 : List Nat) (e : Engine) : Engine :=
  { e with grab_states_3d := e.grab_states_3d.filter (fun p => decide (p.1 ∈ cg3)) }

/-- The 3D hand-loss cleanup (lines 950-975). -/
def cleanup3d (cg3 : List Nat) (e : Engine) : Engine :=
  dropStale3 cg3 ((e.grab_states_3d.map (fun p => p.1)).foldl (cleanup3dOne cg3) e)

/-- One object's turn in the rotation-mode cleanup for objects no longer
grabbed (lines 981-984). -/
def rotUngrabbedStep (e : Engine) (i : Nat) : Engine :=
  if (getObj3 e i).is_in_rotation_mode && decide ((getObj3 e i).is_grabbed = 0) then
    exitRotationMode e i
  else e

/-- Rotation-mode cleanup for objects no longer grabbed (lines 981-984). -/
def rotCleanupUngrabbed (e : Engine) : Engine :=
  (List.range e.objects_3d.length).foldl rotUngrabbedStep e

/-- One object's turn in the rotation-mode cleanup for rotation hands no
longer detected (lines 986-992). -/
def rotLostStep (hands : List HandInfo) (e : Engine) (i : Nat) : Engine :=
  match (getObj3 e i).rotation_hand_idx with
  | some rh =>
    if (getObj3 e i).is_in_rotation_mode && !(hands.any (fun x => x.hand_idx == rh)) then
      exitRotationMode e i
    else e
  | none => e

/-- Rotation-mode cleanup for rotation hands no longer detected
(lines 986-992). -/
def rotCleanupLostHand (hands : List HandInfo) (e : Engine) : Engine :=
  (List.range e.objects_3d.length).foldl (rotLostStep hands) e

/-- The no-hands global safety reset (lines 994-1006). -/
def noHandsReset (e : Engine) : Engine :=
  { e with
    objects := e.objects.map (fun o =>
      if 0 < o.is_grabbed then { o with is_grabbed := 0, grabbed_by_hand := [] } else o),
    objects_3d := e.objects_3d.map (fun o =>
      if 0 < o.is_grabbed then { o with is_grabbed := 0, grabbed_by_hand := [] } else o),
    grab_states := [], grab_states_3d := [], pinch_states := [] }

/-- Accumulator of the per-hand loop: engine state plus the `current_grabs`
and `current_grabs_3d` sets. -/
structure LoopAcc where
  eng : Engine
  cg : List Nat
  cg3 : List Nat

/-- Set insertion for the `current_grabs` sets. -/
def addIdx (l : List Nat) (h : Nat) : List Nat := if h ∈ l then l else h :: l

/-- The debounce update applied to a hand's stored pinch state
(lines 787-803): initialize the entry if missing, then run the counter
update. -/
def debounced (e : Engine) (hi : HandInfo) : PinchState :=
  pinch_debounce_step
    ((alookup e.pinch_states hi.hand_idx).getD { was_pinching := false, pinch_frames := 0 })
    hi.is_pinching

/-- One hand's turn in the main loop of `_process_interactions`
(lines 783-917): debounce, then either the grab/continue handlers (3D first,
2D otherwise) or the release blocks. -/
def processHand (g : Geometry) (hands : List HandInfo) (acc : LoopAcc) (hi : HandInfo) :
    LoopAcc :=
  if (debounced acc.eng hi).was_pinching then
    if acc.eng.show_3d_objects then
      match handlePinch3d g (setPinchState hi.hand_idx (debounced acc.eng hi) acc.eng) hi
          hi.hand_idx with
      | (e2, true) => { eng := e2, cg := acc.cg, cg3 := addIdx acc.cg3 hi.hand_idx }
      | (e2, false) =>
        if e2.show_2d_objects then
          { eng := handlePinch2d g e2 hi hi.hand_idx, cg := addIdx acc.cg hi.hand_idx,
            cg3 := acc.cg3 }
        else { acc with eng := e2 }
    else if acc.eng.show_2d_objects then
      { eng := handlePinch2d g (setPinchState hi.hand_idx (debounced acc.eng hi) acc.eng) hi
          hi.hand_idx,
        cg := addIdx acc.cg hi.hand_idx, cg3 := acc.cg3 }
    else { acc with eng := setPinchState hi.hand_idx (debounced acc.eng hi) acc.eng }
  else
    { acc with eng := (release3dFor
        (release2dFor (setPinchState hi.hand_idx (debounced acc.eng hi) acc.eng) hi.hand_idx)
        hands hi.hand_idx) }

/-- The main per-hand loop of `_process_interactions` (lines 780-917). -/
def afterHands (g : Geometry) (hands : List HandInfo) (e : Engine) : LoopAcc :=
  hands.foldl (processHand g hands) { eng := e, cg := [], cg3 := [] }

/-- The selection/rotation phase gate (line 978). -/
def selectionPhase (g : Geometry) (hands : List HandInfo) (e : Engine) : Engine :=
  if e.show_3d_objects then handleSelectionMode3d g hands e else e

/-- The no-hands reset gate (line 995). -/
def resetPhase (hands : List HandInfo) (e : Engine) : Engine :=
  if hands.isEmpty then noHandsReset e else e

/-- `_process_interactions` (lines 778-1006), one whole frame of the
interaction engine. -/
def processInteractions (g : Geometry) (hands : List HandInfo) (e : Engine) : Engine :=
  match afterHands g hands e with
  | ⟨e1, cg, cg3⟩ =>
    resetPhase hands (rotCleanupLostHand hands (rotCleanupUngrabbed
      (selectionPhase g hands (cleanup3d cg3 (cleanup2d cg e1)))))

/-- One frame step as driven by `_process_frame`: run
`_process_interactions`, then store this frame's hand records in
`current_hands_info` (the source assigns `self.current_hands_info` only
after the interaction update). -/
def stepFrame (g : Geometry) (hands : List HandInfo) (e : Engine) : Engine :=
  { processInteractions g hands e with current_hands_info := hands }

/-! ## Verification predicates and concrete fixtures -/

/-- The grab-count bookkeeping invariant for a 2D object: the grab count
field equals the length of the grabbing-hand list. -/
def Sync2 (o : Obj2D) : Prop := o.is_grabbed = o.grabbed_by_hand.length

/-- The grab-count bookkeeping invariant for a 3D object. -/
def Sync3 (o : Obj3D) : Prop := o.is_grabbed = o.grabbed_by_hand.length

/-- The grab-count invariant over all objects of the engine. -/
def SyncAll (e : Engine) : Prop :=
  (∀ o ∈ e.objects, Sync2 o) ∧ (∀ o ∈ e.objects_3d, Sync3 o)

/-- A 3D object in rotation mode has a defined rotation-owner hand index. -/
def RotOwner (o : Obj3D) : Prop :=
  o.is_in_rotation_mode = true → o.rotation_hand_idx.isSome = true

/-- The rotation-owner invariant over all 3D objects of the engine. -/
def RotOwnerAll (e : Engine) : Prop := ∀ o ∈ e.objects_3d, RotOwner o

/-- Geometry record for concrete executions of the engine model.  Every
fixture hand sits at the origin, so all distances the run ever queries are
between coincident points, where the true Euclidean distance is 0; the hit
test answers true, matching a pinch at an object's projected screen center
(the hit radius is at least 45 pixels); `get_screen_position` is taken as
`none` (grab offsets default to 0, exactly the source's fallback); angle
wrapping is queried only on angles the run never produces. -/
def execGeometry : Geometry :=
  { dist := fun _ _ => 0
    inside3d := fun _ _ => true
    screenPos := fun _ => none
    wrapAngle := fun q => q }

/-- A fixture hand record at the origin with the given index and raw pinch
flag. -/
def execHand (i : Nat) (b : Bool) : HandInfo :=
  { hand_idx := i, is_pinching := b, pinch_center := (0, 0), pinch_distance := 0,
    palm_center := (0, 0), thumb_pos := (0, 0), index_pos := (0, 0),
    hand_label := HandLabel.unknown, gestures := [] }

/-- A fixture 2D object mirroring the first initial object of
`_create_initial_objects` (position (200,200), size 60). -/
def execObj2 : Obj2D :=
  { x := 200, y := 200, size := 60, original_size := 60,
    is_grabbed := 0, grabbed_by_hand := [], selected := false }

/-- A fixture 3D object mirroring a freshly loaded model (nonempty mesh,
grab-free, not in rotation mode). -/
def execObj3 : Obj3D :=
  { (default : Obj3D) with
    x := 0
    y := 0
    z := -4
    scale := 7 / 10
    original_scale := 7 / 10
    bounding_box_size := 7 / 5
    numVertices := 8 }

/-- A fixture engine in its initial configuration: one 2D and one 3D object,
no grabs, all transient maps empty. -/
def execEngine : Engine :=
  { objects := [execObj2], objects_3d := [execObj3], grab_states := [],
    grab_states_3d := [], pinch_states := [], selection_mode_objects := [],
    show_2d_objects := true, show_3d_objects := true, current_hands_info := [] }

/-- Three concrete frames from the initial fixture engine: hands 0 and 1
pinch-grab the 3D object (two-hand grab), hand 0 releases while hand 1 keeps
pinching (rotation-mode entry owned by hand 0), then hand 0 pinches again and
re-grabs the object, which is still in rotation mode. -/
def rotationRegrabRun : Engine :=
  stepFrame execGeometry [execHand 0 true, execHand 1 true]
    (stepFrame execGeometry [execHand 0 false, execHand 1 true]
      (stepFrame execGeometry [execHand 0 true, execHand 1 true] execEngine))


/-- Engine fixture family for the two-hand-release scenarios: one 3D object,
hands 0 and 1 holding 3D grab states on it, 2D objects hidden, 3D shown. -/
def mkC4Engine (O : Obj3D) (s1 s2 : Grab3D) (ps : List (Nat × PinchState))
    (sel : List Nat) (chi : List HandInfo) : Engine :=
  { objects := [], objects_3d := [O], grab_states := [],
    grab_states_3d := [(0, s1), (1, s2)], pinch_states := ps,
    selection_mode_objects := sel, show_2d_objects := false, show_3d_objects := true,
    current_hands_info := chi }

/-- A 3D object under a two-hand grab by hands 0 and 1. -/
def c4Obj : Obj3D :=
  { (default : Obj3D) with is_grabbed := 2, grabbed_by_hand := [0, 1] }

/-- A minimal 3D grab state on object 0. -/
def c4Grab : Grab3D :=
  { (default : Grab3D) with obj := 0 }

/-! ## General helper lemmas -/

/-- Invariance of a predicate under a left fold. -/
theorem foldl_preserve {α β : Type} {P : α → Prop} {f : α → β → α}
    (hf : ∀ a b, P a → P (f a b)) :
    ∀ (l : List β) (a : α), P a → P (l.foldl f a) := by
  intro l
  induction l with
  | nil => intro a ha; exact ha
  | cons b t ih => intro a ha; exact ih _ (hf a b ha)

/-! ## Grab-count bookkeeping: preservation lemmas -/

theorem sync2_of_eq {o o' : Obj2D} (ho : Sync2 o)
    (h1 : o'.is_grabbed = o.is_grabbed) (h2 : o'.grabbed_by_hand = o.grabbed_by_hand) :
    Sync2 o' := by
  unfold Sync2 at *
  rw [h1, h2]
  exact ho

theorem sync3_of_eq {o o' : Obj3D} (ho : Sync3 o)
    (h1 : o'.is_grabbed = o.is_grabbed) (h2 : o'.grabbed_by_hand = o.grabbed_by_hand) :
    Sync3 o' := by
  unfold Sync3 at *
  rw [h1, h2]
  exact ho

theorem sync2_getObj2 {e : Engine} (hs : SyncAll e) (i : Nat) : Sync2 (getObj2 e i) := by
  unfold getObj2
  cases h : e.objects[i]? with
  | none => exact rfl
  | some o =>
    obtain ⟨hlt, rfl⟩ := List.getElem?_eq_some.mp h
    exact hs.1 _ (List.getElem_mem hlt)

theorem sync3_getObj3 {e : Engine} (hs : SyncAll e) (i : Nat) : Sync3 (getObj3 e i) := by
  unfold getObj3
  cases h : e.objects_3d[i]? with
  | none => exact rfl
  | some o =>
    obtain ⟨hlt, rfl⟩ := List.getElem?_eq_some.mp h
    exact hs.2 _ (List.getElem_mem hlt)

theorem sync2_removeHand2 (h : Nat) (o : Obj2D) : Sync2 (removeHand2 h o) := rfl

theorem sync3_removeHand3 (h : Nat) (o : Obj3D) : Sync3 (removeHand3 h o) := rfl

theorem sync2_addHand2 (h : Nat) (o : Obj2D) : Sync2 (addHand2 h o) := rfl

theorem sync3_addHand3 (h : Nat) (o : Obj3D) : Sync3 (addHand3 h o) := rfl

theorem sync2_deselectIfFree2 {o : Obj2D} (ho : Sync2 o) : Sync2 (deselectIfFree2 o) := by
  unfold deselectIfFree2
  split
  · exact sync2_of_eq ho rfl rfl
  · exact ho

theorem sync3_updateRotationAxis {o : Obj3D} (hands : List HandInfo) (ho : Sync3 o) :
    Sync3 (updateRotationAxis o hands) := by
  unfold updateRotationAxis
  split
  · exact sync3_of_eq ho rfl rfl
  · split
    · exact sync3_of_eq ho rfl rfl
    · split <;> exact sync3_of_eq ho rfl rfl

theorem sync3_markRotationOwner {o : Obj3D} (h : Nat) (hands : List HandInfo) (ho : Sync3 o) :
    Sync3 (markRotationOwner h hands o) := by
  unfold markRotationOwner
  split <;> exact sync3_of_eq ho rfl rfl

theorem sync3_rotationSpin {o : Obj3D} (g : Geometry) (dx dy : ℚ) (ho : Sync3 o) :
    Sync3 (rotationSpin g dx dy o) := by
  unfold rotationSpin
  split <;> split <;> exact sync3_of_eq ho rfl rfl

theorem sync3_rotationBody {o : Obj3D} (g : Geometry) (rhi : HandInfo) (ho : Sync3 o) :
    Sync3 (rotationBody g rhi o) := by
  unfold rotationBody
  split
  · exact sync3_of_eq ho rfl rfl
  · split
    · exact sync3_of_eq ho rfl rfl
    · split
      · exact sync3_of_eq ho rfl rfl
      · exact sync3_of_eq (sync3_rotationSpin g _ _ ho) rfl rfl

theorem syncAll_setObj2 {e : Engine} {o : Obj2D} (i : Nat) (ho : Sync2 o) (hs : SyncAll e) :
    SyncAll (setObj2 e i o) := by
  constructor
  · intro a ha
    rcases List.mem_or_eq_of_mem_set ha with h | rfl
    · exact hs.1 _ h
    · exact ho
  · exact hs.2

theorem syncAll_setObj3 {e : Engine} {o : Obj3D} (i : Nat) (ho : Sync3 o) (hs : SyncAll e) :
    SyncAll (setObj3 e i o) := by
  constructor
  · exact hs.1
  · intro a ha
    rcases List.mem_or_eq_of_mem_set ha with h | rfl
    · exact hs.2 _ h
    · exact ho

theorem syncAll_setGrab2 (h : Nat) (gs : Grab2D) {e : Engine} (hs : SyncAll e) :
    SyncAll (setGrab2 h gs e) := hs

theorem syncAll_setGrab3 (h : Nat) (gs : Grab3D) {e : Engine} (hs : SyncAll e) :
    SyncAll (setGrab3 h gs e) := hs

theorem syncAll_setPinchState (h : Nat) (ps : PinchState) {e : Engine} (hs : SyncAll e) :
    SyncAll (setPinchState h ps e) := hs

theorem syncAll_dropGrabState2 (h : Nat) {e : Engine} (hs : SyncAll e) :
    SyncAll (dropGrabState2 h e) := hs

theorem syncAll_dropGrabState3 (h : Nat) {e : Engine} (hs : SyncAll e) :
    SyncAll (dropGrabState3 h e) := hs

theorem syncAll_trackLast3 (hi : HandInfo) (h : Nat) {e : Engine} (hs : SyncAll e) :
    SyncAll (trackLast3 hi h e) := hs

theorem syncAll_dropStale2 (keys cg : List Nat) {e : Engine} (hs : SyncAll e) :
    SyncAll (dropStale2 keys cg e) := hs

theorem syncAll_dropStale3 (cg3 : List Nat) {e : Engine} (hs : SyncAll e) :
    SyncAll (dropStale3 cg3 e) := hs

theorem syncAll_clearScalingBelow2_2d (i : Nat) {e : Engine} (hs : SyncAll e) :
    SyncAll (clearScalingBelow2_2d i e) := by
  unfold clearScalingBelow2_2d
  split <;> exact hs

theorem syncAll_clearScalingBelow2_3d (i : Nat) {e : Engine} (hs : SyncAll e) :
    SyncAll (clearScalingBelow2_3d i e) := by
  unfold clearScalingBelow2_3d
  split <;> exact hs

theorem syncAll_exitRotationMode (i : Nat) {e : Engine} (hs : SyncAll e) :
    SyncAll (exitRotationMode e i) := by
  unfold exitRotationMode
  split
  · exact syncAll_setObj3 i (sync3_of_eq (sync3_getObj3 hs i) rfl rfl)
      (syncAll_dropGrabState3 _ hs)
  · exact syncAll_setObj3 i (sync3_of_eq (sync3_getObj3 hs i) rfl rfl) hs

theorem syncAll_release2dFor (h : Nat) {e : Engine} (hs : SyncAll e) :
    SyncAll (release2dFor e h) := by
  unfold release2dFor
  split
  · exact hs
  · exact syncAll_dropGrabState2 _ (syncAll_clearScalingBelow2_2d _
      (syncAll_setObj2 _ (sync2_deselectIfFree2 (sync2_removeHand2 _ _)) hs))

theorem syncAll_setRotationEntry (i : Nat) (hands : List HandInfo) (h : Nat) (gs : Grab3D)
    {e : Engine} (hs : SyncAll e) : SyncAll (setRotationEntry e i hands h gs) := by
  unfold setRotationEntry
  exact syncAll_setGrab3 _ _ (syncAll_setObj3 _ (sync3_removeHand3 _ _) hs)

theorem syncAll_exitIfRotationOwner (h i : Nat) {e : Engine} (hs : SyncAll e) :
    SyncAll (exitIfRotationOwner h i e) := by
  unfold exitIfRotationOwner
  split
  · exact syncAll_exitRotationMode i hs
  · exact hs

theorem syncAll_resetIfFree3 (i : Nat) {e : Engine} (hs : SyncAll e) :
    SyncAll (resetIfFree3 i e) := by
  unfold resetIfFree3
  split
  · exact syncAll_setObj3 i (sync3_of_eq (sync3_getObj3 hs i) rfl rfl) hs
  · exact hs

theorem syncAll_release3dFor (hands : List HandInfo) (h : Nat) {e : Engine} (hs : SyncAll e) :
    SyncAll (release3dFor e hands h) := by
  unfold release3dFor
  split
  · exact hs
  · split
    · exact syncAll_setRotationEntry _ _ _ _ hs
    · exact syncAll_dropGrabState3 _ (syncAll_clearScalingBelow2_3d _ (syncAll_resetIfFree3 _
        (syncAll_exitIfRotationOwner _ _
          (syncAll_setObj3 _ (sync3_removeHand3 _ _) hs))))

theorem syncAll_scalingPairInit2d (h1 h2 : Nat) (d size : ℚ) {e : Engine} (hs : SyncAll e) :
    SyncAll (scalingPairInit2d h1 h2 d size e) := by
  unfold scalingPairInit2d
  split
  · split
    · exact syncAll_setGrab2 _ _ (syncAll_setGrab2 _ _ hs)
    · exact hs
  · exact hs

theorem syncAll_applySmoothScale2d (i h1 : Nat) (d : ℚ) {e : Engine} (hs : SyncAll e) :
    SyncAll (applySmoothScale2d i h1 d e) := by
  unfold applySmoothScale2d
  split
  · split
    · split
      · exact syncAll_setObj2 i (sync2_of_eq (sync2_getObj2 hs i) rfl rfl) hs
      · exact hs
    · exact hs
  · exact hs

theorem syncAll_twoHandScaling2d (g : Geometry) (i : Nat) {e : Engine} (hs : SyncAll e) :
    SyncAll (twoHandScaling2d g e i) := by
  unfold twoHandScaling2d
  split
  · split
    · exact syncAll_applySmoothScale2d _ _ _ (syncAll_scalingPairInit2d _ _ _ _ hs)
    · exact hs
  · exact hs

theorem syncAll_grab2dNew (g : Geometry) (hi : HandInfo) (h : Nat) {e : Engine}
    (hs : SyncAll e) : SyncAll (grab2dNew g hi h e) := by
  unfold grab2dNew
  split
  · exact hs
  · exact syncAll_setGrab2 _ _ (syncAll_setObj2 _ (sync2_addHand2 _ _) hs)

theorem syncAll_handlePinch2d (g : Geometry) (hi : HandInfo) (h : Nat) {e : Engine}
    (hs : SyncAll e) : SyncAll (handlePinch2d g e hi h) := by
  unfold handlePinch2d
  split
  · exact syncAll_grab2dNew _ _ _ hs
  · split
    · exact syncAll_twoHandScaling2d _ _
        (syncAll_setObj2 _ (sync2_of_eq (sync2_getObj2 hs _) rfl rfl) hs)
    · exact syncAll_setObj2 _ (sync2_of_eq (sync2_getObj2 hs _) rfl rfl) hs

theorem syncAll_grab3dNew (g : Geometry) (hi : HandInfo) (h : Nat) {e : Engine}
    (hs : SyncAll e) : SyncAll (grab3dNew g hi h e).1 := by
  unfold grab3dNew
  split
  · exact hs
  · exact syncAll_setGrab3 _ _ (syncAll_setObj3 _ (sync3_addHand3 _ _) hs)

theorem syncAll_continue3d (g : Geometry) (hi : HandInfo) (h : Nat) (gs : Grab3D) {e : Engine}
    (hs : SyncAll e) : SyncAll (continue3d g hi h gs e) := by
  unfold continue3d
  split
  · exact syncAll_trackLast3 _ _
      (syncAll_setObj3 _ (sync3_of_eq (sync3_getObj3 hs _) rfl rfl) hs)
  · exact syncAll_trackLast3 _ _ hs

theorem syncAll_handlePinch3d (g : Geometry) (hi : HandInfo) (h : Nat) {e : Engine}
    (hs : SyncAll e) : SyncAll (handlePinch3d g e hi h).1 := by
  unfold handlePinch3d
  split
  · exact syncAll_grab3dNew _ _ _ hs
  · exact syncAll_continue3d _ _ _ _ hs

theorem syncAll_updateSelectionModeObjects {e : Engine} (hs : SyncAll e) :
    SyncAll (updateSelectionModeObjects e) := by
  constructor
  · exact hs.1
  · intro o ho
    simp only [updateSelectionModeObjects, List.mem_map] at ho
    obtain ⟨a, ha, rfl⟩ := ho
    split
    · exact sync3_of_eq (hs.2 a ha) rfl rfl
    · exact sync3_of_eq (hs.2 a ha) rfl rfl

theorem syncAll_scalingInit3d (h1 : Nat) (d sc : ℚ) {e : Engine} (hs : SyncAll e) :
    SyncAll (scalingInit3d h1 d sc e) := by
  unfold scalingInit3d
  split
  · split
    · exact syncAll_setGrab3 _ _ hs
    · exact hs
  · exact hs

theorem syncAll_applySmoothScale3d (i h1 : Nat) (d : ℚ) {e : Engine} (hs : SyncAll e) :
    SyncAll (applySmoothScale3d i h1 d e) := by
  unfold applySmoothScale3d
  split
  · split
    · split
      · exact syncAll_setObj3 i (sync3_of_eq (sync3_getObj3 hs i) rfl rfl) hs
      · exact hs
    · exact hs
  · exact hs

theorem syncAll_selectionScaling (g : Geometry) (i h1 h2 : Nat) (hands : List HandInfo)
    {e : Engine} (hs : SyncAll e) : SyncAll (selectionScaling g e i h1 h2 hands) := by
  unfold selectionScaling
  split
  · exact syncAll_applySmoothScale3d _ _ _ (syncAll_scalingInit3d _ _ _ hs)
  · exact hs

theorem syncAll_transitionToRotationMode (i h1 h2 : Nat) (hands : List HandInfo) {e : Engine}
    (hs : SyncAll e) : SyncAll (transitionToRotationMode e i h1 h2 hands) := by
  unfold transitionToRotationMode
  split
  · exact syncAll_setObj3 i
      (sync3_updateRotationAxis _ (sync3_markRotationOwner _ _ (sync3_getObj3 hs i))) hs
  · split
    · exact syncAll_setObj3 i
        (sync3_updateRotationAxis _ (sync3_markRotationOwner _ _ (sync3_getObj3 hs i))) hs
    · exact hs

theorem syncAll_selectionModeInteractions (g : Geometry) (hands : List HandInfo) (i : Nat)
    {e : Engine} (hs : SyncAll e) : SyncAll (selectionModeInteractions g hands e i) := by
  unfold selectionModeInteractions
  split
  · split
    · exact syncAll_selectionScaling _ _ _ _ _ hs
    · split
      · exact syncAll_transitionToRotationMode _ _ _ _ hs
      · exact hs
  · exact hs

theorem syncAll_rotationModeStep (g : Geometry) (hands : List HandInfo) (i : Nat) {e : Engine}
    (hs : SyncAll e) : SyncAll (rotationModeStep g hands e i) := by
  unfold rotationModeStep
  split
  · split
    · exact syncAll_exitRotationMode i hs
    · split
      · exact syncAll_exitRotationMode i
          (syncAll_setObj3 i (sync3_updateRotationAxis _ (sync3_getObj3 hs i)) hs)
      · exact syncAll_setObj3 i
          (sync3_rotationBody _ _ (sync3_updateRotationAxis _ (sync3_getObj3 hs i))) hs
  · exact hs

theorem syncAll_rotationLoop (g : Geometry) (hands : List HandInfo) {e : Engine}
    (hs : SyncAll e) : SyncAll (rotationLoop g hands e) := by
  unfold rotationLoop
  exact foldl_preserve (fun a b ha => syncAll_rotationModeStep g hands b ha) _ _ hs

theorem syncAll_selectionInteractLoop (g : Geometry) (hands : List HandInfo) {e : Engine}
    (hs : SyncAll e) : SyncAll (selectionInteractLoop g hands e) := by
  unfold selectionInteractLoop
  exact foldl_preserve (fun a b ha => syncAll_selectionModeInteractions g hands b ha) _ _ hs

theorem syncAll_handleSelectionMode3d (g : Geometry) (hands : List HandInfo) {e : Engine}
    (hs : SyncAll e) : SyncAll (handleSelectionMode3d g hands e) := by
  unfold handleSelectionMode3d
  exact syncAll_rotationLoop _ _ (syncAll_selectionInteractLoop _ _
    (syncAll_updateSelectionModeObjects hs))

theorem syncAll_cleanup2dOne (cg : List Nat) (k : Nat) {e : Engine} (hs : SyncAll e) :
    SyncAll (cleanup2dOne cg e k) := by
  unfold cleanup2dOne
  split
  · exact hs
  · split
    · exact hs
    · exact syncAll_clearScalingBelow2_2d _
        (syncAll_setObj2 _ (sync2_removeHand2 _ _) hs)

theorem syncAll_cleanup2d (cg : List Nat) {e : Engine} (hs : SyncAll e) :
    SyncAll (cleanup2d cg e) := by
  unfold cleanup2d
  exact syncAll_dropStale2 _ _
    (foldl_preserve (fun a b ha => syncAll_cleanup2dOne cg b ha) _ _ hs)

theorem syncAll_cleanup3dOne (cg3 : List Nat) (k : Nat) {e : Engine} (hs : SyncAll e) :
    SyncAll (cleanup3dOne cg3 e k) := by
  unfold cleanup3dOne
  split
  · exact hs
  · split
    · exact hs
    · exact syncAll_clearScalingBelow2_3d _
        (syncAll_setObj3 _ (sync3_removeHand3 _ _) hs)

theorem syncAll_cleanup3d (cg3 : List Nat) {e : Engine} (hs : SyncAll e) :
    SyncAll (cleanup3d cg3 e) := by
  unfold cleanup3d
  exact syncAll_dropStale3 _
    (foldl_preserve (fun a b ha => syncAll_cleanup3dOne cg3 b ha) _ _ hs)

theorem syncAll_rotUngrabbedStep (i : Nat) {e : Engine} (hs : SyncAll e) :
    SyncAll (rotUngrabbedStep e i) := by
  unfold rotUngrabbedStep
  split
  · exact syncAll_exitRotationMode i hs
  · exact hs

theorem syncAll_rotCleanupUngrabbed {e : Engine} (hs : SyncAll e) :
    SyncAll (rotCleanupUngrabbed e) := by
  unfold rotCleanupUngrabbed
  exact foldl_preserve (fun a b ha => syncAll_rotUngrabbedStep b ha) _ _ hs

theorem syncAll_rotLostStep (hands : List HandInfo) (i : Nat) {e : Engine} (hs : SyncAll e) :
    SyncAll (rotLostStep hands e i) := by
  unfold rotLostStep
  split
  · split
    · exact syncAll_exitRotationMode i hs
    · exact hs
  · exact hs

theorem syncAll_rotCleanupLostHand (hands : List HandInfo) {e : Engine} (hs : SyncAll e) :
    SyncAll (rotCleanupLostHand hands e) := by
  unfold rotCleanupLostHand
  exact foldl_preserve (fun a b ha => syncAll_rotLostStep hands b ha) _ _ hs

theorem syncAll_noHandsReset {e : Engine} (hs : SyncAll e) : SyncAll (noHandsReset e) := by
  constructor
  · intro o ho
    simp only [noHandsReset, List.mem_map] at ho
    obtain ⟨a, ha, rfl⟩ := ho
    split
    · exact rfl
    · exact hs.1 a ha
  · intro o ho
    simp only [noHandsReset, List.mem_map] at ho
    obtain ⟨a, ha, rfl⟩ := ho
    split
    · exact rfl
    · exact hs.2 a ha

theorem syncAll_selectionPhase (g : Geometry) (hands : List HandInfo) {e : Engine}
    (hs : SyncAll e) : SyncAll (selectionPhase g hands e) := by
  unfold selectionPhase
  split
  · exact syncAll_handleSelectionMode3d _ _ hs
  · exact hs

theorem syncAll_resetPhase (hands : List HandInfo) {e : Engine} (hs : SyncAll e) :
    SyncAll (resetPhase hands e) := by
  unfold resetPhase
  split
  · exact syncAll_noHandsReset hs
  · exact hs

theorem syncAll_processHand (g : Geometry) (hands : List HandInfo) (acc : LoopAcc)
    (hi : HandInfo) (hs : SyncAll acc.eng) : SyncAll (processHand g hands acc hi).eng := by
  unfold processHand
  split
  · split
    · rcases hp : handlePinch3d g (setPinchState hi.hand_idx (debounced acc.eng hi) acc.eng)
        hi hi.hand_idx with ⟨e2, b⟩
      have h1 : SyncAll e2 := by
        have := syncAll_handlePinch3d g hi hi.hand_idx
          (syncAll_setPinchState hi.hand_idx (debounced acc.eng hi) hs)
        rw [hp] at this
        exact this
      cases b with
      | true => exact h1
      | false =>
        dsimp only
        split
        · exact syncAll_handlePinch2d _ _ _ h1
        · exact h1
    · split
      · exact syncAll_handlePinch2d _ _ _
          (syncAll_setPinchState hi.hand_idx (debounced acc.eng hi) hs)
      · exact syncAll_setPinchState hi.hand_idx (debounced acc.eng hi) hs
  · exact syncAll_release3dFor _ _
      (syncAll_release2dFor _ (syncAll_setPinchState hi.hand_idx (debounced acc.eng hi) hs))

theorem syncAll_afterHands (g : Geometry) (hands : List HandInfo) {e : Engine}
    (hs : SyncAll e) : SyncAll (afterHands g hands e).eng := by
  unfold afterHands
  exact foldl_preserve (P := fun a => SyncAll a.eng)
    (fun a b ha => syncAll_processHand g hands a b ha) hands ⟨e, [], []⟩ hs

theorem syncAll_processInteractions (g : Geometry) (hands : List HandInfo) {e : Engine}
    (hs : SyncAll e) : SyncAll (processInteractions g hands e) := by
  unfold processInteractions
  have h0 := syncAll_afterHands g hands hs
  rcases hacc : afterHands g hands e with ⟨e1, cg, cg3⟩
  rw [hacc] at h0
  exact syncAll_resetPhase _ (syncAll_rotCleanupLostHand _ (syncAll_rotCleanupUngrabbed
    (syncAll_selectionPhase _ _ (syncAll_cleanup3d _ (syncAll_cleanup2d _ h0)))))

theorem syncAll_stepFrame (g : Geometry) (hands : List HandInfo) {e : Engine}
    (hs : SyncAll e) : SyncAll (stepFrame g hands e) :=
  syncAll_processInteractions g hands hs

/-! ## Rotation-owner invariant: preservation lemmas -/

theorem rotOwner_of_eq {o o' : Obj3D} (ho : RotOwner o)
    (h1 : o'.is_in_rotation_mode = o.is_in_rotation_mode)
    (h2 : o'.rotation_hand_idx = o.rotation_hand_idx) : RotOwner o' := by
  unfold RotOwner at *
  rw [h1, h2]
  exact ho

theorem rotOwner_getObj3 {e : Engine} (hr : RotOwnerAll e) (i : Nat) :
    RotOwner (getObj3 e i) := by
  unfold getObj3
  cases h : e.objects_3d[i]? with
  | none => exact fun hm => Bool.noConfusion hm
  | some o =>
    obtain ⟨hlt, rfl⟩ := List.getElem?_eq_some.mp h
    exact hr _ (List.getElem_mem hlt)

theorem rotOwner_removeHand3 {o : Obj3D} (h : Nat) (ho : RotOwner o) :
    RotOwner (removeHand3 h o) := rotOwner_of_eq ho rfl rfl

theorem rotOwner_addHand3 {o : Obj3D} (h : Nat) (ho : RotOwner o) :
    RotOwner (addHand3 h o) := rotOwner_of_eq ho rfl rfl

theorem rotOwner_moveObj3 {o : Obj3D} (hi : HandInfo) (gs : Grab3D) (ho : RotOwner o) :
    RotOwner (moveObj3 hi gs o) := rotOwner_of_eq ho rfl rfl

theorem rotOwner_scaleSmoothed3 {o : Obj3D} (s0 sf : ℚ) (ho : RotOwner o) :
    RotOwner (scaleSmoothed3 s0 sf o) := rotOwner_of_eq ho rfl rfl

theorem rotOwner_updateRotationAxis {o : Obj3D} (hands : List HandInfo) (ho : RotOwner o) :
    RotOwner (updateRotationAxis o hands) := by
  unfold updateRotationAxis
  split
  · exact rotOwner_of_eq ho rfl rfl
  · split
    · exact rotOwner_of_eq ho rfl rfl
    · split <;> exact rotOwner_of_eq ho rfl rfl

theorem rotOwner_markRotationOwner (h : Nat) (hands : List HandInfo) (o : Obj3D) :
    RotOwner (markRotationOwner h hands o) := by
  unfold markRotationOwner
  split <;> exact fun _ => rfl

theorem rotOwner_rotationSpin {o : Obj3D} (g : Geometry) (dx dy : ℚ) (ho : RotOwner o) :
    RotOwner (rotationSpin g dx dy o) := by
  unfold rotationSpin
  split <;> split <;> exact rotOwner_of_eq ho rfl rfl

theorem rotOwner_rotationBody {o : Obj3D} (g : Geometry) (rhi : HandInfo) (ho : RotOwner o) :
    RotOwner (rotationBody g rhi o) := by
  unfold rotationBody
  split
  · exact rotOwner_of_eq ho rfl rfl
  · split
    · exact rotOwner_of_eq ho rfl rfl
    · split
      · exact rotOwner_of_eq ho rfl rfl
      · exact rotOwner_of_eq (rotOwner_rotationSpin g _ _ ho) rfl rfl

theorem rotAll_setObj3 {e : Engine} {o : Obj3D} (i : Nat) (ho : RotOwner o)
    (hr : RotOwnerAll e) : RotOwnerAll (setObj3 e i o) := by
  intro a ha
  rcases List.mem_or_eq_of_mem_set ha with h | rfl
  · exact hr _ h
  · exact ho

theorem rotAll_setObj2 {e : Engine} {o : Obj2D} (i : Nat) (hr : RotOwnerAll e) :
    RotOwnerAll (setObj2 e i o) := hr

theorem rotAll_setGrab2 (h : Nat) (gs : Grab2D) {e : Engine} (hr : RotOwnerAll e) :
    RotOwnerAll (setGrab2 h gs e) := hr

theorem rotAll_setGrab3 (h : Nat) (gs : Grab3D) {e : Engine} (hr : RotOwnerAll e) :
    RotOwnerAll (setGrab3 h gs e) := hr

theorem rotAll_setPinchState (h : Nat) (ps : PinchState) {e : Engine} (hr : RotOwnerAll e) :
    RotOwnerAll (setPinchState h ps e) := hr

theorem rotAll_dropGrabState2 (h : Nat) {e : Engine} (hr : RotOwnerAll e) :
    RotOwnerAll (dropGrabState2 h e) := hr

theorem rotAll_dropGrabState3 (h : Nat) {e : Engine} (hr : RotOwnerAll e) :
    RotOwnerAll (dropGrabState3 h e) := hr

theorem rotAll_trackLast3 (hi : HandInfo) (h : Nat) {e : Engine} (hr : RotOwnerAll e) :
    RotOwnerAll (trackLast3 hi h e) := hr

theorem rotAll_dropStale2 (keys cg : List Nat) {e : Engine} (hr : RotOwnerAll e) :
    RotOwnerAll (dropStale2 keys cg e) := hr

theorem rotAll_dropStale3 (cg3 : List Nat) {e : Engine} (hr : RotOwnerAll e) :
    RotOwnerAll (dropStale3 cg3 e) := hr

theorem rotAll_clearScalingBelow2_2d (i : Nat) {e : Engine} (hr : RotOwnerAll e) :
    RotOwnerAll (clearScalingBelow2_2d i e) := by
  unfold clearScalingBelow2_2d
  split <;> exact hr

theorem rotAll_clearScalingBelow2_3d (i : Nat) {e : Engine} (hr : RotOwnerAll e) :
    RotOwnerAll (clearScalingBelow2_3d i e) := by
  unfold clearScalingBelow2_3d
  split <;> exact hr

theorem rotAll_exitRotationMode (i : Nat) {e : Engine} (hr : RotOwnerAll e) :
    RotOwnerAll (exitRotationMode e i) := by
  unfold exitRotationMode
  split
  · exact rotAll_setObj3 i (fun hm => Bool.noConfusion hm) (rotAll_dropGrabState3 _ hr)
  · exact rotAll_setObj3 i (fun hm => Bool.noConfusion hm) hr

theorem rotAll_release2dFor (h : Nat) {e : Engine} (hr : RotOwnerAll e) :
    RotOwnerAll (release2dFor e h) := by
  unfold release2dFor
  split
  · exact hr
  · exact rotAll_dropGrabState2 _ (rotAll_clearScalingBelow2_2d _ (rotAll_setObj2 _ hr))

theorem rotAll_setRotationEntry (i : Nat) (hands : List HandInfo) (h : Nat) (gs : Grab3D)
    {e : Engine} (hr : RotOwnerAll e) : RotOwnerAll (setRotationEntry e i hands h gs) := by
  unfold setRotationEntry
  exact rotAll_setGrab3 _ _ (rotAll_setObj3 _
    (rotOwner_removeHand3 _ (rotOwner_updateRotationAxis _ (rotOwner_markRotationOwner _ _ _)))
    hr)

theorem rotAll_exitIfRotationOwner (h i : Nat) {e : Engine} (hr : RotOwnerAll e) :
    RotOwnerAll (exitIfRotationOwner h i e) := by
  unfold exitIfRotationOwner
  split
  · exact rotAll_exitRotationMode i hr
  · exact hr

theorem rotAll_resetIfFree3 (i : Nat) {e : Engine} (hr : RotOwnerAll e) :
    RotOwnerAll (resetIfFree3 i e) := by
  unfold resetIfFree3
  split
  · exact rotAll_setObj3 i (fun hm => Bool.noConfusion hm) hr
  · exact hr

theorem rotAll_release3dFor (hands : List HandInfo) (h : Nat) {e : Engine}
    (hr : RotOwnerAll e) : RotOwnerAll (release3dFor e hands h) := by
  unfold release3dFor
  split
  · exact hr
  · split
    · exact rotAll_setRotationEntry _ _ _ _ hr
    · exact rotAll_dropGrabState3 _ (rotAll_clearScalingBelow2_3d _ (rotAll_resetIfFree3 _
        (rotAll_exitIfRotationOwner _ _
          (rotAll_setObj3 _ (rotOwner_removeHand3 _ (rotOwner_getObj3 hr _)) hr))))

theorem rotAll_scalingPairInit2d (h1 h2 : Nat) (d size : ℚ) {e : Engine} (hr : RotOwnerAll e) :
    RotOwnerAll (scalingPairInit2d h1 h2 d size e) := by
  unfold scalingPairInit2d
  split
  · split
    · exact rotAll_setGrab2 _ _ (rotAll_setGrab2 _ _ hr)
    · exact hr
  · exact hr

theorem rotAll_applySmoothScale2d (i h1 : Nat) (d : ℚ) {e : Engine} (hr : RotOwnerAll e) :
    RotOwnerAll (applySmoothScale2d i h1 d e) := by
  unfold applySmoothScale2d
  split
  · split
    · split
      · exact rotAll_setObj2 i hr
      · exact hr
    · exact hr
  · exact hr

theorem rotAll_twoHandScaling2d (g : Geometry) (i : Nat) {e : Engine} (hr : RotOwnerAll e) :
    RotOwnerAll (twoHandScaling2d g e i) := by
  unfold twoHandScaling2d
  split
  · split
    · exact rotAll_applySmoothScale2d _ _ _ (rotAll_scalingPairInit2d _ _ _ _ hr)
    · exact hr
  · exact hr

theorem rotAll_grab2dNew (g : Geometry) (hi : HandInfo) (h : Nat) {e : Engine}
    (hr : RotOwnerAll e) : RotOwnerAll (grab2dNew g hi h e) := by
  unfold grab2dNew
  split
  · exact hr
  · exact rotAll_setGrab2 _ _ (rotAll_setObj2 _ hr)

theorem rotAll_handlePinch2d (g : Geometry) (hi : HandInfo) (h : Nat) {e : Engine}
    (hr : RotOwnerAll e) : RotOwnerAll (handlePinch2d g e hi h) := by
  unfold handlePinch2d
  split
  · exact rotAll_grab2dNew _ _ _ hr
  · split
    · exact rotAll_twoHandScaling2d _ _ (rotAll_setObj2 _ hr)
    · exact rotAll_setObj2 _ hr

theorem rotAll_grab3dNew (g : Geometry) (hi : HandInfo) (h : Nat) {e : Engine}
    (hr : RotOwnerAll e) : RotOwnerAll (grab3dNew g hi h e).1 := by
  unfold grab3dNew
  split
  · exact hr
  · exact rotAll_setGrab3 _ _
      (rotAll_setObj3 _ (rotOwner_addHand3 _ (rotOwner_getObj3 hr _)) hr)

theorem rotAll_continue3d (g : Geometry) (hi : HandInfo) (h : Nat) (gs : Grab3D) {e : Engine}
    (hr : RotOwnerAll e) : RotOwnerAll (continue3d g hi h gs e) := by
  unfold continue3d
  split
  · exact rotAll_trackLast3 _ _
      (rotAll_setObj3 _ (rotOwner_moveObj3 _ _ (rotOwner_getObj3 hr _)) hr)
  · exact rotAll_trackLast3 _ _ hr

theorem rotAll_handlePinch3d (g : Geometry) (hi : HandInfo) (h : Nat) {e : Engine}
    (hr : RotOwnerAll e) : RotOwnerAll (handlePinch3d g e hi h).1 := by
  unfold handlePinch3d
  split
  · exact rotAll_grab3dNew _ _ _ hr
  · exact rotAll_continue3d _ _ _ _ hr

theorem rotAll_updateSelectionModeObjects {e : Engine} (hr : RotOwnerAll e) :
    RotOwnerAll (updateSelectionModeObjects e) := by
  intro o ho
  simp only [updateSelectionModeObjects, List.mem_map] at ho
  obtain ⟨a, ha, rfl⟩ := ho
  split
  · exact rotOwner_of_eq (hr a ha) rfl rfl
  · exact rotOwner_of_eq (hr a ha) rfl rfl

theorem rotAll_scalingInit3d (h1 : Nat) (d sc : ℚ) {e : Engine} (hr : RotOwnerAll e) :
    RotOwnerAll (scalingInit3d h1 d sc e) := by
  unfold scalingInit3d
  split
  · split
    · exact rotAll_setGrab3 _ _ hr
    · exact hr
  · exact hr

theorem rotAll_applySmoothScale3d (i h1 : Nat) (d : ℚ) {e : Engine} (hr : RotOwnerAll e) :
    RotOwnerAll (applySmoothScale3d i h1 d e) := by
  unfold applySmoothScale3d
  split
  · split
    · split
      · exact rotAll_setObj3 i (rotOwner_scaleSmoothed3 _ _ (rotOwner_getObj3 hr i)) hr
      · exact hr
    · exact hr
  · exact hr

theorem rotAll_selectionScaling (g : Geometry) (i h1 h2 : Nat) (hands : List HandInfo)
    {e : Engine} (hr : RotOwnerAll e) : RotOwnerAll (selectionScaling g e i h1 h2 hands) := by
  unfold selectionScaling
  split
  · exact rotAll_applySmoothScale3d _ _ _ (rotAll_scalingInit3d _ _ _ hr)
  · exact hr

theorem rotAll_transitionToRotationMode (i h1 h2 : Nat) (hands : List HandInfo) {e : Engine}
    (hr : RotOwnerAll e) : RotOwnerAll (transitionToRotationMode e i h1 h2 hands) := by
  unfold transitionToRotationMode
  split
  · exact rotAll_setObj3 i
      (rotOwner_updateRotationAxis _ (rotOwner_markRotationOwner _ _ _)) hr
  · split
    · exact rotAll_setObj3 i
        (rotOwner_updateRotationAxis _ (rotOwner_markRotationOwner _ _ _)) hr
    · exact hr

theorem rotAll_selectionModeInteractions (g : Geometry) (hands : List HandInfo) (i : Nat)
    {e : Engine} (hr : RotOwnerAll e) : RotOwnerAll (selectionModeInteractions g hands e i) := by
  unfold selectionModeInteractions
  split
  · split
    · exact rotAll_selectionScaling _ _ _ _ _ hr
    · split
      · exact rotAll_transitionToRotationMode _ _ _ _ hr
      · exact hr
  · exact hr

theorem rotAll_rotationModeStep (g : Geometry) (hands : List HandInfo) (i : Nat) {e : Engine}
    (hr : RotOwnerAll e) : RotOwnerAll (rotationModeStep g hands e i) := by
  unfold rotationModeStep
  split
  · split
    · exact rotAll_exitRotationMode i hr
    · split
      · exact rotAll_exitRotationMode i
          (rotAll_setObj3 i (rotOwner_updateRotationAxis _ (rotOwner_getObj3 hr i)) hr)
      · exact rotAll_setObj3 i
          (rotOwner_rotationBody _ _ (rotOwner_updateRotationAxis _ (rotOwner_getObj3 hr i))) hr
  · exact hr

theorem rotAll_rotationLoop (g : Geometry) (hands : List HandInfo) {e : Engine}
    (hr : RotOwnerAll e) : RotOwnerAll (rotationLoop g hands e) := by
  unfold rotationLoop
  exact foldl_preserve (fun a b ha => rotAll_rotationModeStep g hands b ha) _ _ hr

theorem rotAll_selectionInteractLoop (g : Geometry) (hands : List HandInfo) {e : Engine}
    (hr : RotOwnerAll e) : RotOwnerAll (selectionInteractLoop g hands e) := by
  unfold selectionInteractLoop
  exact foldl_preserve (fun a b ha => rotAll_selectionModeInteractions g hands b ha) _ _ hr

theorem rotAll_handleSelectionMode3d (g : Geometry) (hands : List HandInfo) {e : Engine}
    (hr : RotOwnerAll e) : RotOwnerAll (handleSelectionMode3d g hands e) := by
  unfold handleSelectionMode3d
  exact rotAll_rotationLoop _ _ (rotAll_selectionInteractLoop _ _
    (rotAll_updateSelectionModeObjects hr))

theorem rotAll_cleanup2dOne (cg : List Nat) (k : Nat) {e : Engine} (hr : RotOwnerAll e) :
    RotOwnerAll (cleanup2dOne cg e k) := by
  unfold cleanup2dOne
  split
  · exact hr
  · split
    · exact hr
    · exact rotAll_clearScalingBelow2_2d _ (rotAll_setObj2 _ hr)

theorem rotAll_cleanup2d (cg : List Nat) {e : Engine} (hr : RotOwnerAll e) :
    RotOwnerAll (cleanup2d cg e) := by
  unfold cleanup2d
  exact rotAll_dropStale2 _ _
    (foldl_preserve (fun a b ha => rotAll_cleanup2dOne cg b ha) _ _ hr)

theorem rotAll_cleanup3dOne (cg3 : List Nat) (k : Nat) {e : Engine} (hr : RotOwnerAll e) :
    RotOwnerAll (cleanup3dOne cg3 e k) := by
  unfold cleanup3dOne
  split
  · exact hr
  · split
    · exact hr
    · exact rotAll_clearScalingBelow2_3d _
        (rotAll_setObj3 _ (rotOwner_removeHand3 _ (rotOwner_getObj3 hr _)) hr)

theorem rotAll_cleanup3d (cg3 : List Nat) {e : Engine} (hr : RotOwnerAll e) :
    RotOwnerAll (cleanup3d cg3 e) := by
  unfold cleanup3d
  exact rotAll_dropStale3 _
    (foldl_preserve (fun a b ha => rotAll_cleanup3dOne cg3 b ha) _ _ hr)

theorem rotAll_rotUngrabbedStep (i : Nat) {e : Engine} (hr : RotOwnerAll e) :
    RotOwnerAll (rotUngrabbedStep e i) := by
  unfold rotUngrabbedStep
  split
  · exact rotAll_exitRotationMode i hr
  · exact hr

theorem rotAll_rotCleanupUngrabbed {e : Engine} (hr : RotOwnerAll e) :
    RotOwnerAll (rotCleanupUngrabbed e) := by
  unfold rotCleanupUngrabbed
  exact foldl_preserve (fun a b ha => rotAll_rotUngrabbedStep b ha) _ _ hr

theorem rotAll_rotLostStep (hands : List HandInfo) (i : Nat) {e : Engine}
    (hr : RotOwnerAll e) : RotOwnerAll (rotLostStep hands e i) := by
  unfold rotLostStep
  split
  · split
    · exact rotAll_exitRotationMode i hr
    · exact hr
  · exact hr

theorem rotAll_rotCleanupLostHand (hands : List HandInfo) {e : Engine} (hr : RotOwnerAll e) :
    RotOwnerAll (rotCleanupLostHand hands e) := by
  unfold rotCleanupLostHand
  exact foldl_preserve (fun a b ha => rotAll_rotLostStep hands b ha) _ _ hr

theorem rotAll_noHandsReset {e : Engine} (hr : RotOwnerAll e) :
    RotOwnerAll (noHandsReset e) := by
  intro o ho
  simp only [noHandsReset, List.mem_map] at ho
  obtain ⟨a, ha, rfl⟩ := ho
  split
  · exact rotOwner_of_eq (hr a ha) rfl rfl
  · exact hr a ha

theorem rotAll_selectionPhase (g : Geometry) (hands : List HandInfo) {e : Engine}
    (hr : RotOwnerAll e) : RotOwnerAll (selectionPhase g hands e) := by
  unfold selectionPhase
  split
  · exact rotAll_handleSelectionMode3d _ _ hr
  · exact hr

theorem rotAll_resetPhase (hands : List HandInfo) {e : Engine} (hr : RotOwnerAll e) :
    RotOwnerAll (resetPhase hands e) := by
  unfold resetPhase
  split
  · exact rotAll_noHandsReset hr
  · exact hr

theorem rotAll_processHand (g : Geometry) (hands : List HandInfo) (acc : LoopAcc)
    (hi : HandInfo) (hr : RotOwnerAll acc.eng) : RotOwnerAll (processHand g hands acc hi).eng := by
  unfold processHand
  split
  · split
    · rcases hp : handlePinch3d g (setPinchState hi.hand_idx (debounced acc.eng hi) acc.eng)
        hi hi.hand_idx with ⟨e2, b⟩
      have h1 : RotOwnerAll e2 := by
        have := rotAll_handlePinch3d g hi hi.hand_idx
          (rotAll_setPinchState hi.hand_idx (debounced acc.eng hi) hr)
        rw [hp] at this
        exact this
      cases b with
      | true => exact h1
      | false =>
        dsimp only
        split
        · exact rotAll_handlePinch2d _ _ _ h1
        · exact h1
    · split
      · exact rotAll_handlePinch2d _ _ _
          (rotAll_setPinchState hi.hand_idx (debounced acc.eng hi) hr)
      · exact rotAll_setPinchState hi.hand_idx (debounced acc.eng hi) hr
  · exact rotAll_release3dFor _ _
      (rotAll_release2dFor _ (rotAll_setPinchState hi.hand_idx (debounced acc.eng hi) hr))

theorem rotAll_afterHands (g : Geometry) (hands : List HandInfo) {e : Engine}
    (hr : RotOwnerAll e) : RotOwnerAll (afterHands g hands e).eng := by
  unfold afterHands
  exact foldl_preserve (P := fun a => RotOwnerAll a.eng)
    (fun a b ha => rotAll_processHand g hands a b ha) hands ⟨e, [], []⟩ hr

theorem rotAll_processInteractions (g : Geometry) (hands : List HandInfo) {e : Engine}
    (hr : RotOwnerAll e) : RotOwnerAll (processInteractions g hands e) := by
  unfold processInteractions
  have h0 := rotAll_afterHands g hands hr
  rcases hacc : afterHands g hands e with ⟨e1, cg, cg3⟩
  rw [hacc] at h0
  exact rotAll_resetPhase _ (rotAll_rotCleanupLostHand _ (rotAll_rotCleanupUngrabbed
    (rotAll_selectionPhase _ _ (rotAll_cleanup3d _ (rotAll_cleanup2d _ h0)))))

theorem rotAll_stepFrame (g : Geometry) (hands : List HandInfo) {e : Engine}
    (hr : RotOwnerAll e) : RotOwnerAll (stepFrame g hands e) :=
  rotAll_processInteractions g hands hr

/-! ## Claim theorems -/

/-- C1: for every object (2D or 3D), after each frame's interaction update
completes, the object's grab count field equals the length of its
grabbing-hand list — the invariant `SyncAll` is preserved by a whole frame of
`_process_interactions` across every mutation path (grab, release,
rotation-mode entry, hand-loss cleanup, no-hands reset), for every geometry,
every hand list and every state satisfying the invariant. -/
theorem grab_count_equals_grabbing_hands_after_frame (g : Geometry) (hands : List HandInfo)
    (e : Engine) (hs : SyncAll e) : SyncAll (stepFrame g hands e) :=
  syncAll_stepFrame g hands hs

/-- Witness for C1: the invariant holds in the initial fixture engine and
after a concrete frame in which hand 0 pinch-grabs the 3D object. -/
theorem grab_count_equals_grabbing_hands_after_frame_witness :
    SyncAll execEngine ∧ SyncAll (stepFrame execGeometry [execHand 0 true] execEngine) :=
  ⟨by unfold SyncAll Sync2 Sync3; decide,
   grab_count_equals_grabbing_hands_after_frame execGeometry [execHand 0 true] execEngine
     (by unfold SyncAll Sync2 Sync3; decide)⟩

/-- C2: the pinch classification equals
`(d < 60 ∧ d > 10 ∧ (thumb_bent ∨ index_bent ∨ d < 35)) ∨ d < 25`; in
particular `d < 25` forces `true` for any bent flags, and `60 ≤ d` forces
`false`. -/
theorem pinch_classification_spec :
    ∀ (d : ℚ) (tb ib : Bool),
      pinch_classify d tb ib =
        ((decide (d < 60) && decide (d > 10) && (tb || ib || decide (d < 35))) ||
          decide (d < 25)) ∧
      (d < 25 → pinch_classify d tb ib = true) ∧
      (60 ≤ d → pinch_classify d tb ib = false) := by
  intro d tb ib
  unfold pinch_classify
  refine ⟨?_, ?_, ?_⟩
  · split
    · next h => simp [h]
    · next h => simp [h]
  · intro h
    simp [h]
  · intro h
    have h60 : ¬(d < 60) := not_lt.mpr h
    have h25 : ¬(d < 25) := fun hc => h60 (lt_trans hc (by norm_num))
    simp [h60, h25]

/-- Witness for C2: distance 3 forces pinching, distance 61 forces not
pinching even with both fingers bent. -/
theorem pinch_classification_spec_witness :
    ((3 : ℚ) < 25 ∧ pinch_classify 3 false false = true) ∧
    ((60 : ℚ) ≤ 61 ∧ pinch_classify 61 true true = false) :=
  ⟨⟨by norm_num, (pinch_classification_spec 3 false false).2.1 (by norm_num)⟩,
   ⟨by norm_num, (pinch_classification_spec 61 true true).2.2 (by norm_num)⟩⟩

attribute [local semireducible] Rat.mul Rat.inv Rat.add Rat.sub in
/-- Counterexample for C3 as stated: after the three concrete frames of
`rotationRegrabRun` (two-hand grab, rotation-mode entry by releasing hand 0,
then hand 0 pinches again and re-grabs the object, whose grab test only
requires grab count < 2), the object is in rotation mode while its grab
count is 2. -/
theorem rotation_mode_with_two_hand_grab_cex :
    (getObj3 rotationRegrabRun 0).is_in_rotation_mode = true ∧
    ¬((getObj3 rotationRegrabRun 0).is_grabbed ≤ 1) := by
  decide

/-- C3 as amended: after a frame's interaction update, every 3D object in
rotation mode has a defined `rotation_hand_idx` (the invariant `RotOwnerAll`
is preserved by every frame); the grab-count bound of the original claim
fails because a pinching hand may grab an object that is already in rotation
mode. -/
theorem rotation_mode_owner_defined_after_frame (g : Geometry) (hands : List HandInfo)
    (e : Engine) (hr : RotOwnerAll e) : RotOwnerAll (stepFrame g hands e) :=
  rotAll_stepFrame g hands hr

/-- Witness for the amended C3. -/
theorem rotation_mode_owner_defined_after_frame_witness :
    RotOwnerAll execEngine ∧
    RotOwnerAll (stepFrame execGeometry [execHand 0 true, execHand 1 true] execEngine) :=
  ⟨by unfold RotOwnerAll RotOwner; decide,
   rotation_mode_owner_defined_after_frame execGeometry [execHand 0 true, execHand 1 true]
     execEngine (by unfold RotOwnerAll RotOwner; decide)⟩

/-- The truncation toward zero moves a rational by strictly less than 1. -/
theorem abs_truncQ_sub_lt_one (q : ℚ) : |(truncQ q : ℚ) - q| < 1 := by
  unfold truncQ
  split
  · have h1 : ((⌊q⌋ : ℤ) : ℚ) ≤ q := Int.floor_le q
    have h2 : q - 1 < ((⌊q⌋ : ℤ) : ℚ) := Int.sub_one_lt_floor q
    rw [abs_lt]
    constructor <;> linarith
  · have h1 : q ≤ ((⌈q⌉ : ℤ) : ℚ) := Int.le_ceil q
    have h2 : ((⌈q⌉ : ℤ) : ℚ) < q + 1 := Int.ceil_lt_add_one q
    rw [abs_lt]
    constructor <;> linarith

/-- C7: for a vertex whose projection has positive `w`, applying the inverse
of the screen mapping `x' = (x+1)·W/2`, `y' = (1-y)·H/2` to the integer
screen coordinates returned by `project_vertices` recovers the clip-space
X/Y after the perspective divide up to the pixel-truncation tolerance: the
error is strictly below `2/W` (resp. `2/H`), one pixel in clip units (in the
exact-rational model the only rounding is the `int32` cast). -/
theorem project_vertex_screen_roundtrip (mvp : Mat4) (W H : ℚ) (v : ℚ × ℚ × ℚ)
    (hW : 0 < W) (hH : 0 < H) (hw : 0 < (clip_of_vertex mvp v).w) :
    |2 * (((project_vertex mvp W H v).1 : ℤ) : ℚ) / W - 1 -
        (ndc_of_clip (clip_of_vertex mvp v)).1| < 2 / W ∧
    |1 - 2 * (((project_vertex mvp W H v).2 : ℤ) : ℚ) / H -
        (ndc_of_clip (clip_of_vertex mvp v)).2| < 2 / H := by
  have hW0 : W ≠ 0 := ne_of_gt hW
  have hH0 : H ≠ 0 := ne_of_gt hH
  constructor
  · set x := (ndc_of_clip (clip_of_vertex mvp v)).1 with hx
    have hpx : (project_vertex mvp W H v).1 = truncQ ((x + 1) * W / 2) := rfl
    rw [hpx]
    have key := abs_truncQ_sub_lt_one ((x + 1) * W / 2)
    have heq : 2 * ((truncQ ((x + 1) * W / 2) : ℤ) : ℚ) / W - 1 - x
        = (((truncQ ((x + 1) * W / 2) : ℤ) : ℚ) - (x + 1) * W / 2) * (2 / W) := by
      field_simp
      ring
    rw [heq, abs_mul, abs_of_pos (by positivity : (0 : ℚ) < 2 / W)]
    calc |((truncQ ((x + 1) * W / 2) : ℤ) : ℚ) - (x + 1) * W / 2| * (2 / W)
        < 1 * (2 / W) := mul_lt_mul_of_pos_right key (by positivity)
      _ = 2 / W := one_mul _
  · set y := (ndc_of_clip (clip_of_vertex mvp v)).2 with hy
    have hpy : (project_vertex mvp W H v).2 = truncQ ((1 - y) * H / 2) := rfl
    rw [hpy]
    have key := abs_truncQ_sub_lt_one ((1 - y) * H / 2)
    have heq : 1 - 2 * ((truncQ ((1 - y) * H / 2) : ℤ) : ℚ) / H - y
        = ((1 - y) * H / 2 - ((truncQ ((1 - y) * H / 2) : ℤ) : ℚ)) * (2 / H) := by
      field_simp
      ring
    rw [heq, abs_mul, abs_of_pos (by positivity : (0 : ℚ) < 2 / H)]
    rw [abs_sub_comm]
    calc |((truncQ ((1 - y) * H / 2) : ℤ) : ℚ) - (1 - y) * H / 2| * (2 / H)
        < 1 * (2 / H) := mul_lt_mul_of_pos_right key (by positivity)
      _ = 2 / H := one_mul _

/-- Witness for C7: the origin projected through the identity matrix onto a
1280×720 screen. -/
theorem project_vertex_screen_roundtrip_witness :
    (0 : ℚ) < 1280 ∧ (0 : ℚ) < 720 ∧ 0 < (clip_of_vertex idMat4 (0, 0, 0)).w ∧
    (|2 * (((project_vertex idMat4 1280 720 (0, 0, 0)).1 : ℤ) : ℚ) / 1280 - 1 -
        (ndc_of_clip (clip_of_vertex idMat4 (0, 0, 0))).1| < 2 / 1280 ∧
     |1 - 2 * (((project_vertex idMat4 1280 720 (0, 0, 0)).2 : ℤ) : ℚ) / 720 -
        (ndc_of_clip (clip_of_vertex idMat4 (0, 0, 0))).2| < 2 / 720) :=
  ⟨by norm_num, by norm_num, by norm_num [clip_of_vertex, matVec, dot4, idMat4],
   project_vertex_screen_roundtrip idMat4 1280 720 (0, 0, 0) (by norm_num) (by norm_num)
     (by norm_num [clip_of_vertex, matVec, dot4, idMat4])⟩

/-- One debounce step always latches to the raw pinch flag: a true flag makes
the counter at least 1 (so the state switches on), a false flag resets it. -/
theorem pinch_debounce_step_was (ps : PinchState) (b : Bool) :
    (pinch_debounce_step ps b).was_pinching = b := by
  cases b
  · rfl
  · show (if 1 ≤ ps.pinch_frames + 1 then true else ps.was_pinching) = true
    rw [if_pos (Nat.le_add_left 1 ps.pinch_frames)]

/-- C8: the debounce update makes the stabilized pinch state equal to the
current frame's raw `is_pinching`: one step always yields the raw value, so
over any raw sequence the state after the update in frame `t` is exactly the
raw value of frame `t`. -/
theorem stabilized_pinch_equals_raw :
    (∀ (ps : PinchState) (b : Bool), (pinch_debounce_step ps b).was_pinching = b) ∧
    (∀ (init : PinchState) (seq : List Bool) (b : Bool),
      ((seq ++ [b]).foldl pinch_debounce_step init).was_pinching = b) := by
  constructor
  · exact pinch_debounce_step_was
  · intro init seq b
    rw [List.foldl_append, List.foldl_cons, List.foldl_nil]
    exact pinch_debounce_step_was _ b

attribute [local semireducible] Rat.mul Rat.inv Rat.add Rat.sub in
/-- Counterexample for C9 as stated: an object whose mesh failed to load
(empty vertex list) — here the all-default `Obj3D` — is never "inside" even
though its center projects in front of the camera (w = 1) and the query
point sits exactly on the projected center, within the 45-pixel floor of the
hit radius; so the claimed equivalence fails for it. -/
theorem is_point_inside_empty_mesh_cex :
    ¬(is_point_inside_3d idMat4 100 100 (default : Obj3D) 50 50 = true ↔
      0 < (center_clip idMat4 (default : Obj3D)).w ∧
        dist_sq (50, 50) (object_screen_center idMat4 100 100 (default : Obj3D)) ≤
          hit_radius (default : Obj3D) ^ 2) := by
  decide

/-- C9 as amended: for every 3D object with a nonempty vertex list,
`is_point_inside` returns true exactly when the center projected through
View·Projection only has `w > 0` and the squared screen distance is at most
the squared hit radius `max(45, bounding_box_size·65·scale)`; and for every
object (empty mesh or not), `w ≤ 0` forces `is_point_inside = false` and
`get_screen_position = none`. -/
theorem is_point_inside_center_hit_test (vp : Mat4) (W H : ℚ) (o : Obj3D) (x y : ℚ) :
    (0 < o.numVertices →
      (is_point_inside_3d vp W H o x y = true ↔
        0 < (center_clip vp o).w ∧
          dist_sq (x, y) (object_screen_center vp W H o) ≤ hit_radius o ^ 2)) ∧
    ((center_clip vp o).w ≤ 0 →
      is_point_inside_3d vp W H o x y = false ∧ get_screen_position_3d vp W H o = none) := by
  constructor
  · intro hn
    unfold is_point_inside_3d
    have hnz : ¬(o.numVertices = 0) := Nat.pos_iff_ne_zero.mp hn
    rw [if_neg hnz]
    split
    · next hw =>
      constructor
      · intro hfalse
        exact Bool.noConfusion hfalse
      · rintro ⟨hpos, _⟩
        exact absurd hpos (not_lt.mpr hw)
    · next hw =>
      constructor
      · intro hd
        exact ⟨lt_of_not_le hw, of_decide_eq_true hd⟩
      · rintro ⟨_, hp⟩
        exact decide_eq_true hp
  · intro hw
    constructor
    · unfold is_point_inside_3d
      rcases Nat.eq_zero_or_pos o.numVertices with h0 | hpos
      · rw [if_pos h0]
      · rw [if_neg (Nat.pos_iff_ne_zero.mp hpos), if_pos hw]
    · unfold get_screen_position_3d
      rcases Nat.eq_zero_or_pos o.numVertices with h0 | hpos
      · rw [if_pos h0]
      · rw [if_neg (Nat.pos_iff_ne_zero.mp hpos), if_pos hw]

attribute [local semireducible] Rat.mul Rat.inv Rat.add Rat.sub in
/-- Witness for the amended C9: the fixture 3D object (nonempty mesh) hit at
its projected center, and a behind-camera projection through a matrix whose
last row yields w = -1. -/
theorem is_point_inside_center_hit_test_witness :
    (0 < execObj3.numVertices ∧
      (is_point_inside_3d idMat4 100 100 execObj3 50 50 = true ↔
        0 < (center_clip idMat4 execObj3).w ∧
          dist_sq (50, 50) (object_screen_center idMat4 100 100 execObj3) ≤
            hit_radius execObj3 ^ 2)) ∧
    ((center_clip ⟨⟨1, 0, 0, 0⟩, ⟨0, 1, 0, 0⟩, ⟨0, 0, 1, 0⟩, ⟨0, 0, 0, -1⟩⟩ execObj3).w ≤ 0 ∧
      (is_point_inside_3d ⟨⟨1, 0, 0, 0⟩, ⟨0, 1, 0, 0⟩, ⟨0, 0, 1, 0⟩, ⟨0, 0, 0, -1⟩⟩ 100 100
          execObj3 50 50 = false ∧
        get_screen_position_3d ⟨⟨1, 0, 0, 0⟩, ⟨0, 1, 0, 0⟩, ⟨0, 0, 1, 0⟩, ⟨0, 0, 0, -1⟩⟩ 100 100
          execObj3 = none)) :=
  ⟨⟨by decide, (is_point_inside_center_hit_test idMat4 100 100 execObj3 50 50).1 (by decide)⟩,
   ⟨by decide,
    (is_point_inside_center_hit_test ⟨⟨1, 0, 0, 0⟩, ⟨0, 1, 0, 0⟩, ⟨0, 0, 1, 0⟩, ⟨0, 0, 0, -1⟩⟩
        100 100 execObj3 50 50).2 (by decide)⟩⟩

/-- C10: the remote-landmark branches of `detect_hands` (Socket.IO and
Flask polling) return at most one hand record per input, and any returned
record has hand index 0; two distinct hand indices in one frame can
therefore only come from local detection. -/
theorem detect_hands_remote_single_hand :
    ∀ (skel : Option Skeleton) (w h : ℚ),
      (detect_hands_remote skel w h).length ≤ 1 ∧
      ∀ f ∈ detect_hands_remote skel w h, f.hand_idx = 0 := by
  intro skel w h
  cases skel with
  | none =>
    exact ⟨Nat.zero_le 1, fun f hf => absurd hf (List.not_mem_nil f)⟩
  | some s =>
    by_cases he : s.landmarks.isEmpty
    · have hd : detect_hands_remote (some s) w h = [] := by
        show (if s.landmarks.isEmpty then ([] : List HandFrame) else _) = []
        rw [if_pos he]
      rw [hd]
      exact ⟨Nat.zero_le 1, fun f hf => absurd hf (List.not_mem_nil f)⟩
    · have hd : detect_hands_remote (some s) w h =
          [{ extract_hand_info_from_normalized s.landmarks w h s.handedness with
              hand_idx := 0 }] := by
        show (if s.landmarks.isEmpty then ([] : List HandFrame) else _) = _
        rw [if_neg he]
      rw [hd]
      refine ⟨le_refl 1, ?_⟩
      intro f hf
      rw [List.mem_singleton] at hf
      subst hf
      rfl

/-- Witness for C10: a one-landmark skeleton payload. -/
theorem detect_hands_remote_single_hand_witness :
    (detect_hands_remote (some ⟨[⟨0, 0, 0⟩], none⟩) 100 100).length ≤ 1 ∧
    ∀ f ∈ detect_hands_remote (some ⟨[⟨0, 0, 0⟩], none⟩) 100 100, f.hand_idx = 0 :=
  detect_hands_remote_single_hand (some ⟨[⟨0, 0, 0⟩], none⟩) 100 100

/-! ## C6: the empty-hands frame is a global reset -/

/-- Writing object `i` with a rotation-mode-free record leaves slot `i`
rotation-mode-free (out-of-range writes read back the default object). -/
theorem mode_setObj3_self (e : Engine) (i : Nat) (o : Obj3D)
    (hm : o.is_in_rotation_mode = false) :
    (getObj3 (setObj3 e i o) i).is_in_rotation_mode = false := by
  by_cases hi : i < e.objects_3d.length
  · show (((e.objects_3d.set i o)[i]?).getD default).is_in_rotation_mode = false
    rw [List.getElem?_set_self hi]
    exact hm
  · show (((e.objects_3d.set i o)[i]?).getD default).is_in_rotation_mode = false
    rw [List.getElem?_eq_none (by rw [List.length_set]; exact Nat.le_of_not_lt hi)]
    rfl

/-- Writing object `i` does not change any other slot. -/
theorem getObj3_setObj3_ne {i j : Nat} (hne : i ≠ j) (e : Engine) (o : Obj3D) :
    getObj3 (setObj3 e i o) j = getObj3 e j := by
  show ((e.objects_3d.set i o)[j]?).getD default = (e.objects_3d[j]?).getD default
  rw [List.getElem?_set_ne hne]

/-- `_exit_rotation_mode` leaves its target object out of rotation mode. -/
theorem mode_exitRotationMode_self (e : Engine) (i : Nat) :
    (getObj3 (exitRotationMode e i) i).is_in_rotation_mode = false := by
  unfold exitRotationMode
  cases h : (getObj3 e i).rotation_hand_idx with
  | some rh => exact mode_setObj3_self (dropGrabState3 rh e) i _ rfl
  | none => exact mode_setObj3_self e i _ rfl

/-- `_exit_rotation_mode` does not touch other objects. -/
theorem getObj3_exitRotationMode_ne {i j : Nat} (hne : i ≠ j) (e : Engine) :
    getObj3 (exitRotationMode e i) j = getObj3 e j := by
  unfold exitRotationMode
  cases h : (getObj3 e i).rotation_hand_idx with
  | some rh =>
    rw [getObj3_setObj3_ne hne]
    rfl
  | none =>
    rw [getObj3_setObj3_ne hne]

/-- `_exit_rotation_mode` preserves the number of 3D objects. -/
theorem len_exitRotationMode (e : Engine) (i : Nat) :
    (exitRotationMode e i).objects_3d.length = e.objects_3d.length := by
  unfold exitRotationMode
  cases h : (getObj3 e i).rotation_hand_idx with
  | some rh => exact List.length_set _ _ _
  | none => exact List.length_set _ _ _

/-- One step of the lost-rotation-hand cleanup preserves the number of 3D
objects. -/
theorem len_rotLostStep (hands : List HandInfo) (e : Engine) (i : Nat) :
    (rotLostStep hands e i).objects_3d.length = e.objects_3d.length := by
  unfold rotLostStep
  split
  · split
    · exact len_exitRotationMode e i
    · rfl
  · rfl

/-- With no hands detected, the lost-rotation-hand cleanup step at object `i`
leaves object `i` out of rotation mode (using the rotation-owner
invariant). -/
theorem mode_rotLostStep_self {e : Engine} (hr : RotOwnerAll e) (i : Nat) :
    (getObj3 (rotLostStep [] e i) i).is_in_rotation_mode = false := by
  unfold rotLostStep
  cases h : (getObj3 e i).rotation_hand_idx with
  | some rh =>
    cases hm : (getObj3 e i).is_in_rotation_mode with
    | true => exact mode_exitRotationMode_self e i
    | false => exact hm
  | none =>
    cases hm : (getObj3 e i).is_in_rotation_mode with
    | false => rfl
    | true =>
      have hsome := rotOwner_getObj3 hr i hm
      rw [h] at hsome
      exact Bool.noConfusion hsome

/-- The lost-rotation-hand cleanup step never puts an object into rotation
mode. -/
theorem mode_rotLostStep_pres (hands : List HandInfo) {e : Engine} (i j : Nat)
    (hmode : (getObj3 e j).is_in_rotation_mode = false) :
    (getObj3 (rotLostStep hands e i) j).is_in_rotation_mode = false := by
  unfold rotLostStep
  split
  · split
    · by_cases hij : i = j
      · subst hij
        exact mode_exitRotationMode_self e _
      · rw [getObj3_exitRotationMode_ne hij]
        exact hmode
    · exact hmode
  · exact hmode

/-- Folding the lost-rotation-hand cleanup step over any index list keeps a
rotation-mode-free slot rotation-mode-free. -/
theorem mode_rotLostFold_pres (hands : List HandInfo) (l : List Nat) {e : Engine} (j : Nat)
    (hmode : (getObj3 e j).is_in_rotation_mode = false) :
    (getObj3 (l.foldl (rotLostStep hands) e) j).is_in_rotation_mode = false := by
  induction l generalizing e with
  | nil => exact hmode
  | cons a t ih =>
    rw [List.foldl_cons]
    exact ih (mode_rotLostStep_pres hands a j hmode)

/-- Folding the no-hands lost-rotation-hand cleanup step over an index list
clears rotation mode on every listed slot. -/
theorem mode_rotLostFold_mem (l : List Nat) {e : Engine} (hr : RotOwnerAll e) {i : Nat}
    (hi : i ∈ l) :
    (getObj3 (l.foldl (rotLostStep []) e) i).is_in_rotation_mode = false := by
  induction l generalizing e with
  | nil => cases hi
  | cons a t ih =>
    rw [List.foldl_cons]
    rcases List.mem_cons.mp hi with rfl | hmem
    · exact mode_rotLostFold_pres [] t i (mode_rotLostStep_self hr i)
    · exact ih (rotAll_rotLostStep [] a hr) hmem

/-- Folding the lost-rotation-hand cleanup step preserves the number of 3D
objects. -/
theorem len_rotLostFold (hands : List HandInfo) (l : List Nat) (e : Engine) :
    (l.foldl (rotLostStep hands) e).objects_3d.length = e.objects_3d.length := by
  induction l generalizing e with
  | nil => rfl
  | cons a t ih =>
    rw [List.foldl_cons, ih]
    exact len_rotLostStep hands e a

/-- With no hands detected, the lost-rotation-hand cleanup exits rotation
mode on every 3D object (lines 986-992: every rotation owner is a lost
hand). -/
theorem noRot_rotCleanupLostHand {e : Engine} (hr : RotOwnerAll e) :
    ∀ o ∈ (rotCleanupLostHand [] e).objects_3d, o.is_in_rotation_mode = false := by
  intro o ho
  obtain ⟨i, hio⟩ := List.mem_iff_getElem?.mp ho
  have hlen : (rotCleanupLostHand [] e).objects_3d.length = e.objects_3d.length :=
    len_rotLostFold [] (List.range e.objects_3d.length) e
  have hi : i < e.objects_3d.length := by
    have hlt : i < (rotCleanupLostHand [] e).objects_3d.length :=
      (List.getElem?_eq_some.mp hio).1
    rw [hlen] at hlt
    exact hlt
  have hres : (getObj3 (rotCleanupLostHand [] e) i).is_in_rotation_mode = false :=
    mode_rotLostFold_mem (List.range e.objects_3d.length) hr (List.mem_range.mpr hi)
  have hgo : getObj3 (rotCleanupLostHand [] e) i = o := by
    unfold getObj3
    rw [hio]
    rfl
  rw [hgo] at hres
  exact hres

/-- The no-hands safety reset (lines 994-1006) zeroes every grab count,
empties every grabbing-hand list (using the grab-count invariant for
already-free objects), clears the three transient maps, and preserves
absence of rotation mode. -/
theorem noHandsReset_clears {e : Engine} (hs : SyncAll e)
    (hm : ∀ o ∈ e.objects_3d, o.is_in_rotation_mode = false) :
    (∀ o ∈ (noHandsReset e).objects, o.is_grabbed = 0 ∧ o.grabbed_by_hand = []) ∧
    (∀ o ∈ (noHandsReset e).objects_3d,
      o.is_grabbed = 0 ∧ o.grabbed_by_hand = [] ∧ o.is_in_rotation_mode = false) ∧
    (noHandsReset e).grab_states = [] ∧ (noHandsReset e).grab_states_3d = [] ∧
    (noHandsReset e).pinch_states = [] := by
  refine ⟨?_, ?_, rfl, rfl, rfl⟩
  · intro o ho
    obtain ⟨a, ha, rfl⟩ := List.mem_map.mp ho
    by_cases hg : 0 < a.is_grabbed
    · rw [if_pos hg]
      exact ⟨rfl, rfl⟩
    · rw [if_neg hg]
      have h0 : a.is_grabbed = 0 := Nat.eq_zero_of_not_pos hg
      have h2 : a.is_grabbed = a.grabbed_by_hand.length := hs.1 a ha
      refine ⟨h0, List.length_eq_zero.mp ?_⟩
      rw [← h2]
      exact h0
  · intro o ho
    obtain ⟨a, ha, rfl⟩ := List.mem_map.mp ho
    by_cases hg : 0 < a.is_grabbed
    · rw [if_pos hg]
      exact ⟨rfl, rfl, hm a ha⟩
    · rw [if_neg hg]
      have h0 : a.is_grabbed = 0 := Nat.eq_zero_of_not_pos hg
      have h2 : a.is_grabbed = a.grabbed_by_hand.length := hs.2 a ha
      refine ⟨h0, List.length_eq_zero.mp ?_, hm a ha⟩
      rw [← h2]
      exact h0

/-- C6: an interaction frame with an empty hand list resets every 2D and 3D
object to grab count 0 with an empty grabbing-hand list, clears the 2D
grab-state, 3D grab-state and pinch-state maps, and leaves no 3D object in
rotation mode (given the grab-count and rotation-owner bookkeeping
invariants of the input state). -/
theorem empty_hands_global_reset (g : Geometry) {e : Engine}
    (hs : SyncAll e) (hr : RotOwnerAll e) :
    (∀ o ∈ (stepFrame g [] e).objects, o.is_grabbed = 0 ∧ o.grabbed_by_hand = []) ∧
    (∀ o ∈ (stepFrame g [] e).objects_3d,
      o.is_grabbed = 0 ∧ o.grabbed_by_hand = [] ∧ o.is_in_rotation_mode = false) ∧
    (stepFrame g [] e).grab_states = [] ∧ (stepFrame g [] e).grab_states_3d = [] ∧
    (stepFrame g [] e).pinch_states = [] := by
  have hsM : SyncAll (rotCleanupLostHand [] (rotCleanupUngrabbed
      (selectionPhase g [] (cleanup3d [] (cleanup2d [] e))))) :=
    syncAll_rotCleanupLostHand [] (syncAll_rotCleanupUngrabbed
      (syncAll_selectionPhase g [] (syncAll_cleanup3d [] (syncAll_cleanup2d [] hs))))
  have hrM : RotOwnerAll (rotCleanupUngrabbed
      (selectionPhase g [] (cleanup3d [] (cleanup2d [] e)))) :=
    rotAll_rotCleanupUngrabbed
      (rotAll_selectionPhase g [] (rotAll_cleanup3d [] (rotAll_cleanup2d [] hr)))
  exact noHandsReset_clears hsM (noRot_rotCleanupLostHand hrM)

/-- Witness for C6 at the concrete initial fixture engine. -/
theorem empty_hands_global_reset_witness :
    (∀ o ∈ (stepFrame execGeometry [] execEngine).objects,
      o.is_grabbed = 0 ∧ o.grabbed_by_hand = []) ∧
    (∀ o ∈ (stepFrame execGeometry [] execEngine).objects_3d,
      o.is_grabbed = 0 ∧ o.grabbed_by_hand = [] ∧ o.is_in_rotation_mode = false) ∧
    (stepFrame execGeometry [] execEngine).grab_states = [] ∧
    (stepFrame execGeometry [] execEngine).grab_states_3d = [] ∧
    (stepFrame execGeometry [] execEngine).pinch_states = [] :=
  empty_hands_global_reset execGeometry
    (by unfold SyncAll Sync2 Sync3; decide)
    (by unfold RotOwnerAll RotOwner; decide)

/-! ## C5: the two-hand scaling formula and baseline snapshot -/

/-- Lookup after assignment at the same key. -/
theorem alookup_aset_self {α : Type} {m : List (Nat × α)} {k : Nat} {v : α} :
    alookup (aset m k v) k = some v := by
  induction m with
  | nil =>
    unfold aset alookup
    rw [if_pos rfl]
  | cons p r ih =>
    obtain ⟨k2, v2⟩ := p
    unfold aset
    by_cases h : k2 = k
    · rw [if_pos h]
      unfold alookup
      rw [if_pos rfl]
    · rw [if_neg h]
      unfold alookup
      rw [if_neg h]
      exact ih

/-- Lookup after assignment at a different key. -/
theorem alookup_aset_ne {α : Type} {m : List (Nat × α)} {k k2 : Nat} {v : α} (hne : k ≠ k2) :
    alookup (aset m k v) k2 = alookup m k2 := by
  induction m with
  | nil =>
    unfold aset alookup
    rw [if_neg hne]
    rfl
  | cons p r ih =>
    obtain ⟨k3, v3⟩ := p
    unfold aset
    by_cases h : k3 = k
    · rw [if_pos h]
      unfold alookup
      rw [if_neg hne, if_neg (by rw [h]; exact hne)]
    · rw [if_neg h]
      unfold alookup
      by_cases h2 : k3 = k2
      · rw [if_pos h2, if_pos h2]
      · rw [if_neg h2, if_neg h2]
        exact ih

/-- Reading back an in-range 2D object write. -/
theorem getObj2_setObj2_self {e : Engine} {i : Nat} (hi : i < e.objects.length) (o : Obj2D) :
    getObj2 (setObj2 e i o) i = o := by
  show ((e.objects.set i o)[i]?).getD default = o
  rw [List.getElem?_set_self hi]
  rfl

/-- Reading back an in-range 3D object write. -/
theorem getObj3_setObj3_self {e : Engine} {i : Nat} (hi : i < e.objects_3d.length) (o : Obj3D) :
    getObj3 (setObj3 e i o) i = o := by
  show ((e.objects_3d.set i o)[i]?).getD default = o
  rw [List.getElem?_set_self hi]
  rfl

/-- `setGrab2` as an association-list assignment. -/
theorem grab_states_setGrab2 (h : Nat) (gs : Grab2D) (e : Engine) :
    (setGrab2 h gs e).grab_states = aset e.grab_states h gs := rfl

/-- `setGrab3` as an association-list assignment. -/
theorem grab_states_3d_setGrab3 (h : Nat) (gs : Grab3D) (e : Engine) :
    (setGrab3 h gs e).grab_states_3d = aset e.grab_states_3d h gs := rfl

/-- When both grabbing hands were found in the stored hand records,
`_handle_two_hand_scaling_2d` is the snapshot step followed by the smoothed
scale update. -/
theorem twoHandScaling2d_eq {e : Engine} {i h1 h2 : Nat} {a b : HandInfo} (g : Geometry)
    (hpair : grabbingPair2 e (getObj2 e i) = some (h1, h2))
    (hfind : findPair e.current_hands_info h1 h2 = (some a, some b)) :
    twoHandScaling2d g e i =
      applySmoothScale2d i h1 (g.dist a.pinch_center b.pinch_center)
        (scalingPairInit2d h1 h2 (g.dist a.pinch_center b.pinch_center)
          (getObj2 e i).size e) := by
  unfold twoHandScaling2d
  simp only [hpair, hfind]

/-- The 2D snapshot step does nothing when the first hand's baseline is
already recorded. -/
theorem scalingPairInit2d_noop {e : Engine} {h1 : Nat} {s1 : Grab2D} (h2 : Nat) (d size : ℚ)
    (hl : alookup e.grab_states h1 = some s1)
    (hd : s1.initial_two_hand_distance ≠ none) :
    scalingPairInit2d h1 h2 d size e = e := by
  unfold scalingPairInit2d
  cases h2l : alookup e.grab_states h2 with
  | none => simp only [hl, h2l]
  | some s2 =>
    simp only [hl, h2l]
    rw [if_neg hd]

/-- The 2D snapshot step records the current distance and object size in
both hands' grab states when the first hand has no baseline yet. -/
theorem scalingPairInit2d_set {e : Engine} {h1 h2 : Nat} {s1 s2 : Grab2D} (d size : ℚ)
    (hl1 : alookup e.grab_states h1 = some s1) (hl2 : alookup e.grab_states h2 = some s2)
    (hnone : s1.initial_two_hand_distance = none) :
    scalingPairInit2d h1 h2 d size e =
      setGrab2 h2 { s2 with initial_two_hand_distance := some d, initial_size := some size }
        (setGrab2 h1 { s1 with initial_two_hand_distance := some d, initial_size := some size }
          e) := by
  unfold scalingPairInit2d
  simp only [hl1, hl2]
  rw [if_pos hnone]

/-- The smoothed 2D scale update with a positive recorded baseline. -/
theorem applySmoothScale2d_eq {e : Engine} {h1 : Nat} {s1 : Grab2D} {d0 : ℚ} (i : Nat) (d : ℚ)
    (hl : alookup e.grab_states h1 = some s1)
    (hd : s1.initial_two_hand_distance = some d0) (hpos : 0 < d0) :
    applySmoothScale2d i h1 d e =
      setObj2 e i (scaleSmoothed2 (s1.initial_size.getD 0) (d / d0) (getObj2 e i)) := by
  unfold applySmoothScale2d
  simp only [hl, hd]
  rw [if_pos hpos]

/-- The 2D smoothed scale update does not touch the grab-state map. -/
theorem grab_states_applySmoothScale2d (i h1 : Nat) (d : ℚ) (e : Engine) :
    (applySmoothScale2d i h1 d e).grab_states = e.grab_states := by
  unfold applySmoothScale2d
  split
  · split
    · split
      · rfl
      · rfl
    · rfl
  · rfl

/-- When both hands were found among this frame's records,
`_handle_selection_scaling` is the snapshot step followed by the smoothed
scale update. -/
theorem selectionScaling_eq {e : Engine} {i h1 h2 : Nat} {hands : List HandInfo}
    {a b : HandInfo} (g : Geometry)
    (hf1 : hands.find? (fun x => x.hand_idx == h1) = some a)
    (hf2 : hands.find? (fun x => x.hand_idx == h2) = some b) :
    selectionScaling g e i h1 h2 hands =
      applySmoothScale3d i h1 (g.dist a.pinch_center b.pinch_center)
        (scalingInit3d h1 (g.dist a.pinch_center b.pinch_center) (getObj3 e i).scale e) := by
  unfold selectionScaling
  simp only [hf1, hf2]

/-- The 3D snapshot step does nothing when the first hand's baseline is
already recorded. -/
theorem scalingInit3d_noop {e : Engine} {h1 : Nat} {s1 : Grab3D} (d sc : ℚ)
    (hl : alookup e.grab_states_3d h1 = some s1)
    (hd : s1.initial_two_hand_distance ≠ none) :
    scalingInit3d h1 d sc e = e := by
  unfold scalingInit3d
  simp only [hl]
  rw [if_neg hd]

/-- The 3D snapshot step records the current distance and object scale in
the first hand's grab state when it has no baseline yet. -/
theorem scalingInit3d_set {e : Engine} {h1 : Nat} {s1 : Grab3D} (d sc : ℚ)
    (hl : alookup e.grab_states_3d h1 = some s1)
    (hnone : s1.initial_two_hand_distance = none) :
    scalingInit3d h1 d sc e =
      setGrab3 h1 { s1 with initial_two_hand_distance := some d, initial_scale := some sc }
        e := by
  unfold scalingInit3d
  simp only [hl]
  rw [if_pos hnone]

/-- The smoothed 3D scale update with a positive recorded baseline. -/
theorem applySmoothScale3d_eq {e : Engine} {h1 : Nat} {s1 : Grab3D} {d0 : ℚ} (i : Nat) (d : ℚ)
    (hl : alookup e.grab_states_3d h1 = some s1)
    (hd : s1.initial_two_hand_distance = some d0) (hpos : 0 < d0) :
    applySmoothScale3d i h1 d e =
      setObj3 e i (scaleSmoothed3 (s1.initial_scale.getD 0) (d / d0) (getObj3 e i)) := by
  unfold applySmoothScale3d
  simp only [hl, hd]
  rw [if_pos hpos]

/-- The 3D smoothed scale update does not touch the 3D grab-state map. -/
theorem grab_states_3d_applySmoothScale3d (i h1 : Nat) (d : ℚ) (e : Engine) :
    (applySmoothScale3d i h1 d e).grab_states_3d = e.grab_states_3d := by
  unfold applySmoothScale3d
  split
  · split
    · split
      · rfl
      · rfl
    · rfl
  · rfl

/-- C5: with a recorded positive baseline distance `d0` and baseline
size/scale `s0`, one frame of two-hand scaling at current inter-pinch-center
distance `d` sets the value to
`clamp(old*0.7 + (s0*(d/d0))*0.3, 20, 200)` for a 2D object's size and
`clamp(old*0.7 + (s0*(d/d0))*0.3, 0.1, 5.0)` for a 3D object's scale;
and on the first two-hand frame (no recorded baseline yet) the current
distance and current size/scale are snapshotted into the grab state (both
hands' states in 2D, the first hand's in 3D). -/
theorem two_hand_scaling_formula_and_snapshot (g : Geometry) :
    (∀ (e : Engine) (i h1 h2 : Nat) (a b : HandInfo) (s1 : Grab2D) (d0 s0 : ℚ),
      i < e.objects.length →
      grabbingPair2 e (getObj2 e i) = some (h1, h2) →
      findPair e.current_hands_info h1 h2 = (some a, some b) →
      alookup e.grab_states h1 = some s1 →
      s1.initial_two_hand_distance = some d0 → 0 < d0 → s1.initial_size = some s0 →
      (getObj2 (twoHandScaling2d g e i) i).size =
        max 20 (min 200 ((getObj2 e i).size * (7 / 10) +
          (s0 * (g.dist a.pinch_center b.pinch_center / d0)) * (3 / 10)))) ∧
    (∀ (e : Engine) (i h1 h2 : Nat) (a b : HandInfo) (s1 s2 : Grab2D),
      h1 ≠ h2 →
      grabbingPair2 e (getObj2 e i) = some (h1, h2) →
      findPair e.current_hands_info h1 h2 = (some a, some b) →
      alookup e.grab_states h1 = some s1 →
      alookup e.grab_states h2 = some s2 →
      s1.initial_two_hand_distance = none →
      alookup (twoHandScaling2d g e i).grab_states h1 =
        some { s1 with
          initial_two_hand_distance := some (g.dist a.pinch_center b.pinch_center),
          initial_size := some (getObj2 e i).size } ∧
      alookup (twoHandScaling2d g e i).grab_states h2 =
        some { s2 with
          initial_two_hand_distance := some (g.dist a.pinch_center b.pinch_center),
          initial_size := some (getObj2 e i).size }) ∧
    (∀ (e : Engine) (i h1 h2 : Nat) (hands : List HandInfo) (a b : HandInfo) (s1 : Grab3D)
        (d0 s0 : ℚ),
      i < e.objects_3d.length →
      hands.find? (fun x => x.hand_idx == h1) = some a →
      hands.find? (fun x => x.hand_idx == h2) = some b →
      alookup e.grab_states_3d h1 = some s1 →
      s1.initial_two_hand_distance = some d0 → 0 < d0 → s1.initial_scale = some s0 →
      (getObj3 (selectionScaling g e i h1 h2 hands) i).scale =
        max (1 / 10) (min 5 ((getObj3 e i).scale * (7 / 10) +
          (s0 * (g.dist a.pinch_center b.pinch_center / d0)) * (3 / 10)))) ∧
    (∀ (e : Engine) (i h1 h2 : Nat) (hands : List HandInfo) (a b : HandInfo) (s1 : Grab3D),
      hands.find? (fun x => x.hand_idx == h1) = some a →
      hands.find? (fun x => x.hand_idx == h2) = some b →
      alookup e.grab_states_3d h1 = some s1 →
      s1.initial_two_hand_distance = none →
      alookup (selectionScaling g e i h1 h2 hands).grab_states_3d h1 =
        some { s1 with
          initial_two_hand_distance := some (g.dist a.pinch_center b.pinch_center),
          initial_scale := some (getObj3 e i).scale }) := by
  refine ⟨?_, ?_, ?_, ?_⟩
  · intro e i h1 h2 a b s1 d0 s0 hlen hpair hfind hl hd hpos hs0
    rw [twoHandScaling2d_eq g hpair hfind,
        scalingPairInit2d_noop h2 _ _ hl (by rw [hd]; exact fun hx => Option.noConfusion hx),
        applySmoothScale2d_eq i _ hl hd hpos,
        getObj2_setObj2_self hlen, hs0]
    rfl
  · intro e i h1 h2 a b s1 s2 hne hpair hfind hl1 hl2 hnone
    rw [twoHandScaling2d_eq g hpair hfind, scalingPairInit2d_set _ _ hl1 hl2 hnone]
    constructor
    · rw [grab_states_applySmoothScale2d, grab_states_setGrab2, grab_states_setGrab2,
          alookup_aset_ne (Ne.symm hne), alookup_aset_self]
    · rw [grab_states_applySmoothScale2d, grab_states_setGrab2, grab_states_setGrab2,
          alookup_aset_self]
  · intro e i h1 h2 hands a b s1 d0 s0 hlen hf1 hf2 hl hd hpos hs0
    rw [selectionScaling_eq g hf1 hf2,
        scalingInit3d_noop _ _ hl (by rw [hd]; exact fun hx => Option.noConfusion hx),
        applySmoothScale3d_eq i _ hl hd hpos,
        getObj3_setObj3_self hlen, hs0]
    rfl
  · intro e i h1 h2 hands a b s1 hf1 hf2 hl hnone
    rw [selectionScaling_eq g hf1 hf2, scalingInit3d_set _ _ hl hnone,
        grab_states_3d_applySmoothScale3d, grab_states_3d_setGrab3, alookup_aset_self]

/-- 2D grab state with a recorded baseline (distance 1, size 60), for the
concrete C5 instance. -/
def scaleGrabA : Grab2D :=
  { obj := 0, initial_pinch_distance := 0, initial_size := some 60,
    grab_offset_x := 0, grab_offset_y := 0, initial_two_hand_distance := some 1 }

/-- 2D grab state with no recorded baseline, for the concrete C5 snapshot
instance. -/
def scaleGrabB : Grab2D :=
  { obj := 0, initial_pinch_distance := 0, initial_size := some 60,
    grab_offset_x := 0, grab_offset_y := 0, initial_two_hand_distance := none }

/-- The fixture 2D object grabbed by hands 0 and 1. -/
def scaleObj2 : Obj2D :=
  { execObj2 with is_grabbed := 2, grabbed_by_hand := [0, 1] }

/-- Engine fixture in the middle of a 2D two-hand scaling gesture. -/
def scaleEngine : Engine :=
  { execEngine with
    objects := [scaleObj2]
    grab_states := [(0, scaleGrabA), (1, scaleGrabA)]
    current_hands_info := [execHand 0 true, execHand 1 true] }

/-- Engine fixture on the first frame of a 2D two-hand grab. -/
def snapshotEngine : Engine :=
  { scaleEngine with grab_states := [(0, scaleGrabB), (1, scaleGrabB)] }

/-- Witness for C5: the 2D formula at a recorded baseline of distance 1 and
size 60, and the 2D snapshot on a first two-hand frame. -/
theorem two_hand_scaling_formula_and_snapshot_witness :
    (getObj2 (twoHandScaling2d execGeometry scaleEngine 0) 0).size =
      max 20 (min 200 ((getObj2 scaleEngine 0).size * (7 / 10) +
        ((60 : ℚ) * (execGeometry.dist (execHand 0 true).pinch_center
          (execHand 1 true).pinch_center / 1)) * (3 / 10))) ∧
    alookup (twoHandScaling2d execGeometry snapshotEngine 0).grab_states 0 =
      some { scaleGrabB with
        initial_two_hand_distance := some (execGeometry.dist (execHand 0 true).pinch_center
          (execHand 1 true).pinch_center),
        initial_size := some (getObj2 snapshotEngine 0).size } :=
  ⟨(two_hand_scaling_formula_and_snapshot execGeometry).1 scaleEngine 0 0 1
      (execHand 0 true) (execHand 1 true) scaleGrabA 1 60
      (by decide) rfl rfl rfl rfl (by norm_num) rfl,
   ((two_hand_scaling_formula_and_snapshot execGeometry).2.1 snapshotEngine 0 0 1
      (execHand 0 true) (execHand 1 true) scaleGrabB scaleGrabB
      (by decide) rfl rfl rfl rfl rfl).1⟩

/-- `_update_rotation_axis_from_hand` only rewrites the rotation axis. -/
theorem updateRotationAxis_shape (o : Obj3D) (hands : List HandInfo) :
    ∃ ax, updateRotationAxis o hands = { o with rotation_axis := ax } := by
  unfold updateRotationAxis
  split
  · exact ⟨none, rfl⟩
  · split
    · exact ⟨none, rfl⟩
    · split
      · exact ⟨some Axis.x, rfl⟩
      · exact ⟨some Axis.y, rfl⟩
      · exact ⟨none, rfl⟩

/-- The rotation spin only touches the rotation angles. -/
theorem rotationSpin_fields (g : Geometry) (dx dy : ℚ) (o : Obj3D) :
    (rotationSpin g dx dy o).is_in_rotation_mode = o.is_in_rotation_mode ∧
    (rotationSpin g dx dy o).rotation_hand_idx = o.rotation_hand_idx ∧
    (rotationSpin g dx dy o).is_grabbed = o.is_grabbed ∧
    (rotationSpin g dx dy o).grabbed_by_hand = o.grabbed_by_hand := by
  unfold rotationSpin
  split
  · split
    · exact ⟨rfl, rfl, rfl, rfl⟩
    · exact ⟨rfl, rfl, rfl, rfl⟩
  · split
    · exact ⟨rfl, rfl, rfl, rfl⟩
    · exact ⟨rfl, rfl, rfl, rfl⟩

/-- The per-frame rotation-mode body never changes rotation-mode membership,
the owning hand or the grab bookkeeping. -/
theorem rotationBody_fields (g : Geometry) (rhi : HandInfo) (o : Obj3D) :
    (rotationBody g rhi o).is_in_rotation_mode = o.is_in_rotation_mode ∧
    (rotationBody g rhi o).rotation_hand_idx = o.rotation_hand_idx ∧
    (rotationBody g rhi o).is_grabbed = o.is_grabbed ∧
    (rotationBody g rhi o).grabbed_by_hand = o.grabbed_by_hand := by
  unfold rotationBody
  split
  · exact ⟨rfl, rfl, rfl, rfl⟩
  · split
    · exact ⟨rfl, rfl, rfl, rfl⟩
    · split
      · exact ⟨rfl, rfl, rfl, rfl⟩
      · exact ⟨(rotationSpin_fields g _ _ o).1, (rotationSpin_fields g _ _ o).2.1,
          (rotationSpin_fields g _ _ o).2.2.1, (rotationSpin_fields g _ _ o).2.2.2⟩

/-! ## C4: releasing one hand of a two-hand 3D grab -/

set_option maxHeartbeats 8000000 in
/-- C4: in a frame where hand 0 stops pinching while hand 1 also holds the
two-hand-grabbed 3D object (grab count 2): if hand 1 is still pinching, the
object ends the frame in rotation mode owned by the released hand
(`rotation_hand_idx = some 0`, the released hand's index) with grab count 1;
if hand 1 also stops pinching, the object ends the frame with grab count 0
and not in rotation mode. -/
theorem release_from_two_hand_grab (g : Geometry) (a b : HandInfo) (O : Obj3D)
    (s1 s2 : Grab3D) (ps : List (Nat × PinchState)) (sel : List Nat)
    (chi : List HandInfo)
    (ha0 : a.hand_idx = 0) (hap : a.is_pinching = false) (hb0 : b.hand_idx = 1)
    (hOg : O.is_grabbed = 2) (hOl : O.grabbed_by_hand = [0, 1])
    (hOm : O.is_in_rotation_mode = false) (hs1 : s1.obj = 0) (hs2 : s2.obj = 0) :
    (b.is_pinching = true →
      (getObj3 (stepFrame g [a, b] (mkC4Engine O s1 s2 ps sel chi)) 0).is_in_rotation_mode = true ∧
      (getObj3 (stepFrame g [a, b] (mkC4Engine O s1 s2 ps sel chi)) 0).rotation_hand_idx = some 0 ∧
      (getObj3 (stepFrame g [a, b] (mkC4Engine O s1 s2 ps sel chi)) 0).is_grabbed = 1) ∧
    (b.is_pinching = false →
      (getObj3 (stepFrame g [a, b] (mkC4Engine O s1 s2 ps sel chi)) 0).is_grabbed = 0 ∧
      (getObj3 (stepFrame g [a, b] (mkC4Engine O s1 s2 ps sel chi)) 0).is_in_rotation_mode = false) := by
  obtain ⟨aidx, api, apc, apd, apal, ath, ain, albl, ages⟩ := a
  obtain ⟨bidx, bpi, bpc, bpd, bpal, bth, bin, blbl, bges⟩ := b
  obtain ⟨ox, oy, oz, osc, oosc, orx, ory, orz, og, ol, osel, oisel, om, orhi, olrp, orax,
    obbs, onv⟩ := O
  obtain ⟨s1o, f11, f12, f13, f14, f15, f16, f17, f18, f19, f1a, f1b, f1c⟩ := s1
  obtain ⟨s2o, f21, f22, f23, f24, f25, f26, f27, f28, f29, f2a, f2b, f2c⟩ := s2
  have e1 : aidx = 0 := ha0
  subst e1
  have e2 : api = false := hap
  subst e2
  have e3 : bidx = 1 := hb0
  subst e3
  have e5 : og = 2 := hOg
  subst e5
  have e6 : ol = [0, 1] := hOl
  subst e6
  have e7 : om = false := hOm
  subst e7
  have e8 : s1o = 0 := hs1
  subst e8
  have e9 : s2o = 0 := hs2
  subst e9
  constructor
  · intro hbp
    have e4 : bpi = true := hbp
    subst e4
    obtain ⟨ax, hax⟩ := updateRotationAxis_shape (markRotationOwner 0
          [⟨0, false, apc, apd, apal, ath, ain, albl, ages⟩, ⟨1, true, bpc, bpd, bpal, bth, bin, blbl, bges⟩] ⟨ox, oy, oz, osc, oosc, orx, ory, orz, 2, [0, 1], osel, oisel, false, orhi, olrp, orax, obbs, onv⟩)
      [⟨0, false, apc, apd, apal, ath, ain, albl, ages⟩, ⟨1, true, bpc, bpd, bpal, bth, bin, blbl, bges⟩]
    have h1 : processHand g
        [⟨0, false, apc, apd, apal, ath, ain, albl, ages⟩, ⟨1, true, bpc, bpd, bpal, bth, bin, blbl, bges⟩]
        ⟨(mkC4Engine ⟨ox, oy, oz, osc, oosc, orx, ory, orz, 2, [0, 1], osel, oisel, false, orhi, olrp, orax, obbs, onv⟩
          ⟨0, f11, f12, f13, f14, f15, f16, f17, f18, f19, f1a, f1b, f1c⟩
          ⟨0, f21, f22, f23, f24, f25, f26, f27, f28, f29, f2a, f2b, f2c⟩ ps sel chi), [], []⟩
        ⟨0, false, apc, apd, apal, ath, ain, albl, ages⟩ =
        ⟨⟨[], [⟨ox, oy, oz, osc, oosc, orx, ory, orz, 1, [1], osel, oisel, true, some 0, some apal, ax, obbs, onv⟩],
         [], [(0, ⟨0, f11, none, f13, f14, f15, f16, f17, f18, f19, f1a, f1b, none⟩), (1, ⟨0, f21, f22, f23, f24, f25, f26, f27, f28, f29, f2a, f2b, f2c⟩)],
         aset ps 0 ⟨false, 0⟩, sel, false, true, chi⟩,
         [], []⟩ := by
      rw [show processHand g
          [⟨0, false, apc, apd, apal, ath, ain, albl, ages⟩, ⟨1, true, bpc, bpd, bpal, bth, bin, blbl, bges⟩]
          ⟨(mkC4Engine ⟨ox, oy, oz, osc, oosc, orx, ory, orz, 2, [0, 1], osel, oisel, false, orhi, olrp, orax, obbs, onv⟩
          ⟨0, f11, f12, f13, f14, f15, f16, f17, f18, f19, f1a, f1b, f1c⟩
          ⟨0, f21, f22, f23, f24, f25, f26, f27, f28, f29, f2a, f2b, f2c⟩ ps sel chi), [], []⟩
          ⟨0, false, apc, apd, apal, ath, ain, albl, ages⟩ =
          ⟨setGrab3 0 (clearScaling3 ⟨0, f11, f12, f13, f14, f15, f16, f17, f18, f19, f1a, f1b, f1c⟩)
            (setObj3 (setPinchState 0 (debounced (mkC4Engine ⟨ox, oy, oz, osc, oosc, orx, ory, orz, 2, [0, 1], osel, oisel, false, orhi, olrp, orax, obbs, onv⟩
          ⟨0, f11, f12, f13, f14, f15, f16, f17, f18, f19, f1a, f1b, f1c⟩
          ⟨0, f21, f22, f23, f24, f25, f26, f27, f28, f29, f2a, f2b, f2c⟩ ps sel chi) ⟨0, false, apc, apd, apal, ath, ain, albl, ages⟩) (mkC4Engine ⟨ox, oy, oz, osc, oosc, orx, ory, orz, 2, [0, 1], osel, oisel, false, orhi, olrp, orax, obbs, onv⟩
          ⟨0, f11, f12, f13, f14, f15, f16, f17, f18, f19, f1a, f1b, f1c⟩
          ⟨0, f21, f22, f23, f24, f25, f26, f27, f28, f29, f2a, f2b, f2c⟩ ps sel chi)) 0
              (removeHand3 0 (updateRotationAxis (markRotationOwner 0
          [⟨0, false, apc, apd, apal, ath, ain, albl, ages⟩, ⟨1, true, bpc, bpd, bpal, bth, bin, blbl, bges⟩] ⟨ox, oy, oz, osc, oosc, orx, ory, orz, 2, [0, 1], osel, oisel, false, orhi, olrp, orax, obbs, onv⟩)
          [⟨0, false, apc, apd, apal, ath, ain, albl, ages⟩, ⟨1, true, bpc, bpd, bpal, bth, bin, blbl, bges⟩]))), [], []⟩ from rfl, hax]
      rfl
    have hdb : (debounced (⟨[], [⟨ox, oy, oz, osc, oosc, orx, ory, orz, 1, [1], osel, oisel, true, some 0, some apal, ax, obbs, onv⟩],
         [], [(0, ⟨0, f11, none, f13, f14, f15, f16, f17, f18, f19, f1a, f1b, none⟩), (1, ⟨0, f21, f22, f23, f24, f25, f26, f27, f28, f29, f2a, f2b, f2c⟩)],
         aset ps 0 ⟨false, 0⟩, sel, false, true, chi⟩ : Engine)
        ⟨1, true, bpc, bpd, bpal, bth, bin, blbl, bges⟩).was_pinching = true := pinch_debounce_step_was _ true
    have h2 : processHand g
        [⟨0, false, apc, apd, apal, ath, ain, albl, ages⟩, ⟨1, true, bpc, bpd, bpal, bth, bin, blbl, bges⟩]
        ⟨⟨[], [⟨ox, oy, oz, osc, oosc, orx, ory, orz, 1, [1], osel, oisel, true, some 0, some apal, ax, obbs, onv⟩],
         [], [(0, ⟨0, f11, none, f13, f14, f15, f16, f17, f18, f19, f1a, f1b, none⟩), (1, ⟨0, f21, f22, f23, f24, f25, f26, f27, f28, f29, f2a, f2b, f2c⟩)],
         aset ps 0 ⟨false, 0⟩, sel, false, true, chi⟩,
         [], []⟩
        ⟨1, true, bpc, bpd, bpal, bth, bin, blbl, bges⟩ =
        ⟨continue3d g ⟨1, true, bpc, bpd, bpal, bth, bin, blbl, bges⟩ 1 ⟨0, f21, f22, f23, f24, f25, f26, f27, f28, f29, f2a, f2b, f2c⟩
          (setPinchState 1 (debounced (⟨[], [⟨ox, oy, oz, osc, oosc, orx, ory, orz, 1, [1], osel, oisel, true, some 0, some apal, ax, obbs, onv⟩],
         [], [(0, ⟨0, f11, none, f13, f14, f15, f16, f17, f18, f19, f1a, f1b, none⟩), (1, ⟨0, f21, f22, f23, f24, f25, f26, f27, f28, f29, f2a, f2b, f2c⟩)],
         aset ps 0 ⟨false, 0⟩, sel, false, true, chi⟩ : Engine) ⟨1, true, bpc, bpd, bpal, bth, bin, blbl, bges⟩) (⟨[], [⟨ox, oy, oz, osc, oosc, orx, ory, orz, 1, [1], osel, oisel, true, some 0, some apal, ax, obbs, onv⟩],
         [], [(0, ⟨0, f11, none, f13, f14, f15, f16, f17, f18, f19, f1a, f1b, none⟩), (1, ⟨0, f21, f22, f23, f24, f25, f26, f27, f28, f29, f2a, f2b, f2c⟩)],
         aset ps 0 ⟨false, 0⟩, sel, false, true, chi⟩ : Engine)),
         [], [1]⟩ := by
      simp only [processHand]
      rw [hdb]
      rfl
    have hA : afterHands g
        [⟨0, false, apc, apd, apal, ath, ain, albl, ages⟩, ⟨1, true, bpc, bpd, bpal, bth, bin, blbl, bges⟩]
        (mkC4Engine ⟨ox, oy, oz, osc, oosc, orx, ory, orz, 2, [0, 1], osel, oisel, false, orhi, olrp, orax, obbs, onv⟩
          ⟨0, f11, f12, f13, f14, f15, f16, f17, f18, f19, f1a, f1b, f1c⟩
          ⟨0, f21, f22, f23, f24, f25, f26, f27, f28, f29, f2a, f2b, f2c⟩ ps sel chi) =
        ⟨continue3d g ⟨1, true, bpc, bpd, bpal, bth, bin, blbl, bges⟩ 1 ⟨0, f21, f22, f23, f24, f25, f26, f27, f28, f29, f2a, f2b, f2c⟩
          (setPinchState 1 (debounced (⟨[], [⟨ox, oy, oz, osc, oosc, orx, ory, orz, 1, [1], osel, oisel, true, some 0, some apal, ax, obbs, onv⟩],
         [], [(0, ⟨0, f11, none, f13, f14, f15, f16, f17, f18, f19, f1a, f1b, none⟩), (1, ⟨0, f21, f22, f23, f24, f25, f26, f27, f28, f29, f2a, f2b, f2c⟩)],
         aset ps 0 ⟨false, 0⟩, sel, false, true, chi⟩ : Engine) ⟨1, true, bpc, bpd, bpal, bth, bin, blbl, bges⟩) (⟨[], [⟨ox, oy, oz, osc, oosc, orx, ory, orz, 1, [1], osel, oisel, true, some 0, some apal, ax, obbs, onv⟩],
         [], [(0, ⟨0, f11, none, f13, f14, f15, f16, f17, f18, f19, f1a, f1b, none⟩), (1, ⟨0, f21, f22, f23, f24, f25, f26, f27, f28, f29, f2a, f2b, f2c⟩)],
         aset ps 0 ⟨false, 0⟩, sel, false, true, chi⟩ : Engine)),
         [], [1]⟩ := by
      unfold afterHands
      rw [List.foldl_cons, h1, List.foldl_cons, h2, List.foldl_nil]
    by_cases hmove : (1 : ℚ) / 2 < g.dist bpc f26
    · have hEB : continue3d g ⟨1, true, bpc, bpd, bpal, bth, bin, blbl, bges⟩ 1 ⟨0, f21, f22, f23, f24, f25, f26, f27, f28, f29, f2a, f2b, f2c⟩
          (setPinchState 1 (debounced (⟨[], [⟨ox, oy, oz, osc, oosc, orx, ory, orz, 1, [1], osel, oisel, true, some 0, some apal, ax, obbs, onv⟩],
         [], [(0, ⟨0, f11, none, f13, f14, f15, f16, f17, f18, f19, f1a, f1b, none⟩), (1, ⟨0, f21, f22, f23, f24, f25, f26, f27, f28, f29, f2a, f2b, f2c⟩)],
         aset ps 0 ⟨false, 0⟩, sel, false, true, chi⟩ : Engine) ⟨1, true, bpc, bpd, bpal, bth, bin, blbl, bges⟩) (⟨[], [⟨ox, oy, oz, osc, oosc, orx, ory, orz, 1, [1], osel, oisel, true, some 0, some apal, ax, obbs, onv⟩],
         [], [(0, ⟨0, f11, none, f13, f14, f15, f16, f17, f18, f19, f1a, f1b, none⟩), (1, ⟨0, f21, f22, f23, f24, f25, f26, f27, f28, f29, f2a, f2b, f2c⟩)],
         aset ps 0 ⟨false, 0⟩, sel, false, true, chi⟩ : Engine)) =
          (trackLast3 ⟨1, true, bpc, bpd, bpal, bth, bin, blbl, bges⟩ 1 (setObj3 (setPinchState 1 (debounced (⟨[], [⟨ox, oy, oz, osc, oosc, orx, ory, orz, 1, [1], osel, oisel, true, some 0, some apal, ax, obbs, onv⟩],
         [], [(0, ⟨0, f11, none, f13, f14, f15, f16, f17, f18, f19, f1a, f1b, none⟩), (1, ⟨0, f21, f22, f23, f24, f25, f26, f27, f28, f29, f2a, f2b, f2c⟩)],
         aset ps 0 ⟨false, 0⟩, sel, false, true, chi⟩ : Engine) ⟨1, true, bpc, bpd, bpal, bth, bin, blbl, bges⟩) (⟨[], [⟨ox, oy, oz, osc, oosc, orx, ory, orz, 1, [1], osel, oisel, true, some 0, some apal, ax, obbs, onv⟩],
         [], [(0, ⟨0, f11, none, f13, f14, f15, f16, f17, f18, f19, f1a, f1b, none⟩), (1, ⟨0, f21, f22, f23, f24, f25, f26, f27, f28, f29, f2a, f2b, f2c⟩)],
         aset ps 0 ⟨false, 0⟩, sel, false, true, chi⟩ : Engine)) 0 (moveObj3 ⟨1, true, bpc, bpd, bpal, bth, bin, blbl, bges⟩ ⟨0, f21, f22, f23, f24, f25, f26, f27, f28, f29, f2a, f2b, f2c⟩ (getObj3 (setPinchState 1 (debounced (⟨[], [⟨ox, oy, oz, osc, oosc, orx, ory, orz, 1, [1], osel, oisel, true, some 0, some apal, ax, obbs, onv⟩],
         [], [(0, ⟨0, f11, none, f13, f14, f15, f16, f17, f18, f19, f1a, f1b, none⟩), (1, ⟨0, f21, f22, f23, f24, f25, f26, f27, f28, f29, f2a, f2b, f2c⟩)],
         aset ps 0 ⟨false, 0⟩, sel, false, true, chi⟩ : Engine) ⟨1, true, bpc, bpd, bpal, bth, bin, blbl, bges⟩) (⟨[], [⟨ox, oy, oz, osc, oosc, orx, ory, orz, 1, [1], osel, oisel, true, some 0, some apal, ax, obbs, onv⟩],
         [], [(0, ⟨0, f11, none, f13, f14, f15, f16, f17, f18, f19, f1a, f1b, none⟩), (1, ⟨0, f21, f22, f23, f24, f25, f26, f27, f28, f29, f2a, f2b, f2c⟩)],
         aset ps 0 ⟨false, 0⟩, sel, false, true, chi⟩ : Engine)) 0)))) := by
        unfold continue3d
        rw [if_pos hmove]
      have hstep1 : stepFrame g [⟨0, false, apc, apd, apal, ath, ain, albl, ages⟩, ⟨1, true, bpc, bpd, bpal, bth, bin, blbl, bges⟩]
          (mkC4Engine ⟨ox, oy, oz, osc, oosc, orx, ory, orz, 2, [0, 1], osel, oisel, false, orhi, olrp, orax, obbs, onv⟩
          ⟨0, f11, f12, f13, f14, f15, f16, f17, f18, f19, f1a, f1b, f1c⟩
          ⟨0, f21, f22, f23, f24, f25, f26, f27, f28, f29, f2a, f2b, f2c⟩ ps sel chi) =
          { resetPhase [⟨0, false, apc, apd, apal, ath, ain, albl, ages⟩, ⟨1, true, bpc, bpd, bpal, bth, bin, blbl, bges⟩]
              (rotCleanupLostHand [⟨0, false, apc, apd, apal, ath, ain, albl, ages⟩, ⟨1, true, bpc, bpd, bpal, bth, bin, blbl, bges⟩]
                (rotCleanupUngrabbed (selectionPhase g
                  [⟨0, false, apc, apd, apal, ath, ain, albl, ages⟩, ⟨1, true, bpc, bpd, bpal, bth, bin, blbl, bges⟩]
                  (cleanup3d [1] (cleanup2d []
                    (trackLast3 ⟨1, true, bpc, bpd, bpal, bth, bin, blbl, bges⟩ 1 (setObj3 (setPinchState 1 (debounced (⟨[], [⟨ox, oy, oz, osc, oosc, orx, ory, orz, 1, [1], osel, oisel, true, some 0, some apal, ax, obbs, onv⟩],
         [], [(0, ⟨0, f11, none, f13, f14, f15, f16, f17, f18, f19, f1a, f1b, none⟩), (1, ⟨0, f21, f22, f23, f24, f25, f26, f27, f28, f29, f2a, f2b, f2c⟩)],
         aset ps 0 ⟨false, 0⟩, sel, false, true, chi⟩ : Engine) ⟨1, true, bpc, bpd, bpal, bth, bin, blbl, bges⟩) (⟨[], [⟨ox, oy, oz, osc, oosc, orx, ory, orz, 1, [1], osel, oisel, true, some 0, some apal, ax, obbs, onv⟩],
         [], [(0, ⟨0, f11, none, f13, f14, f15, f16, f17, f18, f19, f1a, f1b, none⟩), (1, ⟨0, f21, f22, f23, f24, f25, f26, f27, f28, f29, f2a, f2b, f2c⟩)],
         aset ps 0 ⟨false, 0⟩, sel, false, true, chi⟩ : Engine)) 0 (moveObj3 ⟨1, true, bpc, bpd, bpal, bth, bin, blbl, bges⟩ ⟨0, f21, f22, f23, f24, f25, f26, f27, f28, f29, f2a, f2b, f2c⟩ (getObj3 (setPinchState 1 (debounced (⟨[], [⟨ox, oy, oz, osc, oosc, orx, ory, orz, 1, [1], osel, oisel, true, some 0, some apal, ax, obbs, onv⟩],
         [], [(0, ⟨0, f11, none, f13, f14, f15, f16, f17, f18, f19, f1a, f1b, none⟩), (1, ⟨0, f21, f22, f23, f24, f25, f26, f27, f28, f29, f2a, f2b, f2c⟩)],
         aset ps 0 ⟨false, 0⟩, sel, false, true, chi⟩ : Engine) ⟨1, true, bpc, bpd, bpal, bth, bin, blbl, bges⟩) (⟨[], [⟨ox, oy, oz, osc, oosc, orx, ory, orz, 1, [1], osel, oisel, true, some 0, some apal, ax, obbs, onv⟩],
         [], [(0, ⟨0, f11, none, f13, f14, f15, f16, f17, f18, f19, f1a, f1b, none⟩), (1, ⟨0, f21, f22, f23, f24, f25, f26, f27, f28, f29, f2a, f2b, f2c⟩)],
         aset ps 0 ⟨false, 0⟩, sel, false, true, chi⟩ : Engine)) 0))))))))) with
            current_hands_info := [⟨0, false, apc, apd, apal, ath, ain, albl, ages⟩, ⟨1, true, bpc, bpd, bpal, bth, bin, blbl, bges⟩] } := by
        unfold stepFrame processInteractions
        rw [hA, hEB]
      have hT : selectionPhase g
          [⟨0, false, apc, apd, apal, ath, ain, albl, ages⟩, ⟨1, true, bpc, bpd, bpal, bth, bin, blbl, bges⟩]
          (cleanup3d [1] (cleanup2d []
            (trackLast3 ⟨1, true, bpc, bpd, bpal, bth, bin, blbl, bges⟩ 1 (setObj3 (setPinchState 1 (debounced (⟨[], [⟨ox, oy, oz, osc, oosc, orx, ory, orz, 1, [1], osel, oisel, true, some 0, some apal, ax, obbs, onv⟩],
         [], [(0, ⟨0, f11, none, f13, f14, f15, f16, f17, f18, f19, f1a, f1b, none⟩), (1, ⟨0, f21, f22, f23, f24, f25, f26, f27, f28, f29, f2a, f2b, f2c⟩)],
         aset ps 0 ⟨false, 0⟩, sel, false, true, chi⟩ : Engine) ⟨1, true, bpc, bpd, bpal, bth, bin, blbl, bges⟩) (⟨[], [⟨ox, oy, oz, osc, oosc, orx, ory, orz, 1, [1], osel, oisel, true, some 0, some apal, ax, obbs, onv⟩],
         [], [(0, ⟨0, f11, none, f13, f14, f15, f16, f17, f18, f19, f1a, f1b, none⟩), (1, ⟨0, f21, f22, f23, f24, f25, f26, f27, f28, f29, f2a, f2b, f2c⟩)],
         aset ps 0 ⟨false, 0⟩, sel, false, true, chi⟩ : Engine)) 0 (moveObj3 ⟨1, true, bpc, bpd, bpal, bth, bin, blbl, bges⟩ ⟨0, f21, f22, f23, f24, f25, f26, f27, f28, f29, f2a, f2b, f2c⟩ (getObj3 (setPinchState 1 (debounced (⟨[], [⟨ox, oy, oz, osc, oosc, orx, ory, orz, 1, [1], osel, oisel, true, some 0, some apal, ax, obbs, onv⟩],
         [], [(0, ⟨0, f11, none, f13, f14, f15, f16, f17, f18, f19, f1a, f1b, none⟩), (1, ⟨0, f21, f22, f23, f24, f25, f26, f27, f28, f29, f2a, f2b, f2c⟩)],
         aset ps 0 ⟨false, 0⟩, sel, false, true, chi⟩ : Engine) ⟨1, true, bpc, bpd, bpal, bth, bin, blbl, bges⟩) (⟨[], [⟨ox, oy, oz, osc, oosc, orx, ory, orz, 1, [1], osel, oisel, true, some 0, some apal, ax, obbs, onv⟩],
         [], [(0, ⟨0, f11, none, f13, f14, f15, f16, f17, f18, f19, f1a, f1b, none⟩), (1, ⟨0, f21, f22, f23, f24, f25, f26, f27, f28, f29, f2a, f2b, f2c⟩)],
         aset ps 0 ⟨false, 0⟩, sel, false, true, chi⟩ : Engine)) 0)))))) =
          setObj3 (⟨[], [⟨ox + (bpc.1 - f26.1) * f29, oy + -(bpc.2 - f26.2) * f29, oz, osc, oosc, orx, ory, orz, 1, [1], osel, false, true, some 0, some apal, ax, obbs, onv⟩],
          [], [(1, ⟨0, f21, none, f23, f24, f25, bpc, bth, bin, f29, f2a, f2b, none⟩)],
          (aset (aset ps 0 ⟨false, 0⟩) 1
            (pinch_debounce_step ((alookup (aset ps 0 ⟨false, 0⟩) 1).getD ⟨false, 0⟩) true)).filter
          (fun p => decide (p.1 ∈ ([] : List Nat)) || decide (p.1 ∉ ([] : List Nat))),
          [], false, true, chi⟩ : Engine) 0
            (rotationBody g ⟨0, false, apc, apd, apal, ath, ain, albl, ages⟩
          (updateRotationAxis (getObj3 (⟨[], [⟨ox + (bpc.1 - f26.1) * f29, oy + -(bpc.2 - f26.2) * f29, oz, osc, oosc, orx, ory, orz, 1, [1], osel, false, true, some 0, some apal, ax, obbs, onv⟩],
          [], [(1, ⟨0, f21, none, f23, f24, f25, bpc, bth, bin, f29, f2a, f2b, none⟩)],
          (aset (aset ps 0 ⟨false, 0⟩) 1
            (pinch_debounce_step ((alookup (aset ps 0 ⟨false, 0⟩) 1).getD ⟨false, 0⟩) true)).filter
          (fun p => decide (p.1 ∈ ([] : List Nat)) || decide (p.1 ∉ ([] : List Nat))),
          [], false, true, chi⟩ : Engine) 0)
            [⟨0, false, apc, apd, apal, ath, ain, albl, ages⟩, ⟨1, true, bpc, bpd, bpal, bth, bin, blbl, bges⟩])) := rfl
      obtain ⟨ax2, hax2⟩ := updateRotationAxis_shape (getObj3 (⟨[], [⟨ox + (bpc.1 - f26.1) * f29, oy + -(bpc.2 - f26.2) * f29, oz, osc, oosc, orx, ory, orz, 1, [1], osel, false, true, some 0, some apal, ax, obbs, onv⟩],
          [], [(1, ⟨0, f21, none, f23, f24, f25, bpc, bth, bin, f29, f2a, f2b, none⟩)],
          (aset (aset ps 0 ⟨false, 0⟩) 1
            (pinch_debounce_step ((alookup (aset ps 0 ⟨false, 0⟩) 1).getD ⟨false, 0⟩) true)).filter
          (fun p => decide (p.1 ∈ ([] : List Nat)) || decide (p.1 ∉ ([] : List Nat))),
          [], false, true, chi⟩ : Engine) 0)
        [⟨0, false, apc, apd, apal, ath, ain, albl, ages⟩, ⟨1, true, bpc, bpd, bpal, bth, bin, blbl, bges⟩]
      have hOBm : ((rotationBody g ⟨0, false, apc, apd, apal, ath, ain, albl, ages⟩
          (updateRotationAxis (getObj3 (⟨[], [⟨ox + (bpc.1 - f26.1) * f29, oy + -(bpc.2 - f26.2) * f29, oz, osc, oosc, orx, ory, orz, 1, [1], osel, false, true, some 0, some apal, ax, obbs, onv⟩],
          [], [(1, ⟨0, f21, none, f23, f24, f25, bpc, bth, bin, f29, f2a, f2b, none⟩)],
          (aset (aset ps 0 ⟨false, 0⟩) 1
            (pinch_debounce_step ((alookup (aset ps 0 ⟨false, 0⟩) 1).getD ⟨false, 0⟩) true)).filter
          (fun p => decide (p.1 ∈ ([] : List Nat)) || decide (p.1 ∉ ([] : List Nat))),
          [], false, true, chi⟩ : Engine) 0)
            [⟨0, false, apc, apd, apal, ath, ain, albl, ages⟩, ⟨1, true, bpc, bpd, bpal, bth, bin, blbl, bges⟩]))).is_in_rotation_mode = true := by
        rw [(rotationBody_fields g ⟨0, false, apc, apd, apal, ath, ain, albl, ages⟩
            (updateRotationAxis (getObj3 (⟨[], [⟨ox + (bpc.1 - f26.1) * f29, oy + -(bpc.2 - f26.2) * f29, oz, osc, oosc, orx, ory, orz, 1, [1], osel, false, true, some 0, some apal, ax, obbs, onv⟩],
          [], [(1, ⟨0, f21, none, f23, f24, f25, bpc, bth, bin, f29, f2a, f2b, none⟩)],
          (aset (aset ps 0 ⟨false, 0⟩) 1
            (pinch_debounce_step ((alookup (aset ps 0 ⟨false, 0⟩) 1).getD ⟨false, 0⟩) true)).filter
          (fun p => decide (p.1 ∈ ([] : List Nat)) || decide (p.1 ∉ ([] : List Nat))),
          [], false, true, chi⟩ : Engine) 0)
              [⟨0, false, apc, apd, apal, ath, ain, albl, ages⟩, ⟨1, true, bpc, bpd, bpal, bth, bin, blbl, bges⟩])).1, hax2]
        rfl
      have hOBr : ((rotationBody g ⟨0, false, apc, apd, apal, ath, ain, albl, ages⟩
          (updateRotationAxis (getObj3 (⟨[], [⟨ox + (bpc.1 - f26.1) * f29, oy + -(bpc.2 - f26.2) * f29, oz, osc, oosc, orx, ory, orz, 1, [1], osel, false, true, some 0, some apal, ax, obbs, onv⟩],
          [], [(1, ⟨0, f21, none, f23, f24, f25, bpc, bth, bin, f29, f2a, f2b, none⟩)],
          (aset (aset ps 0 ⟨false, 0⟩) 1
            (pinch_debounce_step ((alookup (aset ps 0 ⟨false, 0⟩) 1).getD ⟨false, 0⟩) true)).filter
          (fun p => decide (p.1 ∈ ([] : List Nat)) || decide (p.1 ∉ ([] : List Nat))),
          [], false, true, chi⟩ : Engine) 0)
            [⟨0, false, apc, apd, apal, ath, ain, albl, ages⟩, ⟨1, true, bpc, bpd, bpal, bth, bin, blbl, bges⟩]))).rotation_hand_idx = some 0 := by
        rw [(rotationBody_fields g ⟨0, false, apc, apd, apal, ath, ain, albl, ages⟩
            (updateRotationAxis (getObj3 (⟨[], [⟨ox + (bpc.1 - f26.1) * f29, oy + -(bpc.2 - f26.2) * f29, oz, osc, oosc, orx, ory, orz, 1, [1], osel, false, true, some 0, some apal, ax, obbs, onv⟩],
          [], [(1, ⟨0, f21, none, f23, f24, f25, bpc, bth, bin, f29, f2a, f2b, none⟩)],
          (aset (aset ps 0 ⟨false, 0⟩) 1
            (pinch_debounce_step ((alookup (aset ps 0 ⟨false, 0⟩) 1).getD ⟨false, 0⟩) true)).filter
          (fun p => decide (p.1 ∈ ([] : List Nat)) || decide (p.1 ∉ ([] : List Nat))),
          [], false, true, chi⟩ : Engine) 0)
              [⟨0, false, apc, apd, apal, ath, ain, albl, ages⟩, ⟨1, true, bpc, bpd, bpal, bth, bin, blbl, bges⟩])).2.1, hax2]
        rfl
      have hOBg : ((rotationBody g ⟨0, false, apc, apd, apal, ath, ain, albl, ages⟩
          (updateRotationAxis (getObj3 (⟨[], [⟨ox + (bpc.1 - f26.1) * f29, oy + -(bpc.2 - f26.2) * f29, oz, osc, oosc, orx, ory, orz, 1, [1], osel, false, true, some 0, some apal, ax, obbs, onv⟩],
          [], [(1, ⟨0, f21, none, f23, f24, f25, bpc, bth, bin, f29, f2a, f2b, none⟩)],
          (aset (aset ps 0 ⟨false, 0⟩) 1
            (pinch_debounce_step ((alookup (aset ps 0 ⟨false, 0⟩) 1).getD ⟨false, 0⟩) true)).filter
          (fun p => decide (p.1 ∈ ([] : List Nat)) || decide (p.1 ∉ ([] : List Nat))),
          [], false, true, chi⟩ : Engine) 0)
            [⟨0, false, apc, apd, apal, ath, ain, albl, ages⟩, ⟨1, true, bpc, bpd, bpal, bth, bin, blbl, bges⟩]))).is_grabbed = 1 := by
        rw [(rotationBody_fields g ⟨0, false, apc, apd, apal, ath, ain, albl, ages⟩
            (updateRotationAxis (getObj3 (⟨[], [⟨ox + (bpc.1 - f26.1) * f29, oy + -(bpc.2 - f26.2) * f29, oz, osc, oosc, orx, ory, orz, 1, [1], osel, false, true, some 0, some apal, ax, obbs, onv⟩],
          [], [(1, ⟨0, f21, none, f23, f24, f25, bpc, bth, bin, f29, f2a, f2b, none⟩)],
          (aset (aset ps 0 ⟨false, 0⟩) 1
            (pinch_debounce_step ((alookup (aset ps 0 ⟨false, 0⟩) 1).getD ⟨false, 0⟩) true)).filter
          (fun p => decide (p.1 ∈ ([] : List Nat)) || decide (p.1 ∉ ([] : List Nat))),
          [], false, true, chi⟩ : Engine) 0)
              [⟨0, false, apc, apd, apal, ath, ain, albl, ages⟩, ⟨1, true, bpc, bpd, bpal, bth, bin, blbl, bges⟩])).2.2.1, hax2]
        rfl
      have hcond : ((getObj3 (setObj3 (⟨[], [⟨ox + (bpc.1 - f26.1) * f29, oy + -(bpc.2 - f26.2) * f29, oz, osc, oosc, orx, ory, orz, 1, [1], osel, false, true, some 0, some apal, ax, obbs, onv⟩],
          [], [(1, ⟨0, f21, none, f23, f24, f25, bpc, bth, bin, f29, f2a, f2b, none⟩)],
          (aset (aset ps 0 ⟨false, 0⟩) 1
            (pinch_debounce_step ((alookup (aset ps 0 ⟨false, 0⟩) 1).getD ⟨false, 0⟩) true)).filter
          (fun p => decide (p.1 ∈ ([] : List Nat)) || decide (p.1 ∉ ([] : List Nat))),
          [], false, true, chi⟩ : Engine) 0
          (rotationBody g ⟨0, false, apc, apd, apal, ath, ain, albl, ages⟩
          (updateRotationAxis (getObj3 (⟨[], [⟨ox + (bpc.1 - f26.1) * f29, oy + -(bpc.2 - f26.2) * f29, oz, osc, oosc, orx, ory, orz, 1, [1], osel, false, true, some 0, some apal, ax, obbs, onv⟩],
          [], [(1, ⟨0, f21, none, f23, f24, f25, bpc, bth, bin, f29, f2a, f2b, none⟩)],
          (aset (aset ps 0 ⟨false, 0⟩) 1
            (pinch_debounce_step ((alookup (aset ps 0 ⟨false, 0⟩) 1).getD ⟨false, 0⟩) true)).filter
          (fun p => decide (p.1 ∈ ([] : List Nat)) || decide (p.1 ∉ ([] : List Nat))),
          [], false, true, chi⟩ : Engine) 0)
            [⟨0, false, apc, apd, apal, ath, ain, albl, ages⟩, ⟨1, true, bpc, bpd, bpal, bth, bin, blbl, bges⟩]))) 0).is_in_rotation_mode &&
          decide ((getObj3 (setObj3 (⟨[], [⟨ox + (bpc.1 - f26.1) * f29, oy + -(bpc.2 - f26.2) * f29, oz, osc, oosc, orx, ory, orz, 1, [1], osel, false, true, some 0, some apal, ax, obbs, onv⟩],
          [], [(1, ⟨0, f21, none, f23, f24, f25, bpc, bth, bin, f29, f2a, f2b, none⟩)],
          (aset (aset ps 0 ⟨false, 0⟩) 1
            (pinch_debounce_step ((alookup (aset ps 0 ⟨false, 0⟩) 1).getD ⟨false, 0⟩) true)).filter
          (fun p => decide (p.1 ∈ ([] : List Nat)) || decide (p.1 ∉ ([] : List Nat))),
          [], false, true, chi⟩ : Engine) 0
          (rotationBody g ⟨0, false, apc, apd, apal, ath, ain, albl, ages⟩
          (updateRotationAxis (getObj3 (⟨[], [⟨ox + (bpc.1 - f26.1) * f29, oy + -(bpc.2 - f26.2) * f29, oz, osc, oosc, orx, ory, orz, 1, [1], osel, false, true, some 0, some apal, ax, obbs, onv⟩],
          [], [(1, ⟨0, f21, none, f23, f24, f25, bpc, bth, bin, f29, f2a, f2b, none⟩)],
          (aset (aset ps 0 ⟨false, 0⟩) 1
            (pinch_debounce_step ((alookup (aset ps 0 ⟨false, 0⟩) 1).getD ⟨false, 0⟩) true)).filter
          (fun p => decide (p.1 ∈ ([] : List Nat)) || decide (p.1 ∉ ([] : List Nat))),
          [], false, true, chi⟩ : Engine) 0)
            [⟨0, false, apc, apd, apal, ath, ain, albl, ages⟩, ⟨1, true, bpc, bpd, bpal, bth, bin, blbl, bges⟩]))) 0).is_grabbed = 0)) = false := by
        show (((rotationBody g ⟨0, false, apc, apd, apal, ath, ain, albl, ages⟩
          (updateRotationAxis (getObj3 (⟨[], [⟨ox + (bpc.1 - f26.1) * f29, oy + -(bpc.2 - f26.2) * f29, oz, osc, oosc, orx, ory, orz, 1, [1], osel, false, true, some 0, some apal, ax, obbs, onv⟩],
          [], [(1, ⟨0, f21, none, f23, f24, f25, bpc, bth, bin, f29, f2a, f2b, none⟩)],
          (aset (aset ps 0 ⟨false, 0⟩) 1
            (pinch_debounce_step ((alookup (aset ps 0 ⟨false, 0⟩) 1).getD ⟨false, 0⟩) true)).filter
          (fun p => decide (p.1 ∈ ([] : List Nat)) || decide (p.1 ∉ ([] : List Nat))),
          [], false, true, chi⟩ : Engine) 0)
            [⟨0, false, apc, apd, apal, ath, ain, albl, ages⟩, ⟨1, true, bpc, bpd, bpal, bth, bin, blbl, bges⟩]))).is_in_rotation_mode &&
          decide (((rotationBody g ⟨0, false, apc, apd, apal, ath, ain, albl, ages⟩
          (updateRotationAxis (getObj3 (⟨[], [⟨ox + (bpc.1 - f26.1) * f29, oy + -(bpc.2 - f26.2) * f29, oz, osc, oosc, orx, ory, orz, 1, [1], osel, false, true, some 0, some apal, ax, obbs, onv⟩],
          [], [(1, ⟨0, f21, none, f23, f24, f25, bpc, bth, bin, f29, f2a, f2b, none⟩)],
          (aset (aset ps 0 ⟨false, 0⟩) 1
            (pinch_debounce_step ((alookup (aset ps 0 ⟨false, 0⟩) 1).getD ⟨false, 0⟩) true)).filter
          (fun p => decide (p.1 ∈ ([] : List Nat)) || decide (p.1 ∉ ([] : List Nat))),
          [], false, true, chi⟩ : Engine) 0)
            [⟨0, false, apc, apd, apal, ath, ain, albl, ages⟩, ⟨1, true, bpc, bpd, bpal, bth, bin, blbl, bges⟩]))).is_grabbed = 0)) = false
        rw [hOBm, hOBg]
        rfl
      have hU : rotCleanupUngrabbed (setObj3 (⟨[], [⟨ox + (bpc.1 - f26.1) * f29, oy + -(bpc.2 - f26.2) * f29, oz, osc, oosc, orx, ory, orz, 1, [1], osel, false, true, some 0, some apal, ax, obbs, onv⟩],
          [], [(1, ⟨0, f21, none, f23, f24, f25, bpc, bth, bin, f29, f2a, f2b, none⟩)],
          (aset (aset ps 0 ⟨false, 0⟩) 1
            (pinch_debounce_step ((alookup (aset ps 0 ⟨false, 0⟩) 1).getD ⟨false, 0⟩) true)).filter
          (fun p => decide (p.1 ∈ ([] : List Nat)) || decide (p.1 ∉ ([] : List Nat))),
          [], false, true, chi⟩ : Engine) 0
          (rotationBody g ⟨0, false, apc, apd, apal, ath, ain, albl, ages⟩
          (updateRotationAxis (getObj3 (⟨[], [⟨ox + (bpc.1 - f26.1) * f29, oy + -(bpc.2 - f26.2) * f29, oz, osc, oosc, orx, ory, orz, 1, [1], osel, false, true, some 0, some apal, ax, obbs, onv⟩],
          [], [(1, ⟨0, f21, none, f23, f24, f25, bpc, bth, bin, f29, f2a, f2b, none⟩)],
          (aset (aset ps 0 ⟨false, 0⟩) 1
            (pinch_debounce_step ((alookup (aset ps 0 ⟨false, 0⟩) 1).getD ⟨false, 0⟩) true)).filter
          (fun p => decide (p.1 ∈ ([] : List Nat)) || decide (p.1 ∉ ([] : List Nat))),
          [], false, true, chi⟩ : Engine) 0)
            [⟨0, false, apc, apd, apal, ath, ain, albl, ages⟩, ⟨1, true, bpc, bpd, bpal, bth, bin, blbl, bges⟩]))) = (setObj3 (⟨[], [⟨ox + (bpc.1 - f26.1) * f29, oy + -(bpc.2 - f26.2) * f29, oz, osc, oosc, orx, ory, orz, 1, [1], osel, false, true, some 0, some apal, ax, obbs, onv⟩],
          [], [(1, ⟨0, f21, none, f23, f24, f25, bpc, bth, bin, f29, f2a, f2b, none⟩)],
          (aset (aset ps 0 ⟨false, 0⟩) 1
            (pinch_debounce_step ((alookup (aset ps 0 ⟨false, 0⟩) 1).getD ⟨false, 0⟩) true)).filter
          (fun p => decide (p.1 ∈ ([] : List Nat)) || decide (p.1 ∉ ([] : List Nat))),
          [], false, true, chi⟩ : Engine) 0
          (rotationBody g ⟨0, false, apc, apd, apal, ath, ain, albl, ages⟩
          (updateRotationAxis (getObj3 (⟨[], [⟨ox + (bpc.1 - f26.1) * f29, oy + -(bpc.2 - f26.2) * f29, oz, osc, oosc, orx, ory, orz, 1, [1], osel, false, true, some 0, some apal, ax, obbs, onv⟩],
          [], [(1, ⟨0, f21, none, f23, f24, f25, bpc, bth, bin, f29, f2a, f2b, none⟩)],
          (aset (aset ps 0 ⟨false, 0⟩) 1
            (pinch_debounce_step ((alookup (aset ps 0 ⟨false, 0⟩) 1).getD ⟨false, 0⟩) true)).filter
          (fun p => decide (p.1 ∈ ([] : List Nat)) || decide (p.1 ∉ ([] : List Nat))),
          [], false, true, chi⟩ : Engine) 0)
            [⟨0, false, apc, apd, apal, ath, ain, albl, ages⟩, ⟨1, true, bpc, bpd, bpal, bth, bin, blbl, bges⟩]))) := by
        show rotUngrabbedStep (setObj3 (⟨[], [⟨ox + (bpc.1 - f26.1) * f29, oy + -(bpc.2 - f26.2) * f29, oz, osc, oosc, orx, ory, orz, 1, [1], osel, false, true, some 0, some apal, ax, obbs, onv⟩],
          [], [(1, ⟨0, f21, none, f23, f24, f25, bpc, bth, bin, f29, f2a, f2b, none⟩)],
          (aset (aset ps 0 ⟨false, 0⟩) 1
            (pinch_debounce_step ((alookup (aset ps 0 ⟨false, 0⟩) 1).getD ⟨false, 0⟩) true)).filter
          (fun p => decide (p.1 ∈ ([] : List Nat)) || decide (p.1 ∉ ([] : List Nat))),
          [], false, true, chi⟩ : Engine) 0
          (rotationBody g ⟨0, false, apc, apd, apal, ath, ain, albl, ages⟩
          (updateRotationAxis (getObj3 (⟨[], [⟨ox + (bpc.1 - f26.1) * f29, oy + -(bpc.2 - f26.2) * f29, oz, osc, oosc, orx, ory, orz, 1, [1], osel, false, true, some 0, some apal, ax, obbs, onv⟩],
          [], [(1, ⟨0, f21, none, f23, f24, f25, bpc, bth, bin, f29, f2a, f2b, none⟩)],
          (aset (aset ps 0 ⟨false, 0⟩) 1
            (pinch_debounce_step ((alookup (aset ps 0 ⟨false, 0⟩) 1).getD ⟨false, 0⟩) true)).filter
          (fun p => decide (p.1 ∈ ([] : List Nat)) || decide (p.1 ∉ ([] : List Nat))),
          [], false, true, chi⟩ : Engine) 0)
            [⟨0, false, apc, apd, apal, ath, ain, albl, ages⟩, ⟨1, true, bpc, bpd, bpal, bth, bin, blbl, bges⟩]))) 0 = (setObj3 (⟨[], [⟨ox + (bpc.1 - f26.1) * f29, oy + -(bpc.2 - f26.2) * f29, oz, osc, oosc, orx, ory, orz, 1, [1], osel, false, true, some 0, some apal, ax, obbs, onv⟩],
          [], [(1, ⟨0, f21, none, f23, f24, f25, bpc, bth, bin, f29, f2a, f2b, none⟩)],
          (aset (aset ps 0 ⟨false, 0⟩) 1
            (pinch_debounce_step ((alookup (aset ps 0 ⟨false, 0⟩) 1).getD ⟨false, 0⟩) true)).filter
          (fun p => decide (p.1 ∈ ([] : List Nat)) || decide (p.1 ∉ ([] : List Nat))),
          [], false, true, chi⟩ : Engine) 0
          (rotationBody g ⟨0, false, apc, apd, apal, ath, ain, albl, ages⟩
          (updateRotationAxis (getObj3 (⟨[], [⟨ox + (bpc.1 - f26.1) * f29, oy + -(bpc.2 - f26.2) * f29, oz, osc, oosc, orx, ory, orz, 1, [1], osel, false, true, some 0, some apal, ax, obbs, onv⟩],
          [], [(1, ⟨0, f21, none, f23, f24, f25, bpc, bth, bin, f29, f2a, f2b, none⟩)],
          (aset (aset ps 0 ⟨false, 0⟩) 1
            (pinch_debounce_step ((alookup (aset ps 0 ⟨false, 0⟩) 1).getD ⟨false, 0⟩) true)).filter
          (fun p => decide (p.1 ∈ ([] : List Nat)) || decide (p.1 ∉ ([] : List Nat))),
          [], false, true, chi⟩ : Engine) 0)
            [⟨0, false, apc, apd, apal, ath, ain, albl, ages⟩, ⟨1, true, bpc, bpd, bpal, bth, bin, blbl, bges⟩])))
        unfold rotUngrabbedStep
        rw [hcond]
        rfl
      have hidx : (getObj3 (setObj3 (⟨[], [⟨ox + (bpc.1 - f26.1) * f29, oy + -(bpc.2 - f26.2) * f29, oz, osc, oosc, orx, ory, orz, 1, [1], osel, false, true, some 0, some apal, ax, obbs, onv⟩],
          [], [(1, ⟨0, f21, none, f23, f24, f25, bpc, bth, bin, f29, f2a, f2b, none⟩)],
          (aset (aset ps 0 ⟨false, 0⟩) 1
            (pinch_debounce_step ((alookup (aset ps 0 ⟨false, 0⟩) 1).getD ⟨false, 0⟩) true)).filter
          (fun p => decide (p.1 ∈ ([] : List Nat)) || decide (p.1 ∉ ([] : List Nat))),
          [], false, true, chi⟩ : Engine) 0
          (rotationBody g ⟨0, false, apc, apd, apal, ath, ain, albl, ages⟩
          (updateRotationAxis (getObj3 (⟨[], [⟨ox + (bpc.1 - f26.1) * f29, oy + -(bpc.2 - f26.2) * f29, oz, osc, oosc, orx, ory, orz, 1, [1], osel, false, true, some 0, some apal, ax, obbs, onv⟩],
          [], [(1, ⟨0, f21, none, f23, f24, f25, bpc, bth, bin, f29, f2a, f2b, none⟩)],
          (aset (aset ps 0 ⟨false, 0⟩) 1
            (pinch_debounce_step ((alookup (aset ps 0 ⟨false, 0⟩) 1).getD ⟨false, 0⟩) true)).filter
          (fun p => decide (p.1 ∈ ([] : List Nat)) || decide (p.1 ∉ ([] : List Nat))),
          [], false, true, chi⟩ : Engine) 0)
            [⟨0, false, apc, apd, apal, ath, ain, albl, ages⟩, ⟨1, true, bpc, bpd, bpal, bth, bin, blbl, bges⟩]))) 0).rotation_hand_idx = some 0 := hOBr
      have hL1 : rotLostStep [⟨0, false, apc, apd, apal, ath, ain, albl, ages⟩, ⟨1, true, bpc, bpd, bpal, bth, bin, blbl, bges⟩] (setObj3 (⟨[], [⟨ox + (bpc.1 - f26.1) * f29, oy + -(bpc.2 - f26.2) * f29, oz, osc, oosc, orx, ory, orz, 1, [1], osel, false, true, some 0, some apal, ax, obbs, onv⟩],
          [], [(1, ⟨0, f21, none, f23, f24, f25, bpc, bth, bin, f29, f2a, f2b, none⟩)],
          (aset (aset ps 0 ⟨false, 0⟩) 1
            (pinch_debounce_step ((alookup (aset ps 0 ⟨false, 0⟩) 1).getD ⟨false, 0⟩) true)).filter
          (fun p => decide (p.1 ∈ ([] : List Nat)) || decide (p.1 ∉ ([] : List Nat))),
          [], false, true, chi⟩ : Engine) 0
          (rotationBody g ⟨0, false, apc, apd, apal, ath, ain, albl, ages⟩
          (updateRotationAxis (getObj3 (⟨[], [⟨ox + (bpc.1 - f26.1) * f29, oy + -(bpc.2 - f26.2) * f29, oz, osc, oosc, orx, ory, orz, 1, [1], osel, false, true, some 0, some apal, ax, obbs, onv⟩],
          [], [(1, ⟨0, f21, none, f23, f24, f25, bpc, bth, bin, f29, f2a, f2b, none⟩)],
          (aset (aset ps 0 ⟨false, 0⟩) 1
            (pinch_debounce_step ((alookup (aset ps 0 ⟨false, 0⟩) 1).getD ⟨false, 0⟩) true)).filter
          (fun p => decide (p.1 ∈ ([] : List Nat)) || decide (p.1 ∉ ([] : List Nat))),
          [], false, true, chi⟩ : Engine) 0)
            [⟨0, false, apc, apd, apal, ath, ain, albl, ages⟩, ⟨1, true, bpc, bpd, bpal, bth, bin, blbl, bges⟩]))) 0 =
          (if ((getObj3 (setObj3 (⟨[], [⟨ox + (bpc.1 - f26.1) * f29, oy + -(bpc.2 - f26.2) * f29, oz, osc, oosc, orx, ory, orz, 1, [1], osel, false, true, some 0, some apal, ax, obbs, onv⟩],
          [], [(1, ⟨0, f21, none, f23, f24, f25, bpc, bth, bin, f29, f2a, f2b, none⟩)],
          (aset (aset ps 0 ⟨false, 0⟩) 1
            (pinch_debounce_step ((alookup (aset ps 0 ⟨false, 0⟩) 1).getD ⟨false, 0⟩) true)).filter
          (fun p => decide (p.1 ∈ ([] : List Nat)) || decide (p.1 ∉ ([] : List Nat))),
          [], false, true, chi⟩ : Engine) 0
          (rotationBody g ⟨0, false, apc, apd, apal, ath, ain, albl, ages⟩
          (updateRotationAxis (getObj3 (⟨[], [⟨ox + (bpc.1 - f26.1) * f29, oy + -(bpc.2 - f26.2) * f29, oz, osc, oosc, orx, ory, orz, 1, [1], osel, false, true, some 0, some apal, ax, obbs, onv⟩],
          [], [(1, ⟨0, f21, none, f23, f24, f25, bpc, bth, bin, f29, f2a, f2b, none⟩)],
          (aset (aset ps 0 ⟨false, 0⟩) 1
            (pinch_debounce_step ((alookup (aset ps 0 ⟨false, 0⟩) 1).getD ⟨false, 0⟩) true)).filter
          (fun p => decide (p.1 ∈ ([] : List Nat)) || decide (p.1 ∉ ([] : List Nat))),
          [], false, true, chi⟩ : Engine) 0)
            [⟨0, false, apc, apd, apal, ath, ain, albl, ages⟩, ⟨1, true, bpc, bpd, bpal, bth, bin, blbl, bges⟩]))) 0).is_in_rotation_mode &&
              !(List.any ([⟨0, false, apc, apd, apal, ath, ain, albl, ages⟩, ⟨1, true, bpc, bpd, bpal, bth, bin, blbl, bges⟩] : List HandInfo) fun x => x.hand_idx == 0)) = true then
            exitRotationMode (setObj3 (⟨[], [⟨ox + (bpc.1 - f26.1) * f29, oy + -(bpc.2 - f26.2) * f29, oz, osc, oosc, orx, ory, orz, 1, [1], osel, false, true, some 0, some apal, ax, obbs, onv⟩],
          [], [(1, ⟨0, f21, none, f23, f24, f25, bpc, bth, bin, f29, f2a, f2b, none⟩)],
          (aset (aset ps 0 ⟨false, 0⟩) 1
            (pinch_debounce_step ((alookup (aset ps 0 ⟨false, 0⟩) 1).getD ⟨false, 0⟩) true)).filter
          (fun p => decide (p.1 ∈ ([] : List Nat)) || decide (p.1 ∉ ([] : List Nat))),
          [], false, true, chi⟩ : Engine) 0
          (rotationBody g ⟨0, false, apc, apd, apal, ath, ain, albl, ages⟩
          (updateRotationAxis (getObj3 (⟨[], [⟨ox + (bpc.1 - f26.1) * f29, oy + -(bpc.2 - f26.2) * f29, oz, osc, oosc, orx, ory, orz, 1, [1], osel, false, true, some 0, some apal, ax, obbs, onv⟩],
          [], [(1, ⟨0, f21, none, f23, f24, f25, bpc, bth, bin, f29, f2a, f2b, none⟩)],
          (aset (aset ps 0 ⟨false, 0⟩) 1
            (pinch_debounce_step ((alookup (aset ps 0 ⟨false, 0⟩) 1).getD ⟨false, 0⟩) true)).filter
          (fun p => decide (p.1 ∈ ([] : List Nat)) || decide (p.1 ∉ ([] : List Nat))),
          [], false, true, chi⟩ : Engine) 0)
            [⟨0, false, apc, apd, apal, ath, ain, albl, ages⟩, ⟨1, true, bpc, bpd, bpal, bth, bin, blbl, bges⟩]))) 0
          else (setObj3 (⟨[], [⟨ox + (bpc.1 - f26.1) * f29, oy + -(bpc.2 - f26.2) * f29, oz, osc, oosc, orx, ory, orz, 1, [1], osel, false, true, some 0, some apal, ax, obbs, onv⟩],
          [], [(1, ⟨0, f21, none, f23, f24, f25, bpc, bth, bin, f29, f2a, f2b, none⟩)],
          (aset (aset ps 0 ⟨false, 0⟩) 1
            (pinch_debounce_step ((alookup (aset ps 0 ⟨false, 0⟩) 1).getD ⟨false, 0⟩) true)).filter
          (fun p => decide (p.1 ∈ ([] : List Nat)) || decide (p.1 ∉ ([] : List Nat))),
          [], false, true, chi⟩ : Engine) 0
          (rotationBody g ⟨0, false, apc, apd, apal, ath, ain, albl, ages⟩
          (updateRotationAxis (getObj3 (⟨[], [⟨ox + (bpc.1 - f26.1) * f29, oy + -(bpc.2 - f26.2) * f29, oz, osc, oosc, orx, ory, orz, 1, [1], osel, false, true, some 0, some apal, ax, obbs, onv⟩],
          [], [(1, ⟨0, f21, none, f23, f24, f25, bpc, bth, bin, f29, f2a, f2b, none⟩)],
          (aset (aset ps 0 ⟨false, 0⟩) 1
            (pinch_debounce_step ((alookup (aset ps 0 ⟨false, 0⟩) 1).getD ⟨false, 0⟩) true)).filter
          (fun p => decide (p.1 ∈ ([] : List Nat)) || decide (p.1 ∉ ([] : List Nat))),
          [], false, true, chi⟩ : Engine) 0)
            [⟨0, false, apc, apd, apal, ath, ain, albl, ages⟩, ⟨1, true, bpc, bpd, bpal, bth, bin, blbl, bges⟩])))) := by
        unfold rotLostStep
        rw [hidx]
      have hc2 : ((getObj3 (setObj3 (⟨[], [⟨ox + (bpc.1 - f26.1) * f29, oy + -(bpc.2 - f26.2) * f29, oz, osc, oosc, orx, ory, orz, 1, [1], osel, false, true, some 0, some apal, ax, obbs, onv⟩],
          [], [(1, ⟨0, f21, none, f23, f24, f25, bpc, bth, bin, f29, f2a, f2b, none⟩)],
          (aset (aset ps 0 ⟨false, 0⟩) 1
            (pinch_debounce_step ((alookup (aset ps 0 ⟨false, 0⟩) 1).getD ⟨false, 0⟩) true)).filter
          (fun p => decide (p.1 ∈ ([] : List Nat)) || decide (p.1 ∉ ([] : List Nat))),
          [], false, true, chi⟩ : Engine) 0
          (rotationBody g ⟨0, false, apc, apd, apal, ath, ain, albl, ages⟩
          (updateRotationAxis (getObj3 (⟨[], [⟨ox + (bpc.1 - f26.1) * f29, oy + -(bpc.2 - f26.2) * f29, oz, osc, oosc, orx, ory, orz, 1, [1], osel, false, true, some 0, some apal, ax, obbs, onv⟩],
          [], [(1, ⟨0, f21, none, f23, f24, f25, bpc, bth, bin, f29, f2a, f2b, none⟩)],
          (aset (aset ps 0 ⟨false, 0⟩) 1
            (pinch_debounce_step ((alookup (aset ps 0 ⟨false, 0⟩) 1).getD ⟨false, 0⟩) true)).filter
          (fun p => decide (p.1 ∈ ([] : List Nat)) || decide (p.1 ∉ ([] : List Nat))),
          [], false, true, chi⟩ : Engine) 0)
            [⟨0, false, apc, apd, apal, ath, ain, albl, ages⟩, ⟨1, true, bpc, bpd, bpal, bth, bin, blbl, bges⟩]))) 0).is_in_rotation_mode &&
          !(List.any ([⟨0, false, apc, apd, apal, ath, ain, albl, ages⟩, ⟨1, true, bpc, bpd, bpal, bth, bin, blbl, bges⟩] : List HandInfo) fun x => x.hand_idx == 0)) = false := by
        rw [show (List.any ([⟨0, false, apc, apd, apal, ath, ain, albl, ages⟩, ⟨1, true, bpc, bpd, bpal, bth, bin, blbl, bges⟩] : List HandInfo) fun x => x.hand_idx == 0) = true from rfl,
          Bool.not_true, Bool.and_false]
      have hL : rotCleanupLostHand [⟨0, false, apc, apd, apal, ath, ain, albl, ages⟩, ⟨1, true, bpc, bpd, bpal, bth, bin, blbl, bges⟩] (setObj3 (⟨[], [⟨ox + (bpc.1 - f26.1) * f29, oy + -(bpc.2 - f26.2) * f29, oz, osc, oosc, orx, ory, orz, 1, [1], osel, false, true, some 0, some apal, ax, obbs, onv⟩],
          [], [(1, ⟨0, f21, none, f23, f24, f25, bpc, bth, bin, f29, f2a, f2b, none⟩)],
          (aset (aset ps 0 ⟨false, 0⟩) 1
            (pinch_debounce_step ((alookup (aset ps 0 ⟨false, 0⟩) 1).getD ⟨false, 0⟩) true)).filter
          (fun p => decide (p.1 ∈ ([] : List Nat)) || decide (p.1 ∉ ([] : List Nat))),
          [], false, true, chi⟩ : Engine) 0
          (rotationBody g ⟨0, false, apc, apd, apal, ath, ain, albl, ages⟩
          (updateRotationAxis (getObj3 (⟨[], [⟨ox + (bpc.1 - f26.1) * f29, oy + -(bpc.2 - f26.2) * f29, oz, osc, oosc, orx, ory, orz, 1, [1], osel, false, true, some 0, some apal, ax, obbs, onv⟩],
          [], [(1, ⟨0, f21, none, f23, f24, f25, bpc, bth, bin, f29, f2a, f2b, none⟩)],
          (aset (aset ps 0 ⟨false, 0⟩) 1
            (pinch_debounce_step ((alookup (aset ps 0 ⟨false, 0⟩) 1).getD ⟨false, 0⟩) true)).filter
          (fun p => decide (p.1 ∈ ([] : List Nat)) || decide (p.1 ∉ ([] : List Nat))),
          [], false, true, chi⟩ : Engine) 0)
            [⟨0, false, apc, apd, apal, ath, ain, albl, ages⟩, ⟨1, true, bpc, bpd, bpal, bth, bin, blbl, bges⟩]))) = (setObj3 (⟨[], [⟨ox + (bpc.1 - f26.1) * f29, oy + -(bpc.2 - f26.2) * f29, oz, osc, oosc, orx, ory, orz, 1, [1], osel, false, true, some 0, some apal, ax, obbs, onv⟩],
          [], [(1, ⟨0, f21, none, f23, f24, f25, bpc, bth, bin, f29, f2a, f2b, none⟩)],
          (aset (aset ps 0 ⟨false, 0⟩) 1
            (pinch_debounce_step ((alookup (aset ps 0 ⟨false, 0⟩) 1).getD ⟨false, 0⟩) true)).filter
          (fun p => decide (p.1 ∈ ([] : List Nat)) || decide (p.1 ∉ ([] : List Nat))),
          [], false, true, chi⟩ : Engine) 0
          (rotationBody g ⟨0, false, apc, apd, apal, ath, ain, albl, ages⟩
          (updateRotationAxis (getObj3 (⟨[], [⟨ox + (bpc.1 - f26.1) * f29, oy + -(bpc.2 - f26.2) * f29, oz, osc, oosc, orx, ory, orz, 1, [1], osel, false, true, some 0, some apal, ax, obbs, onv⟩],
          [], [(1, ⟨0, f21, none, f23, f24, f25, bpc, bth, bin, f29, f2a, f2b, none⟩)],
          (aset (aset ps 0 ⟨false, 0⟩) 1
            (pinch_debounce_step ((alookup (aset ps 0 ⟨false, 0⟩) 1).getD ⟨false, 0⟩) true)).filter
          (fun p => decide (p.1 ∈ ([] : List Nat)) || decide (p.1 ∉ ([] : List Nat))),
          [], false, true, chi⟩ : Engine) 0)
            [⟨0, false, apc, apd, apal, ath, ain, albl, ages⟩, ⟨1, true, bpc, bpd, bpal, bth, bin, blbl, bges⟩]))) := by
        show rotLostStep [⟨0, false, apc, apd, apal, ath, ain, albl, ages⟩, ⟨1, true, bpc, bpd, bpal, bth, bin, blbl, bges⟩] (setObj3 (⟨[], [⟨ox + (bpc.1 - f26.1) * f29, oy + -(bpc.2 - f26.2) * f29, oz, osc, oosc, orx, ory, orz, 1, [1], osel, false, true, some 0, some apal, ax, obbs, onv⟩],
          [], [(1, ⟨0, f21, none, f23, f24, f25, bpc, bth, bin, f29, f2a, f2b, none⟩)],
          (aset (aset ps 0 ⟨false, 0⟩) 1
            (pinch_debounce_step ((alookup (aset ps 0 ⟨false, 0⟩) 1).getD ⟨false, 0⟩) true)).filter
          (fun p => decide (p.1 ∈ ([] : List Nat)) || decide (p.1 ∉ ([] : List Nat))),
          [], false, true, chi⟩ : Engine) 0
          (rotationBody g ⟨0, false, apc, apd, apal, ath, ain, albl, ages⟩
          (updateRotationAxis (getObj3 (⟨[], [⟨ox + (bpc.1 - f26.1) * f29, oy + -(bpc.2 - f26.2) * f29, oz, osc, oosc, orx, ory, orz, 1, [1], osel, false, true, some 0, some apal, ax, obbs, onv⟩],
          [], [(1, ⟨0, f21, none, f23, f24, f25, bpc, bth, bin, f29, f2a, f2b, none⟩)],
          (aset (aset ps 0 ⟨false, 0⟩) 1
            (pinch_debounce_step ((alookup (aset ps 0 ⟨false, 0⟩) 1).getD ⟨false, 0⟩) true)).filter
          (fun p => decide (p.1 ∈ ([] : List Nat)) || decide (p.1 ∉ ([] : List Nat))),
          [], false, true, chi⟩ : Engine) 0)
            [⟨0, false, apc, apd, apal, ath, ain, albl, ages⟩, ⟨1, true, bpc, bpd, bpal, bth, bin, blbl, bges⟩]))) 0 = (setObj3 (⟨[], [⟨ox + (bpc.1 - f26.1) * f29, oy + -(bpc.2 - f26.2) * f29, oz, osc, oosc, orx, ory, orz, 1, [1], osel, false, true, some 0, some apal, ax, obbs, onv⟩],
          [], [(1, ⟨0, f21, none, f23, f24, f25, bpc, bth, bin, f29, f2a, f2b, none⟩)],
          (aset (aset ps 0 ⟨false, 0⟩) 1
            (pinch_debounce_step ((alookup (aset ps 0 ⟨false, 0⟩) 1).getD ⟨false, 0⟩) true)).filter
          (fun p => decide (p.1 ∈ ([] : List Nat)) || decide (p.1 ∉ ([] : List Nat))),
          [], false, true, chi⟩ : Engine) 0
          (rotationBody g ⟨0, false, apc, apd, apal, ath, ain, albl, ages⟩
          (updateRotationAxis (getObj3 (⟨[], [⟨ox + (bpc.1 - f26.1) * f29, oy + -(bpc.2 - f26.2) * f29, oz, osc, oosc, orx, ory, orz, 1, [1], osel, false, true, some 0, some apal, ax, obbs, onv⟩],
          [], [(1, ⟨0, f21, none, f23, f24, f25, bpc, bth, bin, f29, f2a, f2b, none⟩)],
          (aset (aset ps 0 ⟨false, 0⟩) 1
            (pinch_debounce_step ((alookup (aset ps 0 ⟨false, 0⟩) 1).getD ⟨false, 0⟩) true)).filter
          (fun p => decide (p.1 ∈ ([] : List Nat)) || decide (p.1 ∉ ([] : List Nat))),
          [], false, true, chi⟩ : Engine) 0)
            [⟨0, false, apc, apd, apal, ath, ain, albl, ages⟩, ⟨1, true, bpc, bpd, bpal, bth, bin, blbl, bges⟩])))
        rw [hL1, hc2]
        rfl
      have hRP : resetPhase [⟨0, false, apc, apd, apal, ath, ain, albl, ages⟩, ⟨1, true, bpc, bpd, bpal, bth, bin, blbl, bges⟩] (setObj3 (⟨[], [⟨ox + (bpc.1 - f26.1) * f29, oy + -(bpc.2 - f26.2) * f29, oz, osc, oosc, orx, ory, orz, 1, [1], osel, false, true, some 0, some apal, ax, obbs, onv⟩],
          [], [(1, ⟨0, f21, none, f23, f24, f25, bpc, bth, bin, f29, f2a, f2b, none⟩)],
          (aset (aset ps 0 ⟨false, 0⟩) 1
            (pinch_debounce_step ((alookup (aset ps 0 ⟨false, 0⟩) 1).getD ⟨false, 0⟩) true)).filter
          (fun p => decide (p.1 ∈ ([] : List Nat)) || decide (p.1 ∉ ([] : List Nat))),
          [], false, true, chi⟩ : Engine) 0
          (rotationBody g ⟨0, false, apc, apd, apal, ath, ain, albl, ages⟩
          (updateRotationAxis (getObj3 (⟨[], [⟨ox + (bpc.1 - f26.1) * f29, oy + -(bpc.2 - f26.2) * f29, oz, osc, oosc, orx, ory, orz, 1, [1], osel, false, true, some 0, some apal, ax, obbs, onv⟩],
          [], [(1, ⟨0, f21, none, f23, f24, f25, bpc, bth, bin, f29, f2a, f2b, none⟩)],
          (aset (aset ps 0 ⟨false, 0⟩) 1
            (pinch_debounce_step ((alookup (aset ps 0 ⟨false, 0⟩) 1).getD ⟨false, 0⟩) true)).filter
          (fun p => decide (p.1 ∈ ([] : List Nat)) || decide (p.1 ∉ ([] : List Nat))),
          [], false, true, chi⟩ : Engine) 0)
            [⟨0, false, apc, apd, apal, ath, ain, albl, ages⟩, ⟨1, true, bpc, bpd, bpal, bth, bin, blbl, bges⟩]))) = (setObj3 (⟨[], [⟨ox + (bpc.1 - f26.1) * f29, oy + -(bpc.2 - f26.2) * f29, oz, osc, oosc, orx, ory, orz, 1, [1], osel, false, true, some 0, some apal, ax, obbs, onv⟩],
          [], [(1, ⟨0, f21, none, f23, f24, f25, bpc, bth, bin, f29, f2a, f2b, none⟩)],
          (aset (aset ps 0 ⟨false, 0⟩) 1
            (pinch_debounce_step ((alookup (aset ps 0 ⟨false, 0⟩) 1).getD ⟨false, 0⟩) true)).filter
          (fun p => decide (p.1 ∈ ([] : List Nat)) || decide (p.1 ∉ ([] : List Nat))),
          [], false, true, chi⟩ : Engine) 0
          (rotationBody g ⟨0, false, apc, apd, apal, ath, ain, albl, ages⟩
          (updateRotationAxis (getObj3 (⟨[], [⟨ox + (bpc.1 - f26.1) * f29, oy + -(bpc.2 - f26.2) * f29, oz, osc, oosc, orx, ory, orz, 1, [1], osel, false, true, some 0, some apal, ax, obbs, onv⟩],
          [], [(1, ⟨0, f21, none, f23, f24, f25, bpc, bth, bin, f29, f2a, f2b, none⟩)],
          (aset (aset ps 0 ⟨false, 0⟩) 1
            (pinch_debounce_step ((alookup (aset ps 0 ⟨false, 0⟩) 1).getD ⟨false, 0⟩) true)).filter
          (fun p => decide (p.1 ∈ ([] : List Nat)) || decide (p.1 ∉ ([] : List Nat))),
          [], false, true, chi⟩ : Engine) 0)
            [⟨0, false, apc, apd, apal, ath, ain, albl, ages⟩, ⟨1, true, bpc, bpd, bpal, bth, bin, blbl, bges⟩]))) := rfl
      rw [hstep1, hT, hU, hL, hRP]
      exact ⟨hOBm, hOBr, hOBg⟩
    · have hEB : continue3d g ⟨1, true, bpc, bpd, bpal, bth, bin, blbl, bges⟩ 1 ⟨0, f21, f22, f23, f24, f25, f26, f27, f28, f29, f2a, f2b, f2c⟩
          (setPinchState 1 (debounced (⟨[], [⟨ox, oy, oz, osc, oosc, orx, ory, orz, 1, [1], osel, oisel, true, some 0, some apal, ax, obbs, onv⟩],
         [], [(0, ⟨0, f11, none, f13, f14, f15, f16, f17, f18, f19, f1a, f1b, none⟩), (1, ⟨0, f21, f22, f23, f24, f25, f26, f27, f28, f29, f2a, f2b, f2c⟩)],
         aset ps 0 ⟨false, 0⟩, sel, false, true, chi⟩ : Engine) ⟨1, true, bpc, bpd, bpal, bth, bin, blbl, bges⟩) (⟨[], [⟨ox, oy, oz, osc, oosc, orx, ory, orz, 1, [1], osel, oisel, true, some 0, some apal, ax, obbs, onv⟩],
         [], [(0, ⟨0, f11, none, f13, f14, f15, f16, f17, f18, f19, f1a, f1b, none⟩), (1, ⟨0, f21, f22, f23, f24, f25, f26, f27, f28, f29, f2a, f2b, f2c⟩)],
         aset ps 0 ⟨false, 0⟩, sel, false, true, chi⟩ : Engine)) =
          (trackLast3 ⟨1, true, bpc, bpd, bpal, bth, bin, blbl, bges⟩ 1 (setPinchState 1 (debounced (⟨[], [⟨ox, oy, oz, osc, oosc, orx, ory, orz, 1, [1], osel, oisel, true, some 0, some apal, ax, obbs, onv⟩],
         [], [(0, ⟨0, f11, none, f13, f14, f15, f16, f17, f18, f19, f1a, f1b, none⟩), (1, ⟨0, f21, f22, f23, f24, f25, f26, f27, f28, f29, f2a, f2b, f2c⟩)],
         aset ps 0 ⟨false, 0⟩, sel, false, true, chi⟩ : Engine) ⟨1, true, bpc, bpd, bpal, bth, bin, blbl, bges⟩) (⟨[], [⟨ox, oy, oz, osc, oosc, orx, ory, orz, 1, [1], osel, oisel, true, some 0, some apal, ax, obbs, onv⟩],
         [], [(0, ⟨0, f11, none, f13, f14, f15, f16, f17, f18, f19, f1a, f1b, none⟩), (1, ⟨0, f21, f22, f23, f24, f25, f26, f27, f28, f29, f2a, f2b, f2c⟩)],
         aset ps 0 ⟨false, 0⟩, sel, false, true, chi⟩ : Engine))) := by
        unfold continue3d
        rw [if_neg hmove]
      have hstep1 : stepFrame g [⟨0, false, apc, apd, apal, ath, ain, albl, ages⟩, ⟨1, true, bpc, bpd, bpal, bth, bin, blbl, bges⟩]
          (mkC4Engine ⟨ox, oy, oz, osc, oosc, orx, ory, orz, 2, [0, 1], osel, oisel, false, orhi, olrp, orax, obbs, onv⟩
          ⟨0, f11, f12, f13, f14, f15, f16, f17, f18, f19, f1a, f1b, f1c⟩
          ⟨0, f21, f22, f23, f24, f25, f26, f27, f28, f29, f2a, f2b, f2c⟩ ps sel chi) =
          { resetPhase [⟨0, false, apc, apd, apal, ath, ain, albl, ages⟩, ⟨1, true, bpc, bpd, bpal, bth, bin, blbl, bges⟩]
              (rotCleanupLostHand [⟨0, false, apc, apd, apal, ath, ain, albl, ages⟩, ⟨1, true, bpc, bpd, bpal, bth, bin, blbl, bges⟩]
                (rotCleanupUngrabbed (selectionPhase g
                  [⟨0, false, apc, apd, apal, ath, ain, albl, ages⟩, ⟨1, true, bpc, bpd, bpal, bth, bin, blbl, bges⟩]
                  (cleanup3d [1] (cleanup2d []
                    (trackLast3 ⟨1, true, bpc, bpd, bpal, bth, bin, blbl, bges⟩ 1 (setPinchState 1 (debounced (⟨[], [⟨ox, oy, oz, osc, oosc, orx, ory, orz, 1, [1], osel, oisel, true, some 0, some apal, ax, obbs, onv⟩],
         [], [(0, ⟨0, f11, none, f13, f14, f15, f16, f17, f18, f19, f1a, f1b, none⟩), (1, ⟨0, f21, f22, f23, f24, f25, f26, f27, f28, f29, f2a, f2b, f2c⟩)],
         aset ps 0 ⟨false, 0⟩, sel, false, true, chi⟩ : Engine) ⟨1, true, bpc, bpd, bpal, bth, bin, blbl, bges⟩) (⟨[], [⟨ox, oy, oz, osc, oosc, orx, ory, orz, 1, [1], osel, oisel, true, some 0, some apal, ax, obbs, onv⟩],
         [], [(0, ⟨0, f11, none, f13, f14, f15, f16, f17, f18, f19, f1a, f1b, none⟩), (1, ⟨0, f21, f22, f23, f24, f25, f26, f27, f28, f29, f2a, f2b, f2c⟩)],
         aset ps 0 ⟨false, 0⟩, sel, false, true, chi⟩ : Engine)))))))) with
            current_hands_info := [⟨0, false, apc, apd, apal, ath, ain, albl, ages⟩, ⟨1, true, bpc, bpd, bpal, bth, bin, blbl, bges⟩] } := by
        unfold stepFrame processInteractions
        rw [hA, hEB]
      have hT : selectionPhase g
          [⟨0, false, apc, apd, apal, ath, ain, albl, ages⟩, ⟨1, true, bpc, bpd, bpal, bth, bin, blbl, bges⟩]
          (cleanup3d [1] (cleanup2d []
            (trackLast3 ⟨1, true, bpc, bpd, bpal, bth, bin, blbl, bges⟩ 1 (setPinchState 1 (debounced (⟨[], [⟨ox, oy, oz, osc, oosc, orx, ory, orz, 1, [1], osel, oisel, true, some 0, some apal, ax, obbs, onv⟩],
         [], [(0, ⟨0, f11, none, f13, f14, f15, f16, f17, f18, f19, f1a, f1b, none⟩), (1, ⟨0, f21, f22, f23, f24, f25, f26, f27, f28, f29, f2a, f2b, f2c⟩)],
         aset ps 0 ⟨false, 0⟩, sel, false, true, chi⟩ : Engine) ⟨1, true, bpc, bpd, bpal, bth, bin, blbl, bges⟩) (⟨[], [⟨ox, oy, oz, osc, oosc, orx, ory, orz, 1, [1], osel, oisel, true, some 0, some apal, ax, obbs, onv⟩],
         [], [(0, ⟨0, f11, none, f13, f14, f15, f16, f17, f18, f19, f1a, f1b, none⟩), (1, ⟨0, f21, f22, f23, f24, f25, f26, f27, f28, f29, f2a, f2b, f2c⟩)],
         aset ps 0 ⟨false, 0⟩, sel, false, true, chi⟩ : Engine))))) =
          setObj3 (⟨[], [⟨ox, oy, oz, osc, oosc, orx, ory, orz, 1, [1], osel, false, true, some 0, some apal, ax, obbs, onv⟩],
          [], [(1, ⟨0, f21, none, f23, f24, f25, bpc, bth, bin, f29, f2a, f2b, none⟩)],
          (aset (aset ps 0 ⟨false, 0⟩) 1
            (pinch_debounce_step ((alookup (aset ps 0 ⟨false, 0⟩) 1).getD ⟨false, 0⟩) true)).filter
          (fun p => decide (p.1 ∈ ([] : List Nat)) || decide (p.1 ∉ ([] : List Nat))),
          [], false, true, chi⟩ : Engine) 0
            (rotationBody g ⟨0, false, apc, apd, apal, ath, ain, albl, ages⟩
          (updateRotationAxis (getObj3 (⟨[], [⟨ox, oy, oz, osc, oosc, orx, ory, orz, 1, [1], osel, false, true, some 0, some apal, ax, obbs, onv⟩],
          [], [(1, ⟨0, f21, none, f23, f24, f25, bpc, bth, bin, f29, f2a, f2b, none⟩)],
          (aset (aset ps 0 ⟨false, 0⟩) 1
            (pinch_debounce_step ((alookup (aset ps 0 ⟨false, 0⟩) 1).getD ⟨false, 0⟩) true)).filter
          (fun p => decide (p.1 ∈ ([] : List Nat)) || decide (p.1 ∉ ([] : List Nat))),
          [], false, true, chi⟩ : Engine) 0)
            [⟨0, false, apc, apd, apal, ath, ain, albl, ages⟩, ⟨1, true, bpc, bpd, bpal, bth, bin, blbl, bges⟩])) := rfl
      obtain ⟨ax2, hax2⟩ := updateRotationAxis_shape (getObj3 (⟨[], [⟨ox, oy, oz, osc, oosc, orx, ory, orz, 1, [1], osel, false, true, some 0, some apal, ax, obbs, onv⟩],
          [], [(1, ⟨0, f21, none, f23, f24, f25, bpc, bth, bin, f29, f2a, f2b, none⟩)],
          (aset (aset ps 0 ⟨false, 0⟩) 1
            (pinch_debounce_step ((alookup (aset ps 0 ⟨false, 0⟩) 1).getD ⟨false, 0⟩) true)).filter
          (fun p => decide (p.1 ∈ ([] : List Nat)) || decide (p.1 ∉ ([] : List Nat))),
          [], false, true, chi⟩ : Engine) 0)
        [⟨0, false, apc, apd, apal, ath, ain, albl, ages⟩, ⟨1, true, bpc, bpd, bpal, bth, bin, blbl, bges⟩]
      have hOBm : ((rotationBody g ⟨0, false, apc, apd, apal, ath, ain, albl, ages⟩
          (updateRotationAxis (getObj3 (⟨[], [⟨ox, oy, oz, osc, oosc, orx, ory, orz, 1, [1], osel, false, true, some 0, some apal, ax, obbs, onv⟩],
          [], [(1, ⟨0, f21, none, f23, f24, f25, bpc, bth, bin, f29, f2a, f2b, none⟩)],
          (aset (aset ps 0 ⟨false, 0⟩) 1
            (pinch_debounce_step ((alookup (aset ps 0 ⟨false, 0⟩) 1).getD ⟨false, 0⟩) true)).filter
          (fun p => decide (p.1 ∈ ([] : List Nat)) || decide (p.1 ∉ ([] : List Nat))),
          [], false, true, chi⟩ : Engine) 0)
            [⟨0, false, apc, apd, apal, ath, ain, albl, ages⟩, ⟨1, true, bpc, bpd, bpal, bth, bin, blbl, bges⟩]))).is_in_rotation_mode = true := by
        rw [(rotationBody_fields g ⟨0, false, apc, apd, apal, ath, ain, albl, ages⟩
            (updateRotationAxis (getObj3 (⟨[], [⟨ox, oy, oz, osc, oosc, orx, ory, orz, 1, [1], osel, false, true, some 0, some apal, ax, obbs, onv⟩],
          [], [(1, ⟨0, f21, none, f23, f24, f25, bpc, bth, bin, f29, f2a, f2b, none⟩)],
          (aset (aset ps 0 ⟨false, 0⟩) 1
            (pinch_debounce_step ((alookup (aset ps 0 ⟨false, 0⟩) 1).getD ⟨false, 0⟩) true)).filter
          (fun p => decide (p.1 ∈ ([] : List Nat)) || decide (p.1 ∉ ([] : List Nat))),
          [], false, true, chi⟩ : Engine) 0)
              [⟨0, false, apc, apd, apal, ath, ain, albl, ages⟩, ⟨1, true, bpc, bpd, bpal, bth, bin, blbl, bges⟩])).1, hax2]
        rfl
      have hOBr : ((rotationBody g ⟨0, false, apc, apd, apal, ath, ain, albl, ages⟩
          (updateRotationAxis (getObj3 (⟨[], [⟨ox, oy, oz, osc, oosc, orx, ory, orz, 1, [1], osel, false, true, some 0, some apal, ax, obbs, onv⟩],
          [], [(1, ⟨0, f21, none, f23, f24, f25, bpc, bth, bin, f29, f2a, f2b, none⟩)],
          (aset (aset ps 0 ⟨false, 0⟩) 1
            (pinch_debounce_step ((alookup (aset ps 0 ⟨false, 0⟩) 1).getD ⟨false, 0⟩) true)).filter
          (fun p => decide (p.1 ∈ ([] : List Nat)) || decide (p.1 ∉ ([] : List Nat))),
          [], false, true, chi⟩ : Engine) 0)
            [⟨0, false, apc, apd, apal, ath, ain, albl, ages⟩, ⟨1, true, bpc, bpd, bpal, bth, bin, blbl, bges⟩]))).rotation_hand_idx = some 0 := by
        rw [(rotationBody_fields g ⟨0, false, apc, apd, apal, ath, ain, albl, ages⟩
            (updateRotationAxis (getObj3 (⟨[], [⟨ox, oy, oz, osc, oosc, orx, ory, orz, 1, [1], osel, false, true, some 0, some apal, ax, obbs, onv⟩],
          [], [(1, ⟨0, f21, none, f23, f24, f25, bpc, bth, bin, f29, f2a, f2b, none⟩)],
          (aset (aset ps 0 ⟨false, 0⟩) 1
            (pinch_debounce_step ((alookup (aset ps 0 ⟨false, 0⟩) 1).getD ⟨false, 0⟩) true)).filter
          (fun p => decide (p.1 ∈ ([] : List Nat)) || decide (p.1 ∉ ([] : List Nat))),
          [], false, true, chi⟩ : Engine) 0)
              [⟨0, false, apc, apd, apal, ath, ain, albl, ages⟩, ⟨1, true, bpc, bpd, bpal, bth, bin, blbl, bges⟩])).2.1, hax2]
        rfl
      have hOBg : ((rotationBody g ⟨0, false, apc, apd, apal, ath, ain, albl, ages⟩
          (updateRotationAxis (getObj3 (⟨[], [⟨ox, oy, oz, osc, oosc, orx, ory, orz, 1, [1], osel, false, true, some 0, some apal, ax, obbs, onv⟩],
          [], [(1, ⟨0, f21, none, f23, f24, f25, bpc, bth, bin, f29, f2a, f2b, none⟩)],
          (aset (aset ps 0 ⟨false, 0⟩) 1
            (pinch_debounce_step ((alookup (aset ps 0 ⟨false, 0⟩) 1).getD ⟨false, 0⟩) true)).filter
          (fun p => decide (p.1 ∈ ([] : List Nat)) || decide (p.1 ∉ ([] : List Nat))),
          [], false, true, chi⟩ : Engine) 0)
            [⟨0, false, apc, apd, apal, ath, ain, albl, ages⟩, ⟨1, true, bpc, bpd, bpal, bth, bin, blbl, bges⟩]))).is_grabbed = 1 := by
        rw [(rotationBody_fields g ⟨0, false, apc, apd, apal, ath, ain, albl, ages⟩
            (updateRotationAxis (getObj3 (⟨[], [⟨ox, oy, oz, osc, oosc, orx, ory, orz, 1, [1], osel, false, true, some 0, some apal, ax, obbs, onv⟩],
          [], [(1, ⟨0, f21, none, f23, f24, f25, bpc, bth, bin, f29, f2a, f2b, none⟩)],
          (aset (aset ps 0 ⟨false, 0⟩) 1
            (pinch_debounce_step ((alookup (aset ps 0 ⟨false, 0⟩) 1).getD ⟨false, 0⟩) true)).filter
          (fun p => decide (p.1 ∈ ([] : List Nat)) || decide (p.1 ∉ ([] : List Nat))),
          [], false, true, chi⟩ : Engine) 0)
              [⟨0, false, apc, apd, apal, ath, ain, albl, ages⟩, ⟨1, true, bpc, bpd, bpal, bth, bin, blbl, bges⟩])).2.2.1, hax2]
        rfl
      have hcond : ((getObj3 (setObj3 (⟨[], [⟨ox, oy, oz, osc, oosc, orx, ory, orz, 1, [1], osel, false, true, some 0, some apal, ax, obbs, onv⟩],
          [], [(1, ⟨0, f21, none, f23, f24, f25, bpc, bth, bin, f29, f2a, f2b, none⟩)],
          (aset (aset ps 0 ⟨false, 0⟩) 1
            (pinch_debounce_step ((alookup (aset ps 0 ⟨false, 0⟩) 1).getD ⟨false, 0⟩) true)).filter
          (fun p => decide (p.1 ∈ ([] : List Nat)) || decide (p.1 ∉ ([] : List Nat))),
          [], false, true, chi⟩ : Engine) 0
          (rotationBody g ⟨0, false, apc, apd, apal, ath, ain, albl, ages⟩
          (updateRotationAxis (getObj3 (⟨[], [⟨ox, oy, oz, osc, oosc, orx, ory, orz, 1, [1], osel, false, true, some 0, some apal, ax, obbs, onv⟩],
          [], [(1, ⟨0, f21, none, f23, f24, f25, bpc, bth, bin, f29, f2a, f2b, none⟩)],
          (aset (aset ps 0 ⟨false, 0⟩) 1
            (pinch_debounce_step ((alookup (aset ps 0 ⟨false, 0⟩) 1).getD ⟨false, 0⟩) true)).filter
          (fun p => decide (p.1 ∈ ([] : List Nat)) || decide (p.1 ∉ ([] : List Nat))),
          [], false, true, chi⟩ : Engine) 0)
            [⟨0, false, apc, apd, apal, ath, ain, albl, ages⟩, ⟨1, true, bpc, bpd, bpal, bth, bin, blbl, bges⟩]))) 0).is_in_rotation_mode &&
          decide ((getObj3 (setObj3 (⟨[], [⟨ox, oy, oz, osc, oosc, orx, ory, orz, 1, [1], osel, false, true, some 0, some apal, ax, obbs, onv⟩],
          [], [(1, ⟨0, f21, none, f23, f24, f25, bpc, bth, bin, f29, f2a, f2b, none⟩)],
          (aset (aset ps 0 ⟨false, 0⟩) 1
            (pinch_debounce_step ((alookup (aset ps 0 ⟨false, 0⟩) 1).getD ⟨false, 0⟩) true)).filter
          (fun p => decide (p.1 ∈ ([] : List Nat)) || decide (p.1 ∉ ([] : List Nat))),
          [], false, true, chi⟩ : Engine) 0
          (rotationBody g ⟨0, false, apc, apd, apal, ath, ain, albl, ages⟩
          (updateRotationAxis (getObj3 (⟨[], [⟨ox, oy, oz, osc, oosc, orx, ory, orz, 1, [1], osel, false, true, some 0, some apal, ax, obbs, onv⟩],
          [], [(1, ⟨0, f21, none, f23, f24, f25, bpc, bth, bin, f29, f2a, f2b, none⟩)],
          (aset (aset ps 0 ⟨false, 0⟩) 1
            (pinch_debounce_step ((alookup (aset ps 0 ⟨false, 0⟩) 1).getD ⟨false, 0⟩) true)).filter
          (fun p => decide (p.1 ∈ ([] : List Nat)) || decide (p.1 ∉ ([] : List Nat))),
          [], false, true, chi⟩ : Engine) 0)
            [⟨0, false, apc, apd, apal, ath, ain, albl, ages⟩, ⟨1, true, bpc, bpd, bpal, bth, bin, blbl, bges⟩]))) 0).is_grabbed = 0)) = false := by
        show (((rotationBody g ⟨0, false, apc, apd, apal, ath, ain, albl, ages⟩
          (updateRotationAxis (getObj3 (⟨[], [⟨ox, oy, oz, osc, oosc, orx, ory, orz, 1, [1], osel, false, true, some 0, some apal, ax, obbs, onv⟩],
          [], [(1, ⟨0, f21, none, f23, f24, f25, bpc, bth, bin, f29, f2a, f2b, none⟩)],
          (aset (aset ps 0 ⟨false, 0⟩) 1
            (pinch_debounce_step ((alookup (aset ps 0 ⟨false, 0⟩) 1).getD ⟨false, 0⟩) true)).filter
          (fun p => decide (p.1 ∈ ([] : List Nat)) || decide (p.1 ∉ ([] : List Nat))),
          [], false, true, chi⟩ : Engine) 0)
            [⟨0, false, apc, apd, apal, ath, ain, albl, ages⟩, ⟨1, true, bpc, bpd, bpal, bth, bin, blbl, bges⟩]))).is_in_rotation_mode &&
          decide (((rotationBody g ⟨0, false, apc, apd, apal, ath, ain, albl, ages⟩
          (updateRotationAxis (getObj3 (⟨[], [⟨ox, oy, oz, osc, oosc, orx, ory, orz, 1, [1], osel, false, true, some 0, some apal, ax, obbs, onv⟩],
          [], [(1, ⟨0, f21, none, f23, f24, f25, bpc, bth, bin, f29, f2a, f2b, none⟩)],
          (aset (aset ps 0 ⟨false, 0⟩) 1
            (pinch_debounce_step ((alookup (aset ps 0 ⟨false, 0⟩) 1).getD ⟨false, 0⟩) true)).filter
          (fun p => decide (p.1 ∈ ([] : List Nat)) || decide (p.1 ∉ ([] : List Nat))),
          [], false, true, chi⟩ : Engine) 0)
            [⟨0, false, apc, apd, apal, ath, ain, albl, ages⟩, ⟨1, true, bpc, bpd, bpal, bth, bin, blbl, bges⟩]))).is_grabbed = 0)) = false
        rw [hOBm, hOBg]
        rfl
      have hU : rotCleanupUngrabbed (setObj3 (⟨[], [⟨ox, oy, oz, osc, oosc, orx, ory, orz, 1, [1], osel, false, true, some 0, some apal, ax, obbs, onv⟩],
          [], [(1, ⟨0, f21, none, f23, f24, f25, bpc, bth, bin, f29, f2a, f2b, none⟩)],
          (aset (aset ps 0 ⟨false, 0⟩) 1
            (pinch_debounce_step ((alookup (aset ps 0 ⟨false, 0⟩) 1).getD ⟨false, 0⟩) true)).filter
          (fun p => decide (p.1 ∈ ([] : List Nat)) || decide (p.1 ∉ ([] : List Nat))),
          [], false, true, chi⟩ : Engine) 0
          (rotationBody g ⟨0, false, apc, apd, apal, ath, ain, albl, ages⟩
          (updateRotationAxis (getObj3 (⟨[], [⟨ox, oy, oz, osc, oosc, orx, ory, orz, 1, [1], osel, false, true, some 0, some apal, ax, obbs, onv⟩],
          [], [(1, ⟨0, f21, none, f23, f24, f25, bpc, bth, bin, f29, f2a, f2b, none⟩)],
          (aset (aset ps 0 ⟨false, 0⟩) 1
            (pinch_debounce_step ((alookup (aset ps 0 ⟨false, 0⟩) 1).getD ⟨false, 0⟩) true)).filter
          (fun p => decide (p.1 ∈ ([] : List Nat)) || decide (p.1 ∉ ([] : List Nat))),
          [], false, true, chi⟩ : Engine) 0)
            [⟨0, false, apc, apd, apal, ath, ain, albl, ages⟩, ⟨1, true, bpc, bpd, bpal, bth, bin, blbl, bges⟩]))) = (setObj3 (⟨[], [⟨ox, oy, oz, osc, oosc, orx, ory, orz, 1, [1], osel, false, true, some 0, some apal, ax, obbs, onv⟩],
          [], [(1, ⟨0, f21, none, f23, f24, f25, bpc, bth, bin, f29, f2a, f2b, none⟩)],
          (aset (aset ps 0 ⟨false, 0⟩) 1
            (pinch_debounce_step ((alookup (aset ps 0 ⟨false, 0⟩) 1).getD ⟨false, 0⟩) true)).filter
          (fun p => decide (p.1 ∈ ([] : List Nat)) || decide (p.1 ∉ ([] : List Nat))),
          [], false, true, chi⟩ : Engine) 0
          (rotationBody g ⟨0, false, apc, apd, apal, ath, ain, albl, ages⟩
          (updateRotationAxis (getObj3 (⟨[], [⟨ox, oy, oz, osc, oosc, orx, ory, orz, 1, [1], osel, false, true, some 0, some apal, ax, obbs, onv⟩],
          [], [(1, ⟨0, f21, none, f23, f24, f25, bpc, bth, bin, f29, f2a, f2b, none⟩)],
          (aset (aset ps 0 ⟨false, 0⟩) 1
            (pinch_debounce_step ((alookup (aset ps 0 ⟨false, 0⟩) 1).getD ⟨false, 0⟩) true)).filter
          (fun p => decide (p.1 ∈ ([] : List Nat)) || decide (p.1 ∉ ([] : List Nat))),
          [], false, true, chi⟩ : Engine) 0)
            [⟨0, false, apc, apd, apal, ath, ain, albl, ages⟩, ⟨1, true, bpc, bpd, bpal, bth, bin, blbl, bges⟩]))) := by
        show rotUngrabbedStep (setObj3 (⟨[], [⟨ox, oy, oz, osc, oosc, orx, ory, orz, 1, [1], osel, false, true, some 0, some apal, ax, obbs, onv⟩],
          [], [(1, ⟨0, f21, none, f23, f24, f25, bpc, bth, bin, f29, f2a, f2b, none⟩)],
          (aset (aset ps 0 ⟨false, 0⟩) 1
            (pinch_debounce_step ((alookup (aset ps 0 ⟨false, 0⟩) 1).getD ⟨false, 0⟩) true)).filter
          (fun p => decide (p.1 ∈ ([] : List Nat)) || decide (p.1 ∉ ([] : List Nat))),
          [], false, true, chi⟩ : Engine) 0
          (rotationBody g ⟨0, false, apc, apd, apal, ath, ain, albl, ages⟩
          (updateRotationAxis (getObj3 (⟨[], [⟨ox, oy, oz, osc, oosc, orx, ory, orz, 1, [1], osel, false, true, some 0, some apal, ax, obbs, onv⟩],
          [], [(1, ⟨0, f21, none, f23, f24, f25, bpc, bth, bin, f29, f2a, f2b, none⟩)],
          (aset (aset ps 0 ⟨false, 0⟩) 1
            (pinch_debounce_step ((alookup (aset ps 0 ⟨false, 0⟩) 1).getD ⟨false, 0⟩) true)).filter
          (fun p => decide (p.1 ∈ ([] : List Nat)) || decide (p.1 ∉ ([] : List Nat))),
          [], false, true, chi⟩ : Engine) 0)
            [⟨0, false, apc, apd, apal, ath, ain, albl, ages⟩, ⟨1, true, bpc, bpd, bpal, bth, bin, blbl, bges⟩]))) 0 = (setObj3 (⟨[], [⟨ox, oy, oz, osc, oosc, orx, ory, orz, 1, [1], osel, false, true, some 0, some apal, ax, obbs, onv⟩],
          [], [(1, ⟨0, f21, none, f23, f24, f25, bpc, bth, bin, f29, f2a, f2b, none⟩)],
          (aset (aset ps 0 ⟨false, 0⟩) 1
            (pinch_debounce_step ((alookup (aset ps 0 ⟨false, 0⟩) 1).getD ⟨false, 0⟩) true)).filter
          (fun p => decide (p.1 ∈ ([] : List Nat)) || decide (p.1 ∉ ([] : List Nat))),
          [], false, true, chi⟩ : Engine) 0
          (rotationBody g ⟨0, false, apc, apd, apal, ath, ain, albl, ages⟩
          (updateRotationAxis (getObj3 (⟨[], [⟨ox, oy, oz, osc, oosc, orx, ory, orz, 1, [1], osel, false, true, some 0, some apal, ax, obbs, onv⟩],
          [], [(1, ⟨0, f21, none, f23, f24, f25, bpc, bth, bin, f29, f2a, f2b, none⟩)],
          (aset (aset ps 0 ⟨false, 0⟩) 1
            (pinch_debounce_step ((alookup (aset ps 0 ⟨false, 0⟩) 1).getD ⟨false, 0⟩) true)).filter
          (fun p => decide (p.1 ∈ ([] : List Nat)) || decide (p.1 ∉ ([] : List Nat))),
          [], false, true, chi⟩ : Engine) 0)
            [⟨0, false, apc, apd, apal, ath, ain, albl, ages⟩, ⟨1, true, bpc, bpd, bpal, bth, bin, blbl, bges⟩])))
        unfold rotUngrabbedStep
        rw [hcond]
        rfl
      have hidx : (getObj3 (setObj3 (⟨[], [⟨ox, oy, oz, osc, oosc, orx, ory, orz, 1, [1], osel, false, true, some 0, some apal, ax, obbs, onv⟩],
          [], [(1, ⟨0, f21, none, f23, f24, f25, bpc, bth, bin, f29, f2a, f2b, none⟩)],
          (aset (aset ps 0 ⟨false, 0⟩) 1
            (pinch_debounce_step ((alookup (aset ps 0 ⟨false, 0⟩) 1).getD ⟨false, 0⟩) true)).filter
          (fun p => decide (p.1 ∈ ([] : List Nat)) || decide (p.1 ∉ ([] : List Nat))),
          [], false, true, chi⟩ : Engine) 0
          (rotationBody g ⟨0, false, apc, apd, apal, ath, ain, albl, ages⟩
          (updateRotationAxis (getObj3 (⟨[], [⟨ox, oy, oz, osc, oosc, orx, ory, orz, 1, [1], osel, false, true, some 0, some apal, ax, obbs, onv⟩],
          [], [(1, ⟨0, f21, none, f23, f24, f25, bpc, bth, bin, f29, f2a, f2b, none⟩)],
          (aset (aset ps 0 ⟨false, 0⟩) 1
            (pinch_debounce_step ((alookup (aset ps 0 ⟨false, 0⟩) 1).getD ⟨false, 0⟩) true)).filter
          (fun p => decide (p.1 ∈ ([] : List Nat)) || decide (p.1 ∉ ([] : List Nat))),
          [], false, true, chi⟩ : Engine) 0)
            [⟨0, false, apc, apd, apal, ath, ain, albl, ages⟩, ⟨1, true, bpc, bpd, bpal, bth, bin, blbl, bges⟩]))) 0).rotation_hand_idx = some 0 := hOBr
      have hL1 : rotLostStep [⟨0, false, apc, apd, apal, ath, ain, albl, ages⟩, ⟨1, true, bpc, bpd, bpal, bth, bin, blbl, bges⟩] (setObj3 (⟨[], [⟨ox, oy, oz, osc, oosc, orx, ory, orz, 1, [1], osel, false, true, some 0, some apal, ax, obbs, onv⟩],
          [], [(1, ⟨0, f21, none, f23, f24, f25, bpc, bth, bin, f29, f2a, f2b, none⟩)],
          (aset (aset ps 0 ⟨false, 0⟩) 1
            (pinch_debounce_step ((alookup (aset ps 0 ⟨false, 0⟩) 1).getD ⟨false, 0⟩) true)).filter
          (fun p => decide (p.1 ∈ ([] : List Nat)) || decide (p.1 ∉ ([] : List Nat))),
          [], false, true, chi⟩ : Engine) 0
          (rotationBody g ⟨0, false, apc, apd, apal, ath, ain, albl, ages⟩
          (updateRotationAxis (getObj3 (⟨[], [⟨ox, oy, oz, osc, oosc, orx, ory, orz, 1, [1], osel, false, true, some 0, some apal, ax, obbs, onv⟩],
          [], [(1, ⟨0, f21, none, f23, f24, f25, bpc, bth, bin, f29, f2a, f2b, none⟩)],
          (aset (aset ps 0 ⟨false, 0⟩) 1
            (pinch_debounce_step ((alookup (aset ps 0 ⟨false, 0⟩) 1).getD ⟨false, 0⟩) true)).filter
          (fun p => decide (p.1 ∈ ([] : List Nat)) || decide (p.1 ∉ ([] : List Nat))),
          [], false, true, chi⟩ : Engine) 0)
            [⟨0, false, apc, apd, apal, ath, ain, albl, ages⟩, ⟨1, true, bpc, bpd, bpal, bth, bin, blbl, bges⟩]))) 0 =
          (if ((getObj3 (setObj3 (⟨[], [⟨ox, oy, oz, osc, oosc, orx, ory, orz, 1, [1], osel, false, true, some 0, some apal, ax, obbs, onv⟩],
          [], [(1, ⟨0, f21, none, f23, f24, f25, bpc, bth, bin, f29, f2a, f2b, none⟩)],
          (aset (aset ps 0 ⟨false, 0⟩) 1
            (pinch_debounce_step ((alookup (aset ps 0 ⟨false, 0⟩) 1).getD ⟨false, 0⟩) true)).filter
          (fun p => decide (p.1 ∈ ([] : List Nat)) || decide (p.1 ∉ ([] : List Nat))),
          [], false, true, chi⟩ : Engine) 0
          (rotationBody g ⟨0, false, apc, apd, apal, ath, ain, albl, ages⟩
          (updateRotationAxis (getObj3 (⟨[], [⟨ox, oy, oz, osc, oosc, orx, ory, orz, 1, [1], osel, false, true, some 0, some apal, ax, obbs, onv⟩],
          [], [(1, ⟨0, f21, none, f23, f24, f25, bpc, bth, bin, f29, f2a, f2b, none⟩)],
          (aset (aset ps 0 ⟨false, 0⟩) 1
            (pinch_debounce_step ((alookup (aset ps 0 ⟨false, 0⟩) 1).getD ⟨false, 0⟩) true)).filter
          (fun p => decide (p.1 ∈ ([] : List Nat)) || decide (p.1 ∉ ([] : List Nat))),
          [], false, true, chi⟩ : Engine) 0)
            [⟨0, false, apc, apd, apal, ath, ain, albl, ages⟩, ⟨1, true, bpc, bpd, bpal, bth, bin, blbl, bges⟩]))) 0).is_in_rotation_mode &&
              !(List.any ([⟨0, false, apc, apd, apal, ath, ain, albl, ages⟩, ⟨1, true, bpc, bpd, bpal, bth, bin, blbl, bges⟩] : List HandInfo) fun x => x.hand_idx == 0)) = true then
            exitRotationMode (setObj3 (⟨[], [⟨ox, oy, oz, osc, oosc, orx, ory, orz, 1, [1], osel, false, true, some 0, some apal, ax, obbs, onv⟩],
          [], [(1, ⟨0, f21, none, f23, f24, f25, bpc, bth, bin, f29, f2a, f2b, none⟩)],
          (aset (aset ps 0 ⟨false, 0⟩) 1
            (pinch_debounce_step ((alookup (aset ps 0 ⟨false, 0⟩) 1).getD ⟨false, 0⟩) true)).filter
          (fun p => decide (p.1 ∈ ([] : List Nat)) || decide (p.1 ∉ ([] : List Nat))),
          [], false, true, chi⟩ : Engine) 0
          (rotationBody g ⟨0, false, apc, apd, apal, ath, ain, albl, ages⟩
          (updateRotationAxis (getObj3 (⟨[], [⟨ox, oy, oz, osc, oosc, orx, ory, orz, 1, [1], osel, false, true, some 0, some apal, ax, obbs, onv⟩],
          [], [(1, ⟨0, f21, none, f23, f24, f25, bpc, bth, bin, f29, f2a, f2b, none⟩)],
          (aset (aset ps 0 ⟨false, 0⟩) 1
            (pinch_debounce_step ((alookup (aset ps 0 ⟨false, 0⟩) 1).getD ⟨false, 0⟩) true)).filter
          (fun p => decide (p.1 ∈ ([] : List Nat)) || decide (p.1 ∉ ([] : List Nat))),
          [], false, true, chi⟩ : Engine) 0)
            [⟨0, false, apc, apd, apal, ath, ain, albl, ages⟩, ⟨1, true, bpc, bpd, bpal, bth, bin, blbl, bges⟩]))) 0
          else (setObj3 (⟨[], [⟨ox, oy, oz, osc, oosc, orx, ory, orz, 1, [1], osel, false, true, some 0, some apal, ax, obbs, onv⟩],
          [], [(1, ⟨0, f21, none, f23, f24, f25, bpc, bth, bin, f29, f2a, f2b, none⟩)],
          (aset (aset ps 0 ⟨false, 0⟩) 1
            (pinch_debounce_step ((alookup (aset ps 0 ⟨false, 0⟩) 1).getD ⟨false, 0⟩) true)).filter
          (fun p => decide (p.1 ∈ ([] : List Nat)) || decide (p.1 ∉ ([] : List Nat))),
          [], false, true, chi⟩ : Engine) 0
          (rotationBody g ⟨0, false, apc, apd, apal, ath, ain, albl, ages⟩
          (updateRotationAxis (getObj3 (⟨[], [⟨ox, oy, oz, osc, oosc, orx, ory, orz, 1, [1], osel, false, true, some 0, some apal, ax, obbs, onv⟩],
          [], [(1, ⟨0, f21, none, f23, f24, f25, bpc, bth, bin, f29, f2a, f2b, none⟩)],
          (aset (aset ps 0 ⟨false, 0⟩) 1
            (pinch_debounce_step ((alookup (aset ps 0 ⟨false, 0⟩) 1).getD ⟨false, 0⟩) true)).filter
          (fun p => decide (p.1 ∈ ([] : List Nat)) || decide (p.1 ∉ ([] : List Nat))),
          [], false, true, chi⟩ : Engine) 0)
            [⟨0, false, apc, apd, apal, ath, ain, albl, ages⟩, ⟨1, true, bpc, bpd, bpal, bth, bin, blbl, bges⟩])))) := by
        unfold rotLostStep
        rw [hidx]
      have hc2 : ((getObj3 (setObj3 (⟨[], [⟨ox, oy, oz, osc, oosc, orx, ory, orz, 1, [1], osel, false, true, some 0, some apal, ax, obbs, onv⟩],
          [], [(1, ⟨0, f21, none, f23, f24, f25, bpc, bth, bin, f29, f2a, f2b, none⟩)],
          (aset (aset ps 0 ⟨false, 0⟩) 1
            (pinch_debounce_step ((alookup (aset ps 0 ⟨false, 0⟩) 1).getD ⟨false, 0⟩) true)).filter
          (fun p => decide (p.1 ∈ ([] : List Nat)) || decide (p.1 ∉ ([] : List Nat))),
          [], false, true, chi⟩ : Engine) 0
          (rotationBody g ⟨0, false, apc, apd, apal, ath, ain, albl, ages⟩
          (updateRotationAxis (getObj3 (⟨[], [⟨ox, oy, oz, osc, oosc, orx, ory, orz, 1, [1], osel, false, true, some 0, some apal, ax, obbs, onv⟩],
          [], [(1, ⟨0, f21, none, f23, f24, f25, bpc, bth, bin, f29, f2a, f2b, none⟩)],
          (aset (aset ps 0 ⟨false, 0⟩) 1
            (pinch_debounce_step ((alookup (aset ps 0 ⟨false, 0⟩) 1).getD ⟨false, 0⟩) true)).filter
          (fun p => decide (p.1 ∈ ([] : List Nat)) || decide (p.1 ∉ ([] : List Nat))),
          [], false, true, chi⟩ : Engine) 0)
            [⟨0, false, apc, apd, apal, ath, ain, albl, ages⟩, ⟨1, true, bpc, bpd, bpal, bth, bin, blbl, bges⟩]))) 0).is_in_rotation_mode &&
          !(List.any ([⟨0, false, apc, apd, apal, ath, ain, albl, ages⟩, ⟨1, true, bpc, bpd, bpal, bth, bin, blbl, bges⟩] : List HandInfo) fun x => x.hand_idx == 0)) = false := by
        rw [show (List.any ([⟨0, false, apc, apd, apal, ath, ain, albl, ages⟩, ⟨1, true, bpc, bpd, bpal, bth, bin, blbl, bges⟩] : List HandInfo) fun x => x.hand_idx == 0) = true from rfl,
          Bool.not_true, Bool.and_false]
      have hL : rotCleanupLostHand [⟨0, false, apc, apd, apal, ath, ain, albl, ages⟩, ⟨1, true, bpc, bpd, bpal, bth, bin, blbl, bges⟩] (setObj3 (⟨[], [⟨ox, oy, oz, osc, oosc, orx, ory, orz, 1, [1], osel, false, true, some 0, some apal, ax, obbs, onv⟩],
          [], [(1, ⟨0, f21, none, f23, f24, f25, bpc, bth, bin, f29, f2a, f2b, none⟩)],
          (aset (aset ps 0 ⟨false, 0⟩) 1
            (pinch_debounce_step ((alookup (aset ps 0 ⟨false, 0⟩) 1).getD ⟨false, 0⟩) true)).filter
          (fun p => decide (p.1 ∈ ([] : List Nat)) || decide (p.1 ∉ ([] : List Nat))),
          [], false, true, chi⟩ : Engine) 0
          (rotationBody g ⟨0, false, apc, apd, apal, ath, ain, albl, ages⟩
          (updateRotationAxis (getObj3 (⟨[], [⟨ox, oy, oz, osc, oosc, orx, ory, orz, 1, [1], osel, false, true, some 0, some apal, ax, obbs, onv⟩],
          [], [(1, ⟨0, f21, none, f23, f24, f25, bpc, bth, bin, f29, f2a, f2b, none⟩)],
          (aset (aset ps 0 ⟨false, 0⟩) 1
            (pinch_debounce_step ((alookup (aset ps 0 ⟨false, 0⟩) 1).getD ⟨false, 0⟩) true)).filter
          (fun p => decide (p.1 ∈ ([] : List Nat)) || decide (p.1 ∉ ([] : List Nat))),
          [], false, true, chi⟩ : Engine) 0)
            [⟨0, false, apc, apd, apal, ath, ain, albl, ages⟩, ⟨1, true, bpc, bpd, bpal, bth, bin, blbl, bges⟩]))) = (setObj3 (⟨[], [⟨ox, oy, oz, osc, oosc, orx, ory, orz, 1, [1], osel, false, true, some 0, some apal, ax, obbs, onv⟩],
          [], [(1, ⟨0, f21, none, f23, f24, f25, bpc, bth, bin, f29, f2a, f2b, none⟩)],
          (aset (aset ps 0 ⟨false, 0⟩) 1
            (pinch_debounce_step ((alookup (aset ps 0 ⟨false, 0⟩) 1).getD ⟨false, 0⟩) true)).filter
          (fun p => decide (p.1 ∈ ([] : List Nat)) || decide (p.1 ∉ ([] : List Nat))),
          [], false, true, chi⟩ : Engine) 0
          (rotationBody g ⟨0, false, apc, apd, apal, ath, ain, albl, ages⟩
          (updateRotationAxis (getObj3 (⟨[], [⟨ox, oy, oz, osc, oosc, orx, ory, orz, 1, [1], osel, false, true, some 0, some apal, ax, obbs, onv⟩],
          [], [(1, ⟨0, f21, none, f23, f24, f25, bpc, bth, bin, f29, f2a, f2b, none⟩)],
          (aset (aset ps 0 ⟨false, 0⟩) 1
            (pinch_debounce_step ((alookup (aset ps 0 ⟨false, 0⟩) 1).getD ⟨false, 0⟩) true)).filter
          (fun p => decide (p.1 ∈ ([] : List Nat)) || decide (p.1 ∉ ([] : List Nat))),
          [], false, true, chi⟩ : Engine) 0)
            [⟨0, false, apc, apd, apal, ath, ain, albl, ages⟩, ⟨1, true, bpc, bpd, bpal, bth, bin, blbl, bges⟩]))) := by
        show rotLostStep [⟨0, false, apc, apd, apal, ath, ain, albl, ages⟩, ⟨1, true, bpc, bpd, bpal, bth, bin, blbl, bges⟩] (setObj3 (⟨[], [⟨ox, oy, oz, osc, oosc, orx, ory, orz, 1, [1], osel, false, true, some 0, some apal, ax, obbs, onv⟩],
          [], [(1, ⟨0, f21, none, f23, f24, f25, bpc, bth, bin, f29, f2a, f2b, none⟩)],
          (aset (aset ps 0 ⟨false, 0⟩) 1
            (pinch_debounce_step ((alookup (aset ps 0 ⟨false, 0⟩) 1).getD ⟨false, 0⟩) true)).filter
          (fun p => decide (p.1 ∈ ([] : List Nat)) || decide (p.1 ∉ ([] : List Nat))),
          [], false, true, chi⟩ : Engine) 0
          (rotationBody g ⟨0, false, apc, apd, apal, ath, ain, albl, ages⟩
          (updateRotationAxis (getObj3 (⟨[], [⟨ox, oy, oz, osc, oosc, orx, ory, orz, 1, [1], osel, false, true, some 0, some apal, ax, obbs, onv⟩],
          [], [(1, ⟨0, f21, none, f23, f24, f25, bpc, bth, bin, f29, f2a, f2b, none⟩)],
          (aset (aset ps 0 ⟨false, 0⟩) 1
            (pinch_debounce_step ((alookup (aset ps 0 ⟨false, 0⟩) 1).getD ⟨false, 0⟩) true)).filter
          (fun p => decide (p.1 ∈ ([] : List Nat)) || decide (p.1 ∉ ([] : List Nat))),
          [], false, true, chi⟩ : Engine) 0)
            [⟨0, false, apc, apd, apal, ath, ain, albl, ages⟩, ⟨1, true, bpc, bpd, bpal, bth, bin, blbl, bges⟩]))) 0 = (setObj3 (⟨[], [⟨ox, oy, oz, osc, oosc, orx, ory, orz, 1, [1], osel, false, true, some 0, some apal, ax, obbs, onv⟩],
          [], [(1, ⟨0, f21, none, f23, f24, f25, bpc, bth, bin, f29, f2a, f2b, none⟩)],
          (aset (aset ps 0 ⟨false, 0⟩) 1
            (pinch_debounce_step ((alookup (aset ps 0 ⟨false, 0⟩) 1).getD ⟨false, 0⟩) true)).filter
          (fun p => decide (p.1 ∈ ([] : List Nat)) || decide (p.1 ∉ ([] : List Nat))),
          [], false, true, chi⟩ : Engine) 0
          (rotationBody g ⟨0, false, apc, apd, apal, ath, ain, albl, ages⟩
          (updateRotationAxis (getObj3 (⟨[], [⟨ox, oy, oz, osc, oosc, orx, ory, orz, 1, [1], osel, false, true, some 0, some apal, ax, obbs, onv⟩],
          [], [(1, ⟨0, f21, none, f23, f24, f25, bpc, bth, bin, f29, f2a, f2b, none⟩)],
          (aset (aset ps 0 ⟨false, 0⟩) 1
            (pinch_debounce_step ((alookup (aset ps 0 ⟨false, 0⟩) 1).getD ⟨false, 0⟩) true)).filter
          (fun p => decide (p.1 ∈ ([] : List Nat)) || decide (p.1 ∉ ([] : List Nat))),
          [], false, true, chi⟩ : Engine) 0)
            [⟨0, false, apc, apd, apal, ath, ain, albl, ages⟩, ⟨1, true, bpc, bpd, bpal, bth, bin, blbl, bges⟩])))
        rw [hL1, hc2]
        rfl
      have hRP : resetPhase [⟨0, false, apc, apd, apal, ath, ain, albl, ages⟩, ⟨1, true, bpc, bpd, bpal, bth, bin, blbl, bges⟩] (setObj3 (⟨[], [⟨ox, oy, oz, osc, oosc, orx, ory, orz, 1, [1], osel, false, true, some 0, some apal, ax, obbs, onv⟩],
          [], [(1, ⟨0, f21, none, f23, f24, f25, bpc, bth, bin, f29, f2a, f2b, none⟩)],
          (aset (aset ps 0 ⟨false, 0⟩) 1
            (pinch_debounce_step ((alookup (aset ps 0 ⟨false, 0⟩) 1).getD ⟨false, 0⟩) true)).filter
          (fun p => decide (p.1 ∈ ([] : List Nat)) || decide (p.1 ∉ ([] : List Nat))),
          [], false, true, chi⟩ : Engine) 0
          (rotationBody g ⟨0, false, apc, apd, apal, ath, ain, albl, ages⟩
          (updateRotationAxis (getObj3 (⟨[], [⟨ox, oy, oz, osc, oosc, orx, ory, orz, 1, [1], osel, false, true, some 0, some apal, ax, obbs, onv⟩],
          [], [(1, ⟨0, f21, none, f23, f24, f25, bpc, bth, bin, f29, f2a, f2b, none⟩)],
          (aset (aset ps 0 ⟨false, 0⟩) 1
            (pinch_debounce_step ((alookup (aset ps 0 ⟨false, 0⟩) 1).getD ⟨false, 0⟩) true)).filter
          (fun p => decide (p.1 ∈ ([] : List Nat)) || decide (p.1 ∉ ([] : List Nat))),
          [], false, true, chi⟩ : Engine) 0)
            [⟨0, false, apc, apd, apal, ath, ain, albl, ages⟩, ⟨1, true, bpc, bpd, bpal, bth, bin, blbl, bges⟩]))) = (setObj3 (⟨[], [⟨ox, oy, oz, osc, oosc, orx, ory, orz, 1, [1], osel, false, true, some 0, some apal, ax, obbs, onv⟩],
          [], [(1, ⟨0, f21, none, f23, f24, f25, bpc, bth, bin, f29, f2a, f2b, none⟩)],
          (aset (aset ps 0 ⟨false, 0⟩) 1
            (pinch_debounce_step ((alookup (aset ps 0 ⟨false, 0⟩) 1).getD ⟨false, 0⟩) true)).filter
          (fun p => decide (p.1 ∈ ([] : List Nat)) || decide (p.1 ∉ ([] : List Nat))),
          [], false, true, chi⟩ : Engine) 0
          (rotationBody g ⟨0, false, apc, apd, apal, ath, ain, albl, ages⟩
          (updateRotationAxis (getObj3 (⟨[], [⟨ox, oy, oz, osc, oosc, orx, ory, orz, 1, [1], osel, false, true, some 0, some apal, ax, obbs, onv⟩],
          [], [(1, ⟨0, f21, none, f23, f24, f25, bpc, bth, bin, f29, f2a, f2b, none⟩)],
          (aset (aset ps 0 ⟨false, 0⟩) 1
            (pinch_debounce_step ((alookup (aset ps 0 ⟨false, 0⟩) 1).getD ⟨false, 0⟩) true)).filter
          (fun p => decide (p.1 ∈ ([] : List Nat)) || decide (p.1 ∉ ([] : List Nat))),
          [], false, true, chi⟩ : Engine) 0)
            [⟨0, false, apc, apd, apal, ath, ain, albl, ages⟩, ⟨1, true, bpc, bpd, bpal, bth, bin, blbl, bges⟩]))) := rfl
      rw [hstep1, hT, hU, hL, hRP]
      exact ⟨hOBm, hOBr, hOBg⟩

  · intro hbp
    have e4 : bpi = false := hbp
    subst e4
    have h1 : processHand g
        [⟨0, false, apc, apd, apal, ath, ain, albl, ages⟩,
         ⟨1, false, bpc, bpd, bpal, bth, bin, blbl, bges⟩]
        ⟨mkC4Engine ⟨ox, oy, oz, osc, oosc, orx, ory, orz, 2, [0, 1], osel, oisel, false,
            orhi, olrp, orax, obbs, onv⟩
          ⟨0, f11, f12, f13, f14, f15, f16, f17, f18, f19, f1a, f1b, f1c⟩
          ⟨0, f21, f22, f23, f24, f25, f26, f27, f28, f29, f2a, f2b, f2c⟩ ps sel chi, [], []⟩
        ⟨0, false, apc, apd, apal, ath, ain, albl, ages⟩ =
        ⟨⟨[], [⟨ox, oy, oz, osc, oosc, orx, ory, orz, 1, [1], osel, oisel, false, orhi, olrp,
              orax, obbs, onv⟩],
          [], [(1, ⟨0, f21, none, f23, f24, f25, f26, f27, f28, f29, f2a, f2b, none⟩)],
          aset ps 0 ⟨false, 0⟩, sel, false, true, chi⟩,
         [], []⟩ := rfl
    have h2 : processHand g
        [⟨0, false, apc, apd, apal, ath, ain, albl, ages⟩,
         ⟨1, false, bpc, bpd, bpal, bth, bin, blbl, bges⟩]
        ⟨⟨[], [⟨ox, oy, oz, osc, oosc, orx, ory, orz, 1, [1], osel, oisel, false, orhi, olrp,
              orax, obbs, onv⟩],
          [], [(1, ⟨0, f21, none, f23, f24, f25, f26, f27, f28, f29, f2a, f2b, none⟩)],
          aset ps 0 ⟨false, 0⟩, sel, false, true, chi⟩,
         [], []⟩
        ⟨1, false, bpc, bpd, bpal, bth, bin, blbl, bges⟩ =
        ⟨⟨[], [⟨ox, oy, oz, osc, oosc, orx, ory, orz, 0, [], false, oisel, false, none, none,
              orax, obbs, onv⟩],
          [], [], aset (aset ps 0 ⟨false, 0⟩) 1 ⟨false, 0⟩, sel, false, true, chi⟩,
         [], []⟩ := rfl
    have hA : afterHands g
        [⟨0, false, apc, apd, apal, ath, ain, albl, ages⟩,
         ⟨1, false, bpc, bpd, bpal, bth, bin, blbl, bges⟩]
        (mkC4Engine ⟨ox, oy, oz, osc, oosc, orx, ory, orz, 2, [0, 1], osel, oisel, false,
            orhi, olrp, orax, obbs, onv⟩
          ⟨0, f11, f12, f13, f14, f15, f16, f17, f18, f19, f1a, f1b, f1c⟩
          ⟨0, f21, f22, f23, f24, f25, f26, f27, f28, f29, f2a, f2b, f2c⟩ ps sel chi) =
        ⟨⟨[], [⟨ox, oy, oz, osc, oosc, orx, ory, orz, 0, [], false, oisel, false, none, none,
              orax, obbs, onv⟩],
          [], [], aset (aset ps 0 ⟨false, 0⟩) 1 ⟨false, 0⟩, sel, false, true, chi⟩,
         [], []⟩ := by
      unfold afterHands
      rw [List.foldl_cons, h1, List.foldl_cons, h2, List.foldl_nil]
    have hstep : stepFrame g
        [⟨0, false, apc, apd, apal, ath, ain, albl, ages⟩, ⟨1, false, bpc, bpd, bpal, bth, bin, blbl, bges⟩]
        (mkC4Engine ⟨ox, oy, oz, osc, oosc, orx, ory, orz, 2, [0, 1], osel, oisel, false,
            orhi, olrp, orax, obbs, onv⟩
          ⟨0, f11, f12, f13, f14, f15, f16, f17, f18, f19, f1a, f1b, f1c⟩
          ⟨0, f21, f22, f23, f24, f25, f26, f27, f28, f29, f2a, f2b, f2c⟩ ps sel chi) =
        { resetPhase
            [⟨0, false, apc, apd, apal, ath, ain, albl, ages⟩, ⟨1, false, bpc, bpd, bpal, bth, bin, blbl, bges⟩]
            (rotCleanupLostHand
              [⟨0, false, apc, apd, apal, ath, ain, albl, ages⟩, ⟨1, false, bpc, bpd, bpal, bth, bin, blbl, bges⟩]
              (rotCleanupUngrabbed
                (selectionPhase g
                  [⟨0, false, apc, apd, apal, ath, ain, albl, ages⟩, ⟨1, false, bpc, bpd, bpal, bth, bin, blbl, bges⟩]
                  (cleanup3d []
                    (cleanup2d []
                      ⟨[], [⟨ox, oy, oz, osc, oosc, orx, ory, orz, 0, [], false, oisel, false, none, none, orax, obbs, onv⟩], [], [], aset (aset ps 0 ⟨false, 0⟩) 1 ⟨false, 0⟩, sel, false, true, chi⟩))))) with
          current_hands_info :=
            [⟨0, false, apc, apd, apal, ath, ain, albl, ages⟩, ⟨1, false, bpc, bpd, bpal, bth, bin, blbl, bges⟩] } := by
      unfold stepFrame processInteractions
      rw [hA]
    have hC1 : cleanup2d []
        ⟨[], [⟨ox, oy, oz, osc, oosc, orx, ory, orz, 0, [], false, oisel, false, none, none, orax, obbs, onv⟩], [], [], aset (aset ps 0 ⟨false, 0⟩) 1 ⟨false, 0⟩, sel, false, true, chi⟩ =
        ⟨[], [⟨ox, oy, oz, osc, oosc, orx, ory, orz, 0, [], false, oisel, false, none, none, orax, obbs, onv⟩], [], [], (aset (aset ps 0 ⟨false, 0⟩) 1 ⟨false, 0⟩).filter (fun p => decide (p.1 ∈ ([] : List Nat)) || decide (p.1 ∉ ([] : List Nat))), sel, false, true, chi⟩ := rfl
    have hC2 : cleanup3d []
        ⟨[], [⟨ox, oy, oz, osc, oosc, orx, ory, orz, 0, [], false, oisel, false, none, none, orax, obbs, onv⟩], [], [], (aset (aset ps 0 ⟨false, 0⟩) 1 ⟨false, 0⟩).filter (fun p => decide (p.1 ∈ ([] : List Nat)) || decide (p.1 ∉ ([] : List Nat))), sel, false, true, chi⟩ =
        ⟨[], [⟨ox, oy, oz, osc, oosc, orx, ory, orz, 0, [], false, oisel, false, none, none, orax, obbs, onv⟩], [], [], (aset (aset ps 0 ⟨false, 0⟩) 1 ⟨false, 0⟩).filter (fun p => decide (p.1 ∈ ([] : List Nat)) || decide (p.1 ∉ ([] : List Nat))), sel, false, true, chi⟩ := rfl
    have hS : selectionPhase g
        [⟨0, false, apc, apd, apal, ath, ain, albl, ages⟩, ⟨1, false, bpc, bpd, bpal, bth, bin, blbl, bges⟩]
        ⟨[], [⟨ox, oy, oz, osc, oosc, orx, ory, orz, 0, [], false, oisel, false, none, none, orax, obbs, onv⟩], [], [], (aset (aset ps 0 ⟨false, 0⟩) 1 ⟨false, 0⟩).filter (fun p => decide (p.1 ∈ ([] : List Nat)) || decide (p.1 ∉ ([] : List Nat))), sel, false, true, chi⟩ =
        ⟨[], [⟨ox, oy, oz, osc, oosc, orx, ory, orz, 0, [], false, false, false, none, none, orax, obbs, onv⟩], [], [], (aset (aset ps 0 ⟨false, 0⟩) 1 ⟨false, 0⟩).filter (fun p => decide (p.1 ∈ ([] : List Nat)) || decide (p.1 ∉ ([] : List Nat))), [], false, true, chi⟩ := rfl
    have hRU : rotCleanupUngrabbed
        ⟨[], [⟨ox, oy, oz, osc, oosc, orx, ory, orz, 0, [], false, false, false, none, none, orax, obbs, onv⟩], [], [], (aset (aset ps 0 ⟨false, 0⟩) 1 ⟨false, 0⟩).filter (fun p => decide (p.1 ∈ ([] : List Nat)) || decide (p.1 ∉ ([] : List Nat))), [], false, true, chi⟩ =
        ⟨[], [⟨ox, oy, oz, osc, oosc, orx, ory, orz, 0, [], false, false, false, none, none, orax, obbs, onv⟩], [], [], (aset (aset ps 0 ⟨false, 0⟩) 1 ⟨false, 0⟩).filter (fun p => decide (p.1 ∈ ([] : List Nat)) || decide (p.1 ∉ ([] : List Nat))), [], false, true, chi⟩ := rfl
    have hRL : rotCleanupLostHand
        [⟨0, false, apc, apd, apal, ath, ain, albl, ages⟩, ⟨1, false, bpc, bpd, bpal, bth, bin, blbl, bges⟩]
        ⟨[], [⟨ox, oy, oz, osc, oosc, orx, ory, orz, 0, [], false, false, false, none, none, orax, obbs, onv⟩], [], [], (aset (aset ps 0 ⟨false, 0⟩) 1 ⟨false, 0⟩).filter (fun p => decide (p.1 ∈ ([] : List Nat)) || decide (p.1 ∉ ([] : List Nat))), [], false, true, chi⟩ =
        ⟨[], [⟨ox, oy, oz, osc, oosc, orx, ory, orz, 0, [], false, false, false, none, none, orax, obbs, onv⟩], [], [], (aset (aset ps 0 ⟨false, 0⟩) 1 ⟨false, 0⟩).filter (fun p => decide (p.1 ∈ ([] : List Nat)) || decide (p.1 ∉ ([] : List Nat))), [], false, true, chi⟩ := rfl
    have hRP : resetPhase
        [⟨0, false, apc, apd, apal, ath, ain, albl, ages⟩, ⟨1, false, bpc, bpd, bpal, bth, bin, blbl, bges⟩]
        ⟨[], [⟨ox, oy, oz, osc, oosc, orx, ory, orz, 0, [], false, false, false, none, none, orax, obbs, onv⟩], [], [], (aset (aset ps 0 ⟨false, 0⟩) 1 ⟨false, 0⟩).filter (fun p => decide (p.1 ∈ ([] : List Nat)) || decide (p.1 ∉ ([] : List Nat))), [], false, true, chi⟩ =
        ⟨[], [⟨ox, oy, oz, osc, oosc, orx, ory, orz, 0, [], false, false, false, none, none, orax, obbs, onv⟩], [], [], (aset (aset ps 0 ⟨false, 0⟩) 1 ⟨false, 0⟩).filter (fun p => decide (p.1 ∈ ([] : List Nat)) || decide (p.1 ∉ ([] : List Nat))), [], false, true, chi⟩ := rfl
    rw [hstep, hC1, hC2, hS, hRU, hRL, hRP]
    exact ⟨rfl, rfl⟩

/-- Witness for C4 at a concrete instance: hand 0 releases the fixture
two-hand-grabbed object while hand 1 keeps pinching. -/
theorem release_from_two_hand_grab_witness :
    ((execHand 1 true).is_pinching = true →
      (getObj3 (stepFrame execGeometry [execHand 0 false, execHand 1 true]
          (mkC4Engine c4Obj c4Grab c4Grab [] [] [])) 0).is_in_rotation_mode = true ∧
      (getObj3 (stepFrame execGeometry [execHand 0 false, execHand 1 true]
          (mkC4Engine c4Obj c4Grab c4Grab [] [] [])) 0).rotation_hand_idx = some 0 ∧
      (getObj3 (stepFrame execGeometry [execHand 0 false, execHand 1 true]
          (mkC4Engine c4Obj c4Grab c4Grab [] [] [])) 0).is_grabbed = 1) ∧
    ((execHand 1 true).is_pinching = false →
      (getObj3 (stepFrame execGeometry [execHand 0 false, execHand 1 true]
          (mkC4Engine c4Obj c4Grab c4Grab [] [] [])) 0).is_grabbed = 0 ∧
      (getObj3 (stepFrame execGeometry [execHand 0 false, execHand 1 true]
          (mkC4Engine c4Obj c4Grab c4Grab [] [] [])) 0).is_in_rotation_mode = false) :=
  release_from_two_hand_grab execGeometry (execHand 0 false) (execHand 1 true) c4Obj
    c4Grab c4Grab [] [] [] rfl rfl rfl rfl rfl rfl rfl rfl

end Jarvis
